import Mathlib

/-!
# Fluggo Direct3D interop library: lifetime and activation discipline

A shallow embedding of the managed wrapper classes of
`Fluggo.Graphics.Direct3D.Xna`.  Managed objects are records of their fields,
a native COM pointer is a natural number (`NULL` is zero), a native interface
is a record of the answers the driver gives, and every call the wrapper makes
into the driver (or every event it raises) is appended to a trace, so that
"no native call is issued" is a statement about that trace.  A method that can
throw returns `Except Error _` together with the object state it leaves behind.
-/

namespace Fluggo

deriving instance DecidableEq for Except

/-! ## Common.h / GraphicsAdapter.cpp : results and errors -/

/-- A native `HRESULT`, read as a signed 32-bit value: negative means failure. -/
abbrev HRESULT := Int

/-- A managed `IntPtr` holding an opaque native handle. -/
abbrev IntPtr := Int

/-- A native interface pointer. -/
abbrev Pointer := Nat

/-- The null native pointer. -/
def NULL : Pointer := 0

/-- A reference to a managed object (its identity on the managed heap). -/
abbrev ObjRef := Nat

/-- A `System.Guid`, kept abstract. -/
abbrev Guid := Nat

/-- The value type `Fluggo::Graphics::Rectangle` of the companion assembly,
which the wrapper reinterprets as a native `RECT` or `D3DRECT`. -/
structure Rectangle where
  Left : Int
  Top : Int
  Right : Int
  Bottom : Int
  deriving DecidableEq, Repr

/-- The value class `CompilerMacro`; a field is `none` when the string reference
is null, as in a default-constructed value. -/
structure CompilerMacro where
  Name : Option String
  Definition : Option String
  deriving DecidableEq, Repr

/-- The success code `S_OK`. -/
def S_OK : HRESULT := 0

/-- The macro `FAILED(hr)`. -/
def FAILED (hr : HRESULT) : Bool := decide (hr < 0)

/-- The Direct3D result code `D3DERR_INVALIDCALL` (`0x8876086C`) as a signed value. -/
def D3DERR_INVALIDCALL : HRESULT := -2005530516

/-- The managed exceptions the wrapper throws.  `HResultException hr` stands for
whatever `Marshal.ThrowExceptionForHR` raises for the failure code `hr`. -/
inductive Error where
  | ArgumentNullException (paramName : String)
  | ArgumentOutOfRangeException (paramName : String)
  | ArgumentException
  | InvalidOperationException
  | ObjectDisposedException
  | NotSupportedException
  | NotImplementedException
  | HResultException (hr : HRESULT)
  /-- A plain `System.Exception` with the given message. -/
  | Exception (message : String)
  /-- A member of a null native pointer or null reference was used. -/
  | NullReferenceException
  /-- An array element outside the array was addressed. -/
  | IndexOutOfRangeException
  deriving DecidableEq, Repr

set_option maxHeartbeats 4000000 in
/-- Everything the wrapper does that is visible outside the managed object:
calls into the native driver and managed events raised. -/
inductive Action where
  /-- `IUnknown::Release` on the given pointer. -/
  | Release (p : Pointer)
  /-- The managed `Disposing` event raised by the resource wrapping `p`. -/
  | Disposing (sender : Pointer)
  | FreePrivateData (p : Pointer) (guid : Guid)
  | SetPriority (p : Pointer) (value : Int)
  | GetPriority (p : Pointer)
  | GetType (p : Pointer)
  | PreLoad (p : Pointer)
  | GenerateMipSubLevels (p : Pointer)
  | SetAutoGenFilterType (p : Pointer) (value : Int)
  | GetAutoGenFilterType (p : Pointer)
  | SetLOD (p : Pointer) (value : Nat)
  | GetLOD (p : Pointer)
  | GetLevelCount (p : Pointer)
  | GetCurrentTechnique (p : Pointer)
  | SetTechnique (p : Pointer) (technique : IntPtr)
  | EffectBegin (p : Pointer) (flags : Nat)
  | EffectEnd (p : Pointer)
  | BeginPass (p : Pointer) (index : Int)
  | EndPass (p : Pointer)
  | FindNextValidTechnique (p : Pointer) (after : IntPtr)
  | BeginScene (p : Pointer)
  | EndScene (p : Pointer)
  | DrawPrimitive (p : Pointer) (primitiveType : Int) (startVertex : Int) (primitiveCount : Int)
  | DrawIndexedPrimitive (p : Pointer) (primitiveType : Int) (baseVertex : Int)
      (minVertexIndex : Int) (numVertices : Int) (startIndex : Int) (primitiveCount : Int)
  | DrawPrimitiveUP (p : Pointer) (primitiveType : Int) (primitiveCount : Int)
      (vertexOffset : Int) (stride : Nat)
  /-- `IDirect3DDevice9::Clear`; `z` is the bit pattern of the `float` given. -/
  | Clear (p : Pointer) (count : Nat) (rectangles : Option (List Rectangle)) (targets : Int)
      (color : Nat) (z : Nat) (stencil : Nat)
  | Present (p : Pointer) (sourceRect : Option Rectangle) (destRect : Option Rectangle)
      (destWindowOverride : IntPtr)
  /-- `Marshal::StringToHGlobalAnsi`, an unmanaged allocation holding `text`. -/
  | StringToHGlobalAnsi (text : String)
  /-- `Marshal::StringToHGlobalUni`; for a null string nothing is allocated. -/
  | StringToHGlobalUni (text : Option String)
  /-- `Marshal::FreeHGlobal` of the allocation holding `text`. -/
  | FreeHGlobal (text : String)
  | D3DXCompileShader (source : String) (sourceLength : Int)
      (macros : Option (List CompilerMacro)) (functionName : String) (profile : String)
      (options : Int)
  | D3DXCreateEffectCompiler (source : String) (sourceLength : Int)
      (macros : Option (List CompilerMacro)) (options : Int)
  | CompileEffect (compiler : Pointer) (options : Int)
  /-- `Release` of the `ID3DXBuffer` held in the named local variable. -/
  | BufferRelease (holder : String)
  /-- `IDirect3DDevice9::GetTexture` for a texture stage. -/
  | GetTexture (p : Pointer) (stage : Int)
  /-- `IDirect3DDevice9::SetTexture`; `texture` is `NULL` when the stage is cleared. -/
  | SetTexture (p : Pointer) (stage : Int) (texture : Pointer)
  /-- `IUnknown::QueryInterface` on `p` for the interface named. -/
  | QueryInterface (p : Pointer) (iid : String)
  | Direct3DCreate9
  | GetAdapterCount (p : Pointer)
  | GetAdapterIdentifier (p : Pointer) (adapter : Nat)
  | CreateVertexBuffer (p : Pointer) (length : Int) (usage : Int) (pool : Int)
  | CreateIndexBuffer (p : Pointer) (length : Int) (usage : Int) (format : Int) (pool : Int)
  | CreateTexture (p : Pointer) (width : Int) (height : Int) (levels : Int) (usage : Int)
      (format : Int) (pool : Int)
  /-- `Lock` of a vertex or index buffer: `sizeToLock` bytes from byte `offsetToLock`. -/
  | Lock (p : Pointer) (offsetToLock : Int) (sizeToLock : Int) (flags : Int)
  | Unlock (p : Pointer)
  | GetLevelDesc (p : Pointer) (level : Int)
  | LockRect (p : Pointer) (level : Int) (rect : Option Rectangle) (flags : Int)
  | UnlockRect (p : Pointer) (level : Int)
  /-- A `memcpy` into the locked region: `count` elements of `elementSize`
  bytes each, read from `data[sourceIndex]` onwards, written at byte
  `targetOffset` of the region. -/
  | memcpy (targetOffset : Int) (sourceIndex : Int) (count : Int) (elementSize : Nat)
  deriving DecidableEq, Repr

/-- What a method call leaves behind: the value returned or the exception
thrown, the object state after the call, and the actions performed, in order. -/
structure Outcome (σ α : Type) where
  result : Except Error α
  state : σ
  trace : List Action
  deriving DecidableEq

/-- Translation of `Utility::CheckResult`: `D3DERR_INVALIDCALL` becomes an
`ArgumentException`, every other failure code is handed to
`Marshal.ThrowExceptionForHR`, success codes pass. -/
def Utility.CheckResult (result : HRESULT) : Except Error Unit :=
  if result = D3DERR_INVALIDCALL then
    .error .ArgumentException
  else if result < 0 then
    .error (.HResultException result)
  else
    .ok ()

/-! ## GraphicsResource.h / GraphicsResource.cpp -/

/-- The answers of the native `IDirect3DResource9` (and `IDirect3DBaseTexture9`)
behind a resource. -/
structure IDirect3DResource9 where
  FreePrivateData : Guid → HRESULT
  SetPriority : Int → Int
  GetPriority : Int
  GetType : Int
  SetAutoGenFilterType : Int → HRESULT
  GetAutoGenFilterType : Int
  SetLOD : Nat → Nat
  GetLOD : Nat
  GetLevelCount : Nat

/-- The fields of `ref class GraphicsResource`. -/
structure GraphicsResource where
  _device : ObjRef
  _resource : Pointer
  _name : Option String
  _tag : Option ObjRef
  deriving DecidableEq, Repr

/-- The constructor `GraphicsResource( device, resource )`. -/
def GraphicsResource.new (device : Option ObjRef) (resource : Pointer) :
    Except Error GraphicsResource :=
  match device with
  | none => .error (.ArgumentNullException "device")
  | some d =>
    if resource = NULL then
      .error (.ArgumentNullException "resource")
    else
      .ok { _device := d, _resource := resource, _name := none, _tag := none }

/-- The internal property `GraphicsResource::Ptr`. -/
def GraphicsResource.Ptr (r : GraphicsResource) : Except Error Pointer :=
  if r._resource = NULL then
    .error .ObjectDisposedException
  else
    .ok r._resource

/-- The finalizer `!GraphicsResource()`: the release path proper. -/
def GraphicsResource.Finalize (r : GraphicsResource) : GraphicsResource × List Action :=
  if r._resource ≠ NULL then
    ({ r with _resource := NULL }, [.Release r._resource, .Disposing r._resource])
  else
    (r, [])

/-- The destructor `~GraphicsResource()`, which only runs the finalizer. -/
def GraphicsResource.Dispose (r : GraphicsResource) : GraphicsResource × List Action :=
  r.Finalize

/-- The two entry points of the release path. -/
inductive ReleaseEntry where
  | destructor
  | finalizer
  deriving DecidableEq, Repr

/-- One run of the release path through the given entry point. -/
def GraphicsResource.release (r : GraphicsResource) : ReleaseEntry → GraphicsResource × List Action
  | .destructor => r.Dispose
  | .finalizer => r.Finalize

/-- Runs of the release path one after the other, with the accumulated trace. -/
def GraphicsResource.releaseAll (r : GraphicsResource) : List ReleaseEntry → GraphicsResource × List Action
  | [] => (r, [])
  | e :: es =>
    let first := r.release e
    let rest := GraphicsResource.releaseAll first.1 es
    (rest.1, first.2 ++ rest.2)

/-- Method `GraphicsResource::FreePrivateData`. -/
def GraphicsResource.FreePrivateData (r : GraphicsResource) (native : IDirect3DResource9)
    (guid : Guid) : Outcome GraphicsResource Unit :=
  match r.Ptr with
  | .error e => ⟨.error e, r, []⟩
  | .ok p => ⟨Utility.CheckResult (native.FreePrivateData guid), r, [.FreePrivateData p guid]⟩

/-- Setter `GraphicsResource::Priority::set`. -/
def GraphicsResource.Priority_set (r : GraphicsResource) (_native : IDirect3DResource9)
    (value : Int) : Outcome GraphicsResource Unit :=
  match r.Ptr with
  | .error e => ⟨.error e, r, []⟩
  | .ok p => ⟨.ok (), r, [.SetPriority p value]⟩

/-- Getter `GraphicsResource::Priority::get`. -/
def GraphicsResource.Priority_get (r : GraphicsResource) (native : IDirect3DResource9) :
    Outcome GraphicsResource Int :=
  match r.Ptr with
  | .error e => ⟨.error e, r, []⟩
  | .ok p => ⟨.ok native.GetPriority, r, [.GetPriority p]⟩

/-- Getter `GraphicsResource::ResourceType::get`. -/
def GraphicsResource.ResourceType_get (r : GraphicsResource) (native : IDirect3DResource9) :
    Outcome GraphicsResource Int :=
  match r.Ptr with
  | .error e => ⟨.error e, r, []⟩
  | .ok p => ⟨.ok native.GetType, r, [.GetType p]⟩

/-- Method `GraphicsResource::PreLoad`. -/
def GraphicsResource.PreLoad (r : GraphicsResource) (_native : IDirect3DResource9) :
    Outcome GraphicsResource Unit :=
  match r.Ptr with
  | .error e => ⟨.error e, r, []⟩
  | .ok p => ⟨.ok (), r, [.PreLoad p]⟩

/-- Setter of the property `Tag`. -/
def GraphicsResource.Tag_set (r : GraphicsResource) (tag : Option ObjRef) :
    Outcome GraphicsResource Unit :=
  ⟨.ok (), { r with _tag := tag }, []⟩

/-- Getter of the property `Tag`. -/
def GraphicsResource.Tag_get (r : GraphicsResource) : Outcome GraphicsResource (Option ObjRef) :=
  ⟨.ok r._tag, r, []⟩

/-- Setter of the property `Name`. -/
def GraphicsResource.Name_set (r : GraphicsResource) (name : Option String) :
    Outcome GraphicsResource Unit :=
  ⟨.ok (), { r with _name := name }, []⟩

/-- Getter of the property `Name`. -/
def GraphicsResource.Name_get (r : GraphicsResource) : Outcome GraphicsResource (Option String) :=
  ⟨.ok r._name, r, []⟩

/-- Getter of the property `IsDisposed`. -/
def GraphicsResource.IsDisposed_get (r : GraphicsResource) : Outcome GraphicsResource Bool :=
  ⟨.ok (decide (r._resource = NULL)), r, []⟩

/-- Getter of the property `GraphicsDevice`. -/
def GraphicsResource.GraphicsDevice_get (r : GraphicsResource) : Outcome GraphicsResource ObjRef :=
  ⟨.ok r._device, r, []⟩

/-! ## Texture.h / Texture.cpp, VertexBuffer.h, IndexBuffer.h : resource subtypes -/

/-- The fields of `ref class Texture : GraphicsResource`. -/
structure Texture extends GraphicsResource where
  _usage : Option Int
  deriving DecidableEq, Repr

/-- The fields of `ref class Texture2D : Texture`; `_usage2D` is the field
`_usage` that `Texture2D` declares itself, hiding the one of `Texture`. -/
structure Texture2D extends Texture where
  _format : Int
  _height : Int
  _width : Int
  _rmm : Int
  _usage2D : Int
  deriving DecidableEq, Repr

/-- The fields of `ref class VertexBuffer : GraphicsResource`. -/
structure VertexBuffer extends GraphicsResource where
  _length : Int
  _usage : Int
  _pool : Int
  deriving DecidableEq, Repr

/-- The fields of `ref class IndexBuffer : GraphicsResource`. -/
structure IndexBuffer extends GraphicsResource where
  _usage : Int
  _pool : Int
  _size : Int
  deriving DecidableEq, Repr

/-- The internal property `Texture::Ptr`, a cast of `GraphicsResource::Ptr`. -/
def Texture.Ptr (t : Texture) : Except Error Pointer :=
  t.toGraphicsResource.Ptr

/-- Method `Texture::GenerateMipSubLevels`. -/
def Texture.GenerateMipSubLevels (t : Texture) (_native : IDirect3DResource9) :
    Outcome Texture Unit :=
  match t.Ptr with
  | .error e => ⟨.error e, t, []⟩
  | .ok p => ⟨.ok (), t, [.GenerateMipSubLevels p]⟩

/-- Getter `Texture::LevelOfDetail::get`. -/
def Texture.LevelOfDetail_get (t : Texture) (native : IDirect3DResource9) :
    Outcome Texture Nat :=
  match t.Ptr with
  | .error e => ⟨.error e, t, []⟩
  | .ok p => ⟨.ok native.GetLOD, t, [.GetLOD p]⟩

/-- Setter `Texture::LevelOfDetail::set`. -/
def Texture.LevelOfDetail_set (t : Texture) (_native : IDirect3DResource9) (value : Nat) :
    Outcome Texture Unit :=
  match t.Ptr with
  | .error e => ⟨.error e, t, []⟩
  | .ok p => ⟨.ok (), t, [.SetLOD p value]⟩

/-- Setter `Texture::AutoGenFilterType::set`. -/
def Texture.AutoGenFilterType_set (t : Texture) (native : IDirect3DResource9) (value : Int) :
    Outcome Texture Unit :=
  match t.Ptr with
  | .error e => ⟨.error e, t, []⟩
  | .ok p => ⟨Utility.CheckResult (native.SetAutoGenFilterType value), t,
      [.SetAutoGenFilterType p value]⟩

/-- Getter `Texture::AutoGenFilterType::get`. -/
def Texture.AutoGenFilterType_get (t : Texture) (native : IDirect3DResource9) :
    Outcome Texture Int :=
  match t.Ptr with
  | .error e => ⟨.error e, t, []⟩
  | .ok p => ⟨.ok native.GetAutoGenFilterType, t, [.GetAutoGenFilterType p]⟩

/-- Getter `Texture::LevelCount::get`. -/
def Texture.LevelCount_get (t : Texture) (native : IDirect3DResource9) :
    Outcome Texture Nat :=
  match t.Ptr with
  | .error e => ⟨.error e, t, []⟩
  | .ok p => ⟨.ok native.GetLevelCount, t, [.GetLevelCount p]⟩

/-- The property `Texture2D::Width`, a `SIMPLE_PROPERTY_GET` of `_width`. -/
def Texture2D.Width_get (t : Texture2D) : Outcome Texture2D Int :=
  ⟨.ok t._width, t, []⟩

/-- The property `Texture2D::Height`, a `SIMPLE_PROPERTY_GET` of `_height`. -/
def Texture2D.Height_get (t : Texture2D) : Outcome Texture2D Int :=
  ⟨.ok t._height, t, []⟩

/-- The property `Texture2D::Format`, a `SIMPLE_PROPERTY_GET` of `_format`. -/
def Texture2D.Format_get (t : Texture2D) : Outcome Texture2D Int :=
  ⟨.ok t._format, t, []⟩

/-- The property `Texture2D::ResourceUsage`, a `SIMPLE_PROPERTY_GET` of `_usage`. -/
def Texture2D.ResourceUsage_get (t : Texture2D) : Outcome Texture2D Int :=
  ⟨.ok t._usage2D, t, []⟩

/-- The property `Texture2D::ResourceManagementMode`, a `SIMPLE_PROPERTY_GET` of `_rmm`. -/
def Texture2D.ResourceManagementMode_get (t : Texture2D) : Outcome Texture2D Int :=
  ⟨.ok t._rmm, t, []⟩

/-- The property `VertexBuffer::Length`, which returns the field `_length`. -/
def VertexBuffer.Length_get (b : VertexBuffer) : Outcome VertexBuffer Int :=
  ⟨.ok b._length, b, []⟩

/-- The property `IndexBuffer::SizeInBytes`, a `SIMPLE_PROPERTY_GET` of `_size`. -/
def IndexBuffer.SizeInBytes_get (b : IndexBuffer) : Outcome IndexBuffer Int :=
  ⟨.ok b._size, b, []⟩

/-- The property `IndexBuffer::ResourceUsage`, a `SIMPLE_PROPERTY_GET` of `_usage`. -/
def IndexBuffer.ResourceUsage_get (b : IndexBuffer) : Outcome IndexBuffer Int :=
  ⟨.ok b._usage, b, []⟩

/-- The property `IndexBuffer::ResourceManagementMode`, a `SIMPLE_PROPERTY_GET` of `_pool`. -/
def IndexBuffer.ResourceManagementMode_get (b : IndexBuffer) : Outcome IndexBuffer Int :=
  ⟨.ok b._pool, b, []⟩

/-! ## GraphicsDevice.h : the device object and its release path -/

/-- The fields of `ref class GraphicsDevice` that the lifetime and scene
discipline uses. -/
structure GraphicsDevice where
  _deviceW : Pointer
  _beginSceneCalled : Bool
  deriving DecidableEq, Repr

/-- The internal property `GraphicsDevice::Ptr`. -/
def GraphicsDevice.Ptr (d : GraphicsDevice) : Except Error Pointer :=
  if d._deviceW = NULL then
    .error .ObjectDisposedException
  else
    .ok d._deviceW

/-- The finalizer `!GraphicsDevice()`. -/
def GraphicsDevice.Finalize (d : GraphicsDevice) : GraphicsDevice × List Action :=
  if d._deviceW ≠ NULL then
    ({ d with _deviceW := NULL }, [.Release d._deviceW])
  else
    (d, [])

/-- The destructor `~GraphicsDevice()`, which only runs the finalizer. -/
def GraphicsDevice.Dispose (d : GraphicsDevice) : GraphicsDevice × List Action :=
  d.Finalize

/-- The managed heap as far as devices and resources go: a reference is an
index, and the field `_device` of a resource refers into `devices`. -/
structure Heap where
  devices : List GraphicsDevice
  resources : List GraphicsResource
  deriving DecidableEq, Repr

/-- Disposing the device object that `d` refers to. -/
def Heap.disposeDevice (h : Heap) (d : ObjRef) : Heap × List Action :=
  match h.devices[d]? with
  | none => (h, [])
  | some dev =>
    let after := dev.Dispose
    ({ h with devices := h.devices.set d after.1 }, after.2)

/-- Calling a method of the resource object that `i` refers to. -/
def Heap.onResource {α : Type} (h : Heap) (i : ObjRef)
    (method : GraphicsResource → Outcome GraphicsResource α) :
    Option (Outcome GraphicsResource α) :=
  (h.resources[i]?).map method

/-- Reading the internal property `Ptr` of the device object that `d` refers to. -/
def Heap.devicePtr (h : Heap) (d : ObjRef) : Option (Except Error Pointer) :=
  (h.devices[d]?).map GraphicsDevice.Ptr

/-! ## Effect.h / Effect.cpp : effect, pass, valid-technique enumerator -/

/-- The native `ID3DXEffect` behind an effect: the technique it currently has
selected, and the answers it gives to the calls the wrapper makes. -/
structure ID3DXEffect where
  currentTechnique : IntPtr
  SetTechnique : IntPtr → HRESULT
  Begin : Nat → HRESULT
  passCount : Nat
  End : HRESULT
  BeginPass : Int → HRESULT
  EndPass : HRESULT
  FindNextValidTechnique : IntPtr → HRESULT × IntPtr

/-- The native effect after the call `SetTechnique( technique )`: a call that
succeeds makes `technique` the one `GetCurrentTechnique` reports, a call that
fails selects nothing (behaviour of the D3DX library, not of this repository). -/
def ID3DXEffect.afterSetTechnique (native : ID3DXEffect) (technique : IntPtr) : ID3DXEffect :=
  if FAILED (native.SetTechnique technique) then
    native
  else
    { native with currentTechnique := technique }

/-- The enumeration `SaveStateMode`. -/
inductive SaveStateMode where
  | None
  | SaveState
  deriving DecidableEq, Repr

/-- The D3DX flag `D3DXFX_DONOTSAVESTATE`. -/
def D3DXFX_DONOTSAVESTATE : Nat := 1

/-- The fields of `ref class Effect`. -/
structure Effect where
  _effect : Pointer
  _creator : Option String
  _parameterCount : Int
  _techniqueCount : Int
  _functionCount : Int
  _active : Bool
  deriving DecidableEq, Repr

/-- The internal property `Effect::Ptr`. -/
def Effect.Ptr (e : Effect) : Except Error Pointer :=
  if e._effect = NULL then
    .error .ObjectDisposedException
  else
    .ok e._effect

/-- The internal property `Effect::IsActive`. -/
def Effect.IsActive (e : Effect) : Bool :=
  e._active

/-- Method `Effect::Begin( SaveStateMode )`.  It is declared `void`; the pass
count the native `Begin` writes into the local `passCount` is not used. -/
def Effect.Begin (e : Effect) (native : ID3DXEffect) (saveStateMode : SaveStateMode) :
    Outcome Effect Unit :=
  if e._active then
    ⟨.error .InvalidOperationException, e, []⟩
  else
    match e.Ptr with
    | .error err => ⟨.error err, e, []⟩
    | .ok p =>
      if native.currentTechnique = 0 then
        ⟨.error .InvalidOperationException, e, [.GetCurrentTechnique p]⟩
      else
        let flags := if saveStateMode = SaveStateMode.SaveState then 0 else D3DXFX_DONOTSAVESTATE
        match Utility.CheckResult (native.Begin flags) with
        | .error err => ⟨.error err, e, [.GetCurrentTechnique p, .EffectBegin p flags]⟩
        | .ok _ => ⟨.ok (), { e with _active := true }, [.GetCurrentTechnique p, .EffectBegin p flags]⟩

/-- Method `Effect::Begin()`. -/
def Effect.Begin0 (e : Effect) (native : ID3DXEffect) : Outcome Effect Unit :=
  e.Begin native SaveStateMode.SaveState

/-- Method `Effect::End`. -/
def Effect.End (e : Effect) (native : ID3DXEffect) : Outcome Effect Unit :=
  if !e._active then
    ⟨.error .InvalidOperationException, e, []⟩
  else
    match e.Ptr with
    | .error err => ⟨.error err, e, []⟩
    | .ok p =>
      match Utility.CheckResult native.End with
      | .error err => ⟨.error err, e, [.EffectEnd p]⟩
      | .ok _ => ⟨.ok (), { e with _active := false }, [.EffectEnd p]⟩

/-- Setter `Effect::CurrentTechnique::set`; `value` is the handle `value->Ptr`
of the technique given, or `none` for a null reference.  The state is the
effect object together with its native effect. -/
def Effect.CurrentTechnique_set (e : Effect) (native : ID3DXEffect) (value : Option IntPtr) :
    Outcome (Effect × ID3DXEffect) Unit :=
  match value with
  | none => ⟨.error (.ArgumentNullException "value"), (e, native), []⟩
  | some technique =>
    match e.Ptr with
    | .error err => ⟨.error err, (e, native), []⟩
    | .ok p =>
      ⟨Utility.CheckResult (native.SetTechnique technique),
        (e, native.afterSetTechnique technique), [.SetTechnique p technique]⟩

/-- The fields of `ref class EffectPass`; `_effect` refers to the parent
effect object, whose state the methods below receive as `e`. -/
structure EffectPass where
  _effect : ObjRef
  _technique : IntPtr
  _pass : IntPtr
  _hasDesc : Bool
  _active : Bool
  _name : Option String
  _annotationCount : Int
  _index : Int
  deriving DecidableEq, Repr

/-- The constructor `EffectPass( effect, technique, pass, index )`. -/
def EffectPass.new (effect : Option ObjRef) (technique : IntPtr) (pass : IntPtr) (index : Int) :
    Except Error EffectPass :=
  match effect with
  | none => .error (.ArgumentNullException "effect")
  | some eff =>
    if technique = 0 then
      .error (.ArgumentNullException "technique")
    else if pass = 0 then
      .error (.ArgumentNullException "pass")
    else
      .ok { _effect := eff, _technique := technique, _pass := pass, _hasDesc := false,
            _active := false, _name := none, _annotationCount := 0, _index := index }

/-- Method `EffectPass::Begin`.  The check of `_active` and the assignment to
it are commented out in the source. -/
def EffectPass.Begin (pass : EffectPass) (e : Effect) (native : ID3DXEffect) :
    Outcome EffectPass Unit :=
  if !e.IsActive then
    ⟨.error .InvalidOperationException, pass, []⟩
  else
    match e.Ptr with
    | .error err => ⟨.error err, pass, []⟩
    | .ok p =>
      if native.currentTechnique ≠ pass._technique then
        ⟨.error .InvalidOperationException, pass, [.GetCurrentTechnique p]⟩
      else
        ⟨Utility.CheckResult (native.BeginPass pass._index), pass,
          [.GetCurrentTechnique p, .BeginPass p pass._index]⟩

/-- Method `EffectPass::End`.  The check of `_active` and the assignment to it
are commented out in the source. -/
def EffectPass.End (pass : EffectPass) (e : Effect) (native : ID3DXEffect) :
    Outcome EffectPass Unit :=
  match e.Ptr with
  | .error err => ⟨.error err, pass, []⟩
  | .ok p => ⟨Utility.CheckResult native.EndPass, pass, [.EndPass p]⟩

/-- The "before the first element" value `(IntPtr) -1` of the enumerator. -/
def beforeFirst : IntPtr := -1

/-- The fields of `ref class ValidTechniqueEnumerator`; `_effect` refers to
the effect object, whose state the methods below receive as `e`. -/
structure ValidTechniqueEnumerator where
  _effect : ObjRef
  _currentTechnique : IntPtr
  deriving DecidableEq, Repr

/-- Method `ValidTechniqueEnumerator::Reset`. -/
def ValidTechniqueEnumerator.Reset (en : ValidTechniqueEnumerator) : ValidTechniqueEnumerator :=
  { en with _currentTechnique := beforeFirst }

/-- The constructor `ValidTechniqueEnumerator( effect )`: it stores the effect
and calls `Reset`.  A field of a new managed object starts zeroed. -/
def ValidTechniqueEnumerator.new (effect : Option ObjRef) : Except Error ValidTechniqueEnumerator :=
  match effect with
  | none => .error (.ArgumentNullException "effect")
  | some eff =>
    .ok (ValidTechniqueEnumerator.Reset { _effect := eff, _currentTechnique := 0 })

/-- Getter `ValidTechniqueEnumerator::Current::get`; the value is the handle
of the `EffectTechnique` created. -/
def ValidTechniqueEnumerator.Current (en : ValidTechniqueEnumerator) : Except Error IntPtr :=
  if en._currentTechnique = 0 then
    .error .InvalidOperationException
  else
    .ok en._currentTechnique

/-- Method `ValidTechniqueEnumerator::MoveNext`.  The native call receives
`_currentTechnique` and writes its answer back into it through the pinned
pointer before the result code is checked. -/
def ValidTechniqueEnumerator.MoveNext (en : ValidTechniqueEnumerator) (e : Effect)
    (native : ID3DXEffect) : Outcome ValidTechniqueEnumerator Bool :=
  if en._currentTechnique = 0 then
    ⟨.ok false, en, []⟩
  else
    let start : IntPtr := if en._currentTechnique = beforeFirst then 0 else en._currentTechnique
    match e.Ptr with
    | .error err => ⟨.error err, { en with _currentTechnique := start }, []⟩
    | .ok p =>
      let answer := native.FindNextValidTechnique start
      let en1 : ValidTechniqueEnumerator := { en with _currentTechnique := answer.2 }
      match Utility.CheckResult answer.1 with
      | .error err => ⟨.error err, en1, [.FindNextValidTechnique p start]⟩
      | .ok _ => ⟨.ok (decide (answer.2 ≠ 0)), en1, [.FindNextValidTechnique p start]⟩

/-- The enumerator after `k` calls of `MoveNext` in a row. -/
def ValidTechniqueEnumerator.moveNextTimes (e : Effect) (native : ID3DXEffect) :
    Nat → ValidTechniqueEnumerator → ValidTechniqueEnumerator
  | 0, en => en
  | k + 1, en => ValidTechniqueEnumerator.moveNextTimes e native k (en.MoveNext e native).state

/-- The handles a walk through the native query visits: `handleAt next 0` is
the null handle the walk starts from and `handleAt next (k + 1)` is the answer
to the query after `handleAt next k`. -/
def handleAt (next : IntPtr → IntPtr) : Nat → IntPtr
  | 0 => 0
  | k + 1 => next (handleAt next k)

/-! ## GraphicsDevice.h / GraphicsDevice.cpp : scene state and draw calls -/

/-- The answers of the native `IDirect3DDevice9` to the calls the scene and
draw methods make. -/
structure IDirect3DDevice9 where
  BeginScene : HRESULT
  EndScene : HRESULT
  DrawPrimitive : Int → Int → Int → HRESULT
  DrawIndexedPrimitive : Int → Int → Int → Int → Int → Int → HRESULT
  DrawPrimitiveUP : Int → Int → Int → Nat → HRESULT
  Clear : HRESULT
  Present : HRESULT

/-- A value of the enumeration `PrimitiveType`, which is an `int`. -/
abbrev PrimitiveType := Int

/-- Enumerator `PrimitiveType::PointList` (`D3DPT_POINTLIST`). -/
def PrimitiveType.PointList : PrimitiveType := 1

/-- Enumerator `PrimitiveType::LineList` (`D3DPT_LINELIST`). -/
def PrimitiveType.LineList : PrimitiveType := 2

/-- Enumerator `PrimitiveType::LineStrip` (`D3DPT_LINESTRIP`). -/
def PrimitiveType.LineStrip : PrimitiveType := 3

/-- Enumerator `PrimitiveType::TriangleList` (`D3DPT_TRIANGLELIST`). -/
def PrimitiveType.TriangleList : PrimitiveType := 4

/-- Enumerator `PrimitiveType::TriangleStrip` (`D3DPT_TRIANGLESTRIP`). -/
def PrimitiveType.TriangleStrip : PrimitiveType := 5

/-- Enumerator `PrimitiveType::TriangleFan` (`D3DPT_TRIANGLEFAN`). -/
def PrimitiveType.TriangleFan : PrimitiveType := 6

/-- The value a 32-bit signed `int` holds after an arithmetic result `x`. -/
def wrapInt32 (x : Int) : Int :=
  (x + 2147483648) % 4294967296 - 2147483648

/-- Method `GraphicsDevice::GetVertexCount`, in 32-bit `int` arithmetic. -/
def GraphicsDevice.GetVertexCount (primitiveType : PrimitiveType) (primitiveCount : Int) :
    Except Error Int :=
  if primitiveType = PrimitiveType.PointList then
    .ok primitiveCount
  else if primitiveType = PrimitiveType.LineList then
    .ok (wrapInt32 (primitiveCount * 2))
  else if primitiveType = PrimitiveType.LineStrip then
    .ok (wrapInt32 (primitiveCount + 1))
  else if primitiveType = PrimitiveType.TriangleList then
    .ok (wrapInt32 (primitiveCount * 3))
  else if primitiveType = PrimitiveType.TriangleStrip ∨ primitiveType = PrimitiveType.TriangleFan then
    .ok (wrapInt32 (primitiveCount + 2))
  else
    .error .ArgumentException

/-- Method `GraphicsDevice::BeginScene`. -/
def GraphicsDevice.BeginScene (d : GraphicsDevice) (native : IDirect3DDevice9) :
    Outcome GraphicsDevice Unit :=
  match d.Ptr with
  | .error err => ⟨.error err, d, []⟩
  | .ok p =>
    match Utility.CheckResult native.BeginScene with
    | .error err => ⟨.error err, d, [.BeginScene p]⟩
    | .ok _ => ⟨.ok (), { d with _beginSceneCalled := true }, [.BeginScene p]⟩

/-- Method `GraphicsDevice::EndScene`. -/
def GraphicsDevice.EndScene (d : GraphicsDevice) (native : IDirect3DDevice9) :
    Outcome GraphicsDevice Unit :=
  match d.Ptr with
  | .error err => ⟨.error err, d, []⟩
  | .ok p =>
    match Utility.CheckResult native.EndScene with
    | .error err => ⟨.error err, d, [.EndScene p]⟩
    | .ok _ => ⟨.ok (), { d with _beginSceneCalled := false }, [.EndScene p]⟩

/-- The statement `if( !_beginSceneCalled ) BeginScene();` that opens each of
the three draw methods. -/
def GraphicsDevice.autoBeginScene (d : GraphicsDevice) (native : IDirect3DDevice9) :
    Outcome GraphicsDevice Unit :=
  if !d._beginSceneCalled then
    d.BeginScene native
  else
    ⟨.ok (), d, []⟩

/-- Method `GraphicsDevice::DrawPrimitives`. -/
def GraphicsDevice.DrawPrimitives (d : GraphicsDevice) (native : IDirect3DDevice9)
    (primitiveType : PrimitiveType) (startVertex : Int) (primitiveCount : Int) :
    Outcome GraphicsDevice Unit :=
  let opened := d.autoBeginScene native
  match opened.result with
  | .error err => ⟨.error err, opened.state, opened.trace⟩
  | .ok _ =>
    if startVertex < 0 then
      ⟨.error (.ArgumentOutOfRangeException "startVertex"), opened.state, opened.trace⟩
    else if primitiveCount < 1 then
      ⟨.error (.ArgumentOutOfRangeException "primitiveCount"), opened.state, opened.trace⟩
    else
      match opened.state.Ptr with
      | .error err => ⟨.error err, opened.state, opened.trace⟩
      | .ok p =>
        ⟨Utility.CheckResult (native.DrawPrimitive primitiveType startVertex primitiveCount),
          opened.state,
          opened.trace ++ [.DrawPrimitive p primitiveType startVertex primitiveCount]⟩

/-- Method `GraphicsDevice::DrawIndexedPrimitives`. -/
def GraphicsDevice.DrawIndexedPrimitives (d : GraphicsDevice) (native : IDirect3DDevice9)
    (primitiveType : PrimitiveType) (baseVertex : Int) (minVertexIndex : Int) (numVertices : Int)
    (startIndex : Int) (primitiveCount : Int) : Outcome GraphicsDevice Unit :=
  let opened := d.autoBeginScene native
  match opened.result with
  | .error err => ⟨.error err, opened.state, opened.trace⟩
  | .ok _ =>
    if minVertexIndex < 0 then
      ⟨.error (.ArgumentOutOfRangeException "minVertexIndex"), opened.state, opened.trace⟩
    else if primitiveCount < 1 then
      ⟨.error (.ArgumentOutOfRangeException "primitiveCount"), opened.state, opened.trace⟩
    else
      match opened.state.Ptr with
      | .error err => ⟨.error err, opened.state, opened.trace⟩
      | .ok p =>
        ⟨Utility.CheckResult (native.DrawIndexedPrimitive primitiveType baseVertex minVertexIndex
            numVertices startIndex primitiveCount),
          opened.state,
          opened.trace ++ [.DrawIndexedPrimitive p primitiveType baseVertex minVertexIndex
            numVertices startIndex primitiveCount]⟩

/-- Method `GraphicsDevice::DrawUserPrimitives<T>`.  `sizeofT` is `sizeof(T)`
and `simple` is the value of `Utility::IsSimpleValueType( T::typeid )`;
`vertexData` is `none` for a null array reference. -/
def GraphicsDevice.DrawUserPrimitives {T : Type} (d : GraphicsDevice) (native : IDirect3DDevice9)
    (sizeofT : Nat) (simple : Bool)
    (primitiveType : PrimitiveType) (vertexData : Option (List T)) (vertexOffset : Int)
    (primitiveCount : Int) : Outcome GraphicsDevice Unit :=
  let opened := d.autoBeginScene native
  match opened.result with
  | .error err => ⟨.error err, opened.state, opened.trace⟩
  | .ok _ =>
    match vertexData with
    | none => ⟨.error (.ArgumentNullException "vertexData"), opened.state, opened.trace⟩
    | some data =>
      if vertexOffset < 0 ∨ vertexOffset ≥ (data.length : Int) then
        ⟨.error (.ArgumentOutOfRangeException "vertexOffset"), opened.state, opened.trace⟩
      else if primitiveCount < 0 then
        ⟨.error (.ArgumentOutOfRangeException "primitiveCount"), opened.state, opened.trace⟩
      else if sizeofT = 0 then
        ⟨.error .NotSupportedException, opened.state, opened.trace⟩
      else if !simple then
        ⟨.error .NotSupportedException, opened.state, opened.trace⟩
      else
        let vertexCount : Int := (data.length : Int) - vertexOffset
        match GraphicsDevice.GetVertexCount primitiveType primitiveCount with
        | .error err => ⟨.error err, opened.state, opened.trace⟩
        | .ok needed =>
          if needed > vertexCount then
            ⟨.error .ArgumentException, opened.state, opened.trace⟩
          else
            match opened.state.Ptr with
            | .error err => ⟨.error err, opened.state, opened.trace⟩
            | .ok p =>
              ⟨Utility.CheckResult (native.DrawPrimitiveUP primitiveType primitiveCount
                  vertexOffset sizeofT),
                opened.state,
                opened.trace ++ [.DrawPrimitiveUP p primitiveType primitiveCount
                  vertexOffset sizeofT]⟩

/-- Whether an action is one of the three native draw calls. -/
def Action.isDraw : Action → Bool
  | .DrawPrimitive _ _ _ _ => true
  | .DrawIndexedPrimitive _ _ _ _ _ _ _ => true
  | .DrawPrimitiveUP _ _ _ _ _ => true
  | _ => false

/-- The internal constructor `GraphicsDevice( IDirect3DDevice9 *device )`; the
field `_beginSceneCalled` of the new object starts zeroed. -/
def GraphicsDevice.new (device : Pointer) : Except Error GraphicsDevice :=
  if device = NULL then
    .error (.ArgumentNullException "device")
  else
    .ok { _deviceW := device, _beginSceneCalled := false }

/-- Method `GraphicsDevice::Clear`; `rectangles` is `none` for a null array. -/
def GraphicsDevice.Clear (d : GraphicsDevice) (native : IDirect3DDevice9)
    (rectangles : Option (List Rectangle)) (targets : Int) (color : Nat) (z : Nat)
    (stencil : Nat) : Outcome GraphicsDevice Unit :=
  match rectangles with
  | some [] => ⟨.error .ArgumentException, d, []⟩
  | _ =>
    match d.Ptr with
    | .error err => ⟨.error err, d, []⟩
    | .ok p =>
      let count : Nat :=
        match rectangles with
        | none => 0
        | some rs => rs.length
      ⟨Utility.CheckResult native.Clear, d, [.Clear p count rectangles targets color z stencil]⟩

/-- Method `GraphicsDevice::Present`; a rectangle is `none` when the
`Nullable` given has no value. -/
def GraphicsDevice.Present (d : GraphicsDevice) (native : IDirect3DDevice9)
    (sourceRect : Option Rectangle) (destRect : Option Rectangle) (destWindowOverride : IntPtr) :
    Outcome GraphicsDevice Unit :=
  let closed : Outcome GraphicsDevice Unit :=
    if d._beginSceneCalled then d.EndScene native else ⟨.ok (), d, []⟩
  match closed.result with
  | .error err => ⟨.error err, closed.state, closed.trace⟩
  | .ok _ =>
    match closed.state.Ptr with
    | .error err => ⟨.error err, closed.state, closed.trace⟩
    | .ok p =>
      ⟨Utility.CheckResult native.Present, closed.state,
        closed.trace ++ [.Present p sourceRect destRect destWindowOverride]⟩

/-- Whether an exception is an argument error: `ArgumentException` or one of
its subclasses `ArgumentNullException` and `ArgumentOutOfRangeException`. -/
def Error.isArgument : Error → Bool
  | .ArgumentException => true
  | .ArgumentNullException _ => true
  | .ArgumentOutOfRangeException _ => true
  | _ => false

/-- The number of vertices a draw of `n` primitives reads, in the words of the
specification and in unbounded integers: point list `n`, line list `2n`, line
strip `n + 1`, triangle list `3n`, triangle strip and fan `n + 2`; no number
for any other primitive type. -/
def requiredVertices (primitiveType : PrimitiveType) (n : Int) : Option Int :=
  if primitiveType = PrimitiveType.PointList then
    some n
  else if primitiveType = PrimitiveType.LineList then
    some (2 * n)
  else if primitiveType = PrimitiveType.LineStrip then
    some (n + 1)
  else if primitiveType = PrimitiveType.TriangleList then
    some (3 * n)
  else if primitiveType = PrimitiveType.TriangleStrip ∨ primitiveType = PrimitiveType.TriangleFan then
    some (n + 2)
  else
    none

/-! ## Common.h, CompiledShader.h, CompiledShader.cpp, Effect.h, Effect.cpp : offline compilation -/

/-- A value of the enumeration `TargetPlatform`, which is an `int`. -/
abbrev TargetPlatform := Int

/-- Enumerator `TargetPlatform::Unknown`. -/
def TargetPlatform.Unknown : TargetPlatform := 0

/-- Enumerator `TargetPlatform::Windows`. -/
def TargetPlatform.Windows : TargetPlatform := 1

/-- Enumerator `TargetPlatform::Xbox360`. -/
def TargetPlatform.Xbox360 : TargetPlatform := 2

/-- A value of the enumeration `ShaderProfile`, which is an `int`. -/
abbrev ShaderProfile := Int

/-- Enumerator `ShaderProfile::PS_1_1`. -/
def ShaderProfile.PS_1_1 : ShaderProfile := 0

/-- Enumerator `ShaderProfile::PS_1_2`. -/
def ShaderProfile.PS_1_2 : ShaderProfile := 1

/-- Enumerator `ShaderProfile::PS_1_3`. -/
def ShaderProfile.PS_1_3 : ShaderProfile := 2

/-- Enumerator `ShaderProfile::PS_1_4`. -/
def ShaderProfile.PS_1_4 : ShaderProfile := 3

/-- Enumerator `ShaderProfile::PS_2_0`. -/
def ShaderProfile.PS_2_0 : ShaderProfile := 4

/-- Enumerator `ShaderProfile::PS_2_A`. -/
def ShaderProfile.PS_2_A : ShaderProfile := 5

/-- Enumerator `ShaderProfile::PS_2_B`. -/
def ShaderProfile.PS_2_B : ShaderProfile := 6

/-- Enumerator `ShaderProfile::PS_2_SW`. -/
def ShaderProfile.PS_2_SW : ShaderProfile := 7

/-- Enumerator `ShaderProfile::PS_3_0`. -/
def ShaderProfile.PS_3_0 : ShaderProfile := 8

/-- Enumerator `ShaderProfile::XPS_3_0`. -/
def ShaderProfile.XPS_3_0 : ShaderProfile := 9

/-- Enumerator `ShaderProfile::VS_1_1`. -/
def ShaderProfile.VS_1_1 : ShaderProfile := 10

/-- Enumerator `ShaderProfile::VS_2_0`. -/
def ShaderProfile.VS_2_0 : ShaderProfile := 11

/-- Enumerator `ShaderProfile::VS_2_A`. -/
def ShaderProfile.VS_2_A : ShaderProfile := 12

/-- Enumerator `ShaderProfile::VS_2_SW`. -/
def ShaderProfile.VS_2_SW : ShaderProfile := 13

/-- Enumerator `ShaderProfile::VS_3_0`. -/
def ShaderProfile.VS_3_0 : ShaderProfile := 14

/-- Enumerator `ShaderProfile::XVS_3_0`. -/
def ShaderProfile.XVS_3_0 : ShaderProfile := 15

/-- Enumerator `ShaderProfile::Unknown`. -/
def ShaderProfile.Unknown : ShaderProfile := 16

/-- The identifier the enumeration `ShaderProfile` declares for a value, if any. -/
def ShaderProfile.enumName (profile : ShaderProfile) : Option String :=
  if profile = ShaderProfile.PS_1_1 then some "PS_1_1"
  else if profile = ShaderProfile.PS_1_2 then some "PS_1_2"
  else if profile = ShaderProfile.PS_1_3 then some "PS_1_3"
  else if profile = ShaderProfile.PS_1_4 then some "PS_1_4"
  else if profile = ShaderProfile.PS_2_0 then some "PS_2_0"
  else if profile = ShaderProfile.PS_2_A then some "PS_2_A"
  else if profile = ShaderProfile.PS_2_B then some "PS_2_B"
  else if profile = ShaderProfile.PS_2_SW then some "PS_2_SW"
  else if profile = ShaderProfile.PS_3_0 then some "PS_3_0"
  else if profile = ShaderProfile.XPS_3_0 then some "XPS_3_0"
  else if profile = ShaderProfile.VS_1_1 then some "VS_1_1"
  else if profile = ShaderProfile.VS_2_0 then some "VS_2_0"
  else if profile = ShaderProfile.VS_2_A then some "VS_2_A"
  else if profile = ShaderProfile.VS_2_SW then some "VS_2_SW"
  else if profile = ShaderProfile.VS_3_0 then some "VS_3_0"
  else if profile = ShaderProfile.XVS_3_0 then some "XVS_3_0"
  else if profile = ShaderProfile.Unknown then some "Unknown"
  else none

/-- The `switch( profile )` of `ShaderCompiler::CompileFromSource`: the value
assigned to `profileName`, or `none` for the `default` branch, which throws. -/
def ShaderCompiler.profileName (profile : ShaderProfile) : Option String :=
  if profile = ShaderProfile.PS_1_1 then some "ps_1_1"
  else if profile = ShaderProfile.PS_1_2 then some "ps_1_2"
  else if profile = ShaderProfile.PS_1_3 then some "ps_1_3"
  else if profile = ShaderProfile.PS_1_4 then some "ps_1_4"
  else if profile = ShaderProfile.PS_2_0 then some "ps_2_0"
  else if profile = ShaderProfile.PS_2_A then some "ps_2_a"
  else if profile = ShaderProfile.PS_2_B then some "ps_2_b"
  else if profile = ShaderProfile.PS_2_SW then some "ps_2_sw"
  else if profile = ShaderProfile.PS_3_0 then some "ps_3_0"
  else if profile = ShaderProfile.XPS_3_0 then some "xps_3_0"
  else if profile = ShaderProfile.VS_1_1 then some "vs_1_1"
  else if profile = ShaderProfile.VS_2_0 then some "vs_2_0"
  else if profile = ShaderProfile.VS_2_A then some "vs_2_a"
  else if profile = ShaderProfile.VS_2_SW then some "vs_2_sw"
  else if profile = ShaderProfile.VS_3_0 then some "vs_3_0"
  else if profile = ShaderProfile.XVS_3_0 then some "xvs_3_0"
  else none

/-- What a D3DX compile call leaves behind: its result code, the code buffer
and the error-message buffer (`none` for a `NULL` buffer pointer). -/
structure CompileAnswer where
  result : HRESULT
  buffer : Option (List Nat)
  errors : Option String

/-- What `D3DXCreateEffectCompiler` leaves behind: its result code, the
compiler pointer and the error-message buffer. -/
structure CreateCompilerAnswer where
  result : HRESULT
  compiler : Pointer
  errors : Option String

/-- The answers of the D3DX compile functions. -/
structure D3DX where
  D3DXCompileShader : CompileAnswer
  D3DXCreateEffectCompiler : CreateCompilerAnswer
  CompileEffect : CompileAnswer

/-- The fields of `value class CompiledShader`. -/
structure CompiledShader where
  _shader : Option (List Nat)
  _errorMessages : Option String
  deriving DecidableEq, Repr

/-- The constructor `CompiledShader( shader, errorMessages )`. -/
def CompiledShader.new (shader : Option (List Nat)) (errorMessages : Option String) :
    Except Error CompiledShader :=
  match shader with
  | none => .error (.ArgumentNullException "shader")
  | some code => .ok { _shader := some code, _errorMessages := errorMessages }

/-- The fields of `value class CompiledEffect`. -/
structure CompiledEffect where
  _code : Option (List Nat)
  _errors : Option String
  deriving DecidableEq, Repr

/-- The constructor `CompiledEffect( compiledEffectCode, errors )`. -/
def CompiledEffect.new (compiledEffectCode : Option (List Nat)) (errors : Option String) :
    CompiledEffect :=
  { _code := compiledEffectCode, _errors := errors }

/-- Method `CompiledEffect::GetEffectCode`. -/
def CompiledEffect.GetEffectCode (c : CompiledEffect) : Option (List Nat) :=
  c._code

/-- The property `CompiledEffect::ErrorsAndWarnings`. -/
def CompiledEffect.ErrorsAndWarnings (c : CompiledEffect) : Option String :=
  c._errors

/-- The property `CompiledEffect::Success`, which is `_code != nullptr`. -/
def CompiledEffect.Success (c : CompiledEffect) : Bool :=
  match c._code with
  | none => false
  | some _ => true

/-- Method `CompiledEffect::ToString`. -/
def CompiledEffect.ToString (c : CompiledEffect) : String :=
  match c._errors with
  | none => ""
  | some text => text

/-- The loop that marshals the preprocessor defines: two
`StringToHGlobalUni` calls for each macro, none for a null array. -/
def marshalMacros (preprocessorDefines : Option (List CompilerMacro)) : List Action :=
  match preprocessorDefines with
  | none => []
  | some macros =>
    macros.flatMap fun m => [Action.StringToHGlobalUni m.Name, Action.StringToHGlobalUni m.Definition]

/-- `Marshal::FreeHGlobal` of a marshalled string, skipped for `IntPtr::Zero`. -/
def freeMarshalled (text : Option String) : List Action :=
  match text with
  | none => []
  | some t => [Action.FreeHGlobal t]

/-- The loop of the `finally` block that frees the marshalled defines. -/
def freeMacros (preprocessorDefines : Option (List CompilerMacro)) : List Action :=
  match preprocessorDefines with
  | none => []
  | some macros => macros.flatMap fun m => freeMarshalled m.Name ++ freeMarshalled m.Definition

/-- The statement `if( buffer != NULL ) buffer->Release();`, also written
`SAFE_RELEASE( buffer )`, for the buffer held in the named variable. -/
def releaseBuffer {α : Type} (holder : String) (buffer : Option α) : List Action :=
  match buffer with
  | none => []
  | some _ => [Action.BufferRelease holder]

/-- The part of `ShaderCompiler::CompileFromSource` after the native
`D3DXCompileShader` has answered: the `try` body from the failure test on,
with its `catch` and `finally` blocks, and the copy of the code into a managed
array.  `frees` is what the `finally` block frees. -/
def ShaderCompiler.afterCompile (answer : CompileAnswer) (frees : List Action) :
    Except Error CompiledShader × List Action :=
  let caught : List Action :=
    releaseBuffer "shaderBuffer" answer.buffer ++ releaseBuffer "errorMessagesBuffer" answer.errors
  match FAILED answer.result, answer.errors with
  | true, some errorMessages => (.error (.Exception errorMessages), caught ++ frees)
  | _, _ =>
    match Utility.CheckResult answer.result with
    | .error err => (.error err, caught ++ frees)
    | .ok _ =>
      match answer.buffer with
      | none => (.error .NullReferenceException, frees)
      | some code =>
        if code = [] then
          (.error .IndexOutOfRangeException, frees)
        else
          (CompiledShader.new (some code) answer.errors,
            frees ++ [Action.BufferRelease "shaderBuffer"]
              ++ releaseBuffer "errorMessagesBuffer" answer.errors)

/-- Method `ShaderCompiler::CompileFromSource`; a `none` argument is a null
reference. -/
def ShaderCompiler.CompileFromSource (native : D3DX) (shaderSourceCode : Option String)
    (preprocessorDefines : Option (List CompilerMacro)) (includeHandler : Option ObjRef)
    (options : Int) (functionName : Option String) (profile : ShaderProfile)
    (platform : TargetPlatform) : Outcome Unit CompiledShader :=
  match shaderSourceCode with
  | none => ⟨.error (.ArgumentNullException "shaderSourceCode"), (), []⟩
  | some source =>
    match functionName with
    | none => ⟨.error (.ArgumentNullException "functionName"), (), []⟩
    | some entryPoint =>
      if platform ≠ TargetPlatform.Windows then
        ⟨.error .NotSupportedException, (), []⟩
      else if includeHandler.isSome then
        ⟨.error .NotImplementedException, (), []⟩
      else
        match ShaderCompiler.profileName profile with
        | none => ⟨.error .NotSupportedException, (), []⟩
        | some token =>
          let before : List Action :=
            [Action.StringToHGlobalAnsi source, Action.StringToHGlobalAnsi entryPoint]
              ++ marshalMacros preprocessorDefines
              ++ [Action.D3DXCompileShader source ((source.length : Int) + 1) preprocessorDefines
                    entryPoint token options]
          let frees : List Action :=
            [Action.FreeHGlobal source, Action.FreeHGlobal entryPoint]
              ++ freeMacros preprocessorDefines
          let finish := ShaderCompiler.afterCompile native.D3DXCompileShader frees
          ⟨finish.1, (), before ++ finish.2⟩

/-- The diagnostics `Effect::CompileEffectFromSource` holds in
`compilerErrorMessages` after the second phase, from the texts of the two
error buffers. -/
def Effect.compilerErrorMessages (preprocessorErrorMessages : Option String)
    (compileErrors : Option String) : Option String :=
  match compileErrors with
  | some q =>
    match preprocessorErrorMessages with
    | some p => some (p ++ q)
    | none => some q
  | none => preprocessorErrorMessages

/-- The part of `Effect::CompileEffectFromSource` from the call of
`CompileEffect` on, reached with a compiler created; `tail` is what the
`finally` block does (release of the compiler, freeing of the defines). -/
def Effect.compilePhase (native : D3DX) (create : CreateCompilerAnswer) (options : Int)
    (tail : List Action) : Except Error CompiledEffect × List Action :=
  let answer := native.CompileEffect
  let called : List Action :=
    [Action.CompileEffect create.compiler options]
      ++ releaseBuffer "errorMessagesBuffer" answer.errors
  let messages := Effect.compilerErrorMessages create.errors answer.errors
  match FAILED answer.result, answer.errors with
  | true, some _ => (.ok (CompiledEffect.new none messages), called ++ tail)
  | _, _ =>
    match Utility.CheckResult answer.result with
    | .error err => (.error err, called ++ tail)
    | .ok _ =>
      match answer.buffer with
      | none => (.error .NullReferenceException, called ++ tail)
      | some code =>
        if code = [] then
          (.error .IndexOutOfRangeException, called ++ tail)
        else
          (.ok (CompiledEffect.new (some code) messages),
            called ++ tail ++ [Action.BufferRelease "effectBuffer"])

/-- Method `Effect::CompileEffectFromSource`; a `none` argument is a null
reference.  The parameter `platform` is not used by the method. -/
def Effect.CompileEffectFromSource (native : D3DX) (effectFileSource : Option String)
    (preprocessorDefines : Option (List CompilerMacro)) (includeHandler : Option ObjRef)
    (options : Int) (_platform : TargetPlatform) : Outcome Unit CompiledEffect :=
  match effectFileSource with
  | none => ⟨.error (.ArgumentNullException "effectFileSource"), (), []⟩
  | some source =>
    if includeHandler.isSome then
      ⟨.error .NotImplementedException, (), []⟩
    else
      let marshalled := marshalMacros preprocessorDefines
      let frees := freeMacros preprocessorDefines
      if source = "" then
        -- `PIN_STRING_ANSI` takes the address of the first byte of the source
        ⟨.error .IndexOutOfRangeException, (), marshalled ++ frees⟩
      else
        let create := native.D3DXCreateEffectCompiler
        let called : List Action :=
          marshalled
            ++ [Action.D3DXCreateEffectCompiler source (source.length : Int) preprocessorDefines
                  options]
            ++ releaseBuffer "errorMessagesBuffer" create.errors
        let tail : List Action :=
          (if create.compiler ≠ NULL then [Action.Release create.compiler] else []) ++ frees
        match FAILED create.result, create.errors with
        | true, some preprocessorErrorMessages =>
          ⟨.ok (CompiledEffect.new none (some preprocessorErrorMessages)), (), called ++ tail⟩
        | _, _ =>
          match Utility.CheckResult create.result with
          | .error err => ⟨.error err, (), called ++ tail⟩
          | .ok _ =>
            if create.compiler = NULL then
              ⟨.error .NullReferenceException, (), called ++ tail⟩
            else
              let finish := Effect.compilePhase native create options tail
              ⟨finish.1, (), called ++ finish.2⟩

/-- The diagnostics of a two-phase compilation in the words of the
specification: the phase-one text followed by the phase-two text, an absent
text counting as empty, and no text at all when both are absent. -/
def joinDiagnostics (p q : Option String) : Option String :=
  match p, q with
  | none, none => none
  | _, _ => some (p.getD "" ++ q.getD "")

/-- The profile token of a `D3DXCompileShader` call. -/
def Action.compileShaderProfile : Action → Option String
  | .D3DXCompileShader _ _ _ _ profile _ => some profile
  | _ => none

/-- Whether an action is a call of one of the D3DX compile functions. -/
def Action.isCompileCall : Action → Bool
  | .D3DXCompileShader _ _ _ _ _ _ => true
  | .D3DXCreateEffectCompiler _ _ _ _ => true
  | .CompileEffect _ _ => true
  | _ => false

/-! ## GraphicsDevice.h, GraphicsDevice.cpp : texture stages -/

/-- The answers of the native driver to the texture-stage calls of
`IDirect3DDevice9` and to `QueryInterface` on the texture a stage holds:
`GetTexture` gives the result code and the pointer written to `tex`,
`QueryInterface` the result code and the interface pointer written. -/
structure TextureStages where
  GetTexture : Int → HRESULT × Pointer
  QueryInterface : Pointer → String → HRESULT × Pointer
  SetTexture : Int → Pointer → HRESULT

/-- The three wrapper classes the getter of `TextureCollection` can make. -/
inductive TextureKind where
  | Texture2D
  | Texture3D
  | TextureCube
  deriving DecidableEq, Repr

/-- A non-null `Texture^` as the getter of `TextureCollection` returns it:
either a reference to a texture object that exists already, or a wrapper
object made by the call itself (`gcnew`), given by its class and fields. -/
inductive TextureValue where
  | existing (texture : ObjRef)
  | created (kind : TextureKind) (wrapper : Texture)
  deriving DecidableEq, Repr

/-- The constructor `Texture( device, baseTexture )`, which leaves `_usage` unset. -/
def Texture.new (device : Option ObjRef) (baseTexture : Pointer) : Except Error Texture :=
  match GraphicsResource.new device baseTexture with
  | .error err => .error err
  | .ok r => .ok { toGraphicsResource := r, _usage := none }

/-- The fields of `ref class TextureCollection`.  The dictionary `_dict` is the
finite map it denotes: `TryGetValue` is application, `Remove` and the indexed
assignment are updates at one key. -/
structure TextureCollection where
  _device : ObjRef
  _dict : Int → Option ObjRef
  _offset : Int

/-- The constructor `TextureCollection( device, offset )`. -/
def TextureCollection.new (device : Option ObjRef) (offset : Int) :
    Except Error TextureCollection :=
  match device with
  | none => .error (.ArgumentNullException "device")
  | some d =>
    if offset < 0 then
      .error (.ArgumentOutOfRangeException "offset")
    else
      .ok { _device := d, _dict := fun _ => none, _offset := offset }

/-- Method `Dictionary::Remove` on the map of a `TextureCollection`. -/
def TextureCollection.dictRemove (dict : Int → Option ObjRef) (key : Int) :
    Int → Option ObjRef :=
  fun k => if k = key then none else dict k

/-- The indexed assignment `_dict[key] = value`. -/
def TextureCollection.dictSet (dict : Int → Option ObjRef) (key : Int) (value : ObjRef) :
    Int → Option ObjRef :=
  fun k => if k = key then some value else dict k

/-- The wrapper the getter of `TextureCollection` makes once `QueryInterface`
has succeeded for the class `kind` with the interface pointer `p`. -/
def TextureCollection.wrap (c : TextureCollection) (kind : TextureKind) (p : Pointer) :
    Except Error (Option TextureValue) :=
  match Texture.new (some c._device) p with
  | .error err => .error err
  | .ok t => .ok (some (.created kind t))

/-- The getter `TextureCollection::default::get( index )`; `device` is the
state of the device `_device` refers to.  The sum `index + _offset` is an `int`. -/
def TextureCollection.get (c : TextureCollection) (device : GraphicsDevice)
    (native : TextureStages) (index : Int) : Outcome TextureCollection (Option TextureValue) :=
  if index < 0 ∨ index ≥ 256 then
    ⟨.error (.ArgumentOutOfRangeException "index"), c, []⟩
  else
    match c._dict index with
    | some result => ⟨.ok (some (.existing result)), c, []⟩
    | none =>
      match device.Ptr with
      | .error err => ⟨.error err, c, []⟩
      | .ok p =>
        let stage := wrapInt32 (index + c._offset)
        let answer := native.GetTexture stage
        match Utility.CheckResult answer.1 with
        | .error err => ⟨.error err, c, [.GetTexture p stage]⟩
        | .ok _ =>
          let tex := answer.2
          if tex = NULL then
            ⟨.ok none, c, [.GetTexture p stage]⟩
          else
            let tex2d := native.QueryInterface tex "IID_IDirect3DTexture9"
            if !FAILED tex2d.1 then
              ⟨c.wrap .Texture2D tex2d.2, c,
                [.GetTexture p stage, .QueryInterface tex "IID_IDirect3DTexture9", .Release tex]⟩
            else
              let tex3d := native.QueryInterface tex "IID_IDirect3DVolumeTexture9"
              if !FAILED tex3d.1 then
                ⟨c.wrap .Texture3D tex3d.2, c,
                  [.GetTexture p stage, .QueryInterface tex "IID_IDirect3DTexture9",
                    .QueryInterface tex "IID_IDirect3DVolumeTexture9", .Release tex]⟩
              else
                let texCube := native.QueryInterface tex "IID_IDirect3DCubeTexture9"
                if !FAILED texCube.1 then
                  ⟨c.wrap .TextureCube texCube.2, c,
                    [.GetTexture p stage, .QueryInterface tex "IID_IDirect3DTexture9",
                      .QueryInterface tex "IID_IDirect3DVolumeTexture9",
                      .QueryInterface tex "IID_IDirect3DCubeTexture9", .Release tex]⟩
                else
                  ⟨.error (.Exception "Resource of an unknown type was returned."), c,
                    [.GetTexture p stage, .QueryInterface tex "IID_IDirect3DTexture9",
                      .QueryInterface tex "IID_IDirect3DVolumeTexture9",
                      .QueryInterface tex "IID_IDirect3DCubeTexture9", .Release tex]⟩

/-- The setter `TextureCollection::default::set( index, value )`.  `value` is
`none` for a null reference and otherwise the reference together with the
state of the texture object it refers to. -/
def TextureCollection.set (c : TextureCollection) (device : GraphicsDevice)
    (native : TextureStages) (index : Int) (value : Option (ObjRef × Texture)) :
    Outcome TextureCollection Unit :=
  if index < 0 ∨ index ≥ 256 then
    ⟨.error (.ArgumentOutOfRangeException "index"), c, []⟩
  else
    match value with
    | none =>
      match device.Ptr with
      | .error err => ⟨.error err, c, []⟩
      | .ok p =>
        let stage := wrapInt32 (index + c._offset)
        match Utility.CheckResult (native.SetTexture stage NULL) with
        | .error err => ⟨.error err, c, [.SetTexture p stage NULL]⟩
        | .ok _ =>
          ⟨.ok (), { c with _dict := TextureCollection.dictRemove c._dict index },
            [.SetTexture p stage NULL]⟩
    | some (ref, texture) =>
      match device.Ptr with
      | .error err => ⟨.error err, c, []⟩
      | .ok p =>
        match texture.Ptr with
        | .error err => ⟨.error err, c, []⟩
        | .ok t =>
          let stage := wrapInt32 (index + c._offset)
          match Utility.CheckResult (native.SetTexture stage t) with
          | .error err => ⟨.error err, c, [.SetTexture p stage t]⟩
          | .ok _ =>
            ⟨.ok (), { c with _dict := TextureCollection.dictSet c._dict index ref },
              [.SetTexture p stage t]⟩

/-- The texture stage a native call addresses, for the two stage calls. -/
def Action.textureStage : Action → Option Int
  | .GetTexture _ stage => some stage
  | .SetTexture _ stage _ => some stage
  | _ => none

/-- Whether an action is a call into the native driver about a texture stage
or about the texture a stage holds. -/
def Action.isStageCall : Action → Bool
  | .GetTexture _ _ => true
  | .SetTexture _ _ _ => true
  | .QueryInterface _ _ => true
  | _ => false

/-! ## GraphicsAdapter.h, GraphicsAdapter.cpp : the shared Direct3D factory -/

/-- The fields of `D3DADAPTER_IDENTIFIER9` that `GraphicsAdapter` keeps as numbers. -/
structure D3DADAPTER_IDENTIFIER9 where
  VendorId : Nat
  DeviceId : Nat
  SubSysId : Nat
  Revision : Nat
  deriving DecidableEq, Repr

/-- The answers of a native `IDirect3D9` factory. -/
structure IDirect3D9 where
  GetAdapterCount : Nat
  GetAdapterIdentifier : Nat → HRESULT × D3DADAPTER_IDENTIFIER9

/-- The native side of adapter enumeration: the pointer the next
`Direct3DCreate9` returns, given how many factories were made before, and the
answers of the factory behind each pointer. -/
structure AdapterDriver where
  Direct3DCreate9 : Nat → Pointer
  factory : Pointer → IDirect3D9

/-- The field of the holder class `Direct3D`. -/
structure Direct3D where
  _d3d9 : Pointer
  deriving DecidableEq, Repr

/-- The property `Direct3D::Ptr`. -/
def Direct3D.Ptr (d : Direct3D) : Except Error Pointer :=
  if d._d3d9 = NULL then
    .error .ObjectDisposedException
  else
    .ok d._d3d9

/-- The constructor `Direct3D()`, given the pointer `Direct3DCreate9` returns. -/
def Direct3D.new (created : Pointer) : Except Error Direct3D :=
  if created = NULL then
    .error (.Exception "Could not create a Direct3D object.")
  else
    .ok { _d3d9 := created }

/-- The wrapper `WeakReference<T>`: `Target` is `none` once the object it
referred to has been collected. -/
structure WeakReference where
  Target : Option ObjRef
  deriving DecidableEq, Repr

/-- The static state of `GraphicsAdapter` together with the `Direct3D` objects
made so far; the reference to a `Direct3D` object is its position in
`factories`.  `_d3dRef` is `none` while the static field is a null reference. -/
structure AdapterStatics where
  _d3dRef : Option WeakReference
  factories : List Direct3D
  deriving DecidableEq, Repr

/-- What a garbage collection may do to the weak reference: when it runs
(`run`) and no strong reference in `held` refers to the target, the target is
cleared; otherwise nothing changes. -/
def AdapterStatics.collect (s : AdapterStatics) (held : List ObjRef) (run : Bool) :
    AdapterStatics :=
  match s._d3dRef with
  | some ⟨some r⟩ => if run ∧ r ∉ held then { s with _d3dRef := some ⟨none⟩ } else s
  | _ => s

/-- The static property getter `GraphicsAdapter::D3D::get`, as run by one
thread (the monitor it holds is not modelled). -/
def GraphicsAdapter.D3D_get (s : AdapterStatics) (native : AdapterDriver) :
    Outcome AdapterStatics ObjRef :=
  let d3d : Option ObjRef :=
    match s._d3dRef with
    | none => none
    | some weak => weak.Target
  match d3d with
  | some r => ⟨.ok r, s, []⟩
  | none =>
    match Direct3D.new (native.Direct3DCreate9 s.factories.length) with
    | .error err => ⟨.error err, s, [.Direct3DCreate9]⟩
    | .ok made =>
      ⟨.ok s.factories.length,
        { _d3dRef := some ⟨some s.factories.length⟩, factories := s.factories ++ [made] },
        [.Direct3DCreate9]⟩

/-- The fields of `ref class GraphicsAdapter` that are numbers or references. -/
structure GraphicsAdapter where
  _d3d : ObjRef
  _adapter : Nat
  _vendorID : Nat
  _deviceID : Nat
  _subSysID : Nat
  _revision : Nat
  deriving DecidableEq, Repr

/-- The constructor `GraphicsAdapter( d3d, adapter )`; `d3d` is `none` for a
null reference and otherwise the reference with the state of its object. -/
def GraphicsAdapter.new (d3d : Option (ObjRef × Direct3D)) (native : AdapterDriver)
    (adapter : Nat) : Outcome Unit GraphicsAdapter :=
  match d3d with
  | none => ⟨.error (.ArgumentNullException "d3d"), (), []⟩
  | some (ref, holder) =>
    match holder.Ptr with
    | .error err => ⟨.error err, (), []⟩
    | .ok p =>
      let answer := (native.factory p).GetAdapterIdentifier adapter
      match Utility.CheckResult answer.1 with
      | .error err => ⟨.error err, (), [.GetAdapterIdentifier p adapter]⟩
      | .ok _ =>
        ⟨.ok { _d3d := ref, _adapter := adapter, _vendorID := answer.2.VendorId,
               _deviceID := answer.2.DeviceId, _subSysID := answer.2.SubSysId,
               _revision := answer.2.Revision }, (), [.GetAdapterIdentifier p adapter]⟩

/-- The loop of `GraphicsAdapter::Adapters::get` from index `i` on, with
`remaining` adapters still to wrap. -/
def GraphicsAdapter.fill (d3d : ObjRef × Direct3D) (native : AdapterDriver) :
    (remaining : Nat) → (i : Nat) → Outcome Unit (List GraphicsAdapter)
  | 0, _ => ⟨.ok [], (), []⟩
  | remaining + 1, i =>
    let made := GraphicsAdapter.new (some d3d) native i
    match made.result with
    | .error err => ⟨.error err, (), made.trace⟩
    | .ok adapter =>
      let rest := GraphicsAdapter.fill d3d native remaining (i + 1)
      match rest.result with
      | .error err => ⟨.error err, (), made.trace ++ rest.trace⟩
      | .ok adapters => ⟨.ok (adapter :: adapters), (), made.trace ++ rest.trace⟩

/-- The static property getter `GraphicsAdapter::Adapters::get`.  A managed
reference always refers to an object, so the lookup of the factory just
obtained fails in no state the program reaches. -/
def GraphicsAdapter.Adapters_get (s : AdapterStatics) (native : AdapterDriver) :
    Outcome AdapterStatics (List GraphicsAdapter) :=
  let got := GraphicsAdapter.D3D_get s native
  match got.result with
  | .error err => ⟨.error err, got.state, got.trace⟩
  | .ok d3d =>
    match got.state.factories.get? d3d with
    | none => ⟨.error .NullReferenceException, got.state, got.trace⟩
    | some holder =>
      match holder.Ptr with
      | .error err => ⟨.error err, got.state, got.trace⟩
      | .ok p =>
        let filled := GraphicsAdapter.fill (d3d, holder) native (native.factory p).GetAdapterCount 0
        ⟨filled.result, got.state, got.trace ++ [.GetAdapterCount p] ++ filled.trace⟩

/-! ## GraphicsResource.h, Common.h : enumerations and flags -/

/-- Enumerator `ResourceManagementMode::Manual` (`D3DPOOL_DEFAULT`). -/
def ResourceManagementMode.Manual : Int := 0

/-- Enumerator `ResourceManagementMode::Automatic` (`D3DPOOL_MANAGED`). -/
def ResourceManagementMode.Automatic : Int := 1

/-- The pool `D3DPOOL_DEFAULT`. -/
def D3DPOOL_DEFAULT : Int := 0

/-- The pool `D3DPOOL_MANAGED`. -/
def D3DPOOL_MANAGED : Int := 1

/-- Enumerator `ResourceUsage::Dynamic` (`D3DUSAGE_DYNAMIC`, `0x200`). -/
def ResourceUsage.Dynamic : Int := 512

/-- Enumerator `SetDataOptions::NoOverwrite`. -/
def SetDataOptions.NoOverwrite : Int := 1

/-- Enumerator `SetDataOptions::Discard`. -/
def SetDataOptions.Discard : Int := 2

/-- The lock flag `D3DLOCK_DISCARD` (`0x2000`). -/
def D3DLOCK_DISCARD : Int := 8192

/-- The lock flag `D3DLOCK_NOOVERWRITE` (`0x1000`). -/
def D3DLOCK_NOOVERWRITE : Int := 4096

/-- The index format `D3DFMT_INDEX16`. -/
def D3DFMT_INDEX16 : Int := 101

/-- The index format `D3DFMT_INDEX32`. -/
def D3DFMT_INDEX32 : Int := 102

/-- Enumerator `IndexElementSize::SixteenBits`. -/
def IndexElementSize.SixteenBits : Int := 0

/-- The test `(value & flag) == flag` on enumeration values. -/
def hasFlag (value flag : Int) : Bool :=
  decide (Int.land value flag = flag)

/-- The conversion of an `int` to `unsigned int`. -/
def toUInt32 (x : Int) : Int :=
  x % 4294967296

/-! ## VertexBuffer.cpp, IndexBuffer.cpp, Texture.cpp : resource factories -/

/-- The answers of the native device to the three allocation calls: the
result code and the pointer written. -/
structure Allocator where
  CreateVertexBuffer : Int → Int → Int → HRESULT × Pointer
  CreateIndexBuffer : Int → Int → Int → Int → HRESULT × Pointer
  CreateTexture : Int → Int → Int → Int → Int → Int → HRESULT × Pointer

/-- The result of an allocation call after `Utility::CheckResult`. -/
def Allocator.checked (answer : HRESULT × Pointer) : Except Error Pointer :=
  match Utility.CheckResult answer.1 with
  | .error err => .error err
  | .ok _ => .ok answer.2

/-- Method `VertexBuffer::CreateBuffer( device, vertexType, elementCount, usage,
resourceManagementMode )`.  `device` is `none` for a null reference; a type is
given by its `Marshal::SizeOf`, `none` for a null `Type^`.  The length passed
is the `int` product. -/
def VertexBuffer.CreateBuffer (device : Option GraphicsDevice) (native : Allocator)
    (vertexType : Option Int) (elementCount usage resourceManagementMode : Int) :
    Outcome Unit Pointer :=
  match device with
  | none => ⟨.error (.ArgumentNullException "device"), (), []⟩
  | some d =>
    match vertexType with
    | none => ⟨.error (.ArgumentNullException "vertexType"), (), []⟩
    | some size =>
      if elementCount ≤ 0 then
        ⟨.error (.ArgumentOutOfRangeException "elementCount"), (), []⟩
      else
        match d.Ptr with
        | .error err => ⟨.error err, (), []⟩
        | .ok p =>
          let length := wrapInt32 (size * elementCount)
          ⟨Allocator.checked (native.CreateVertexBuffer length usage resourceManagementMode), (),
            [.CreateVertexBuffer p length usage resourceManagementMode]⟩

/-- Method `VertexBuffer::CreateBuffer( device, sizeInBytes, usage,
resourceManagementMode )`. -/
def VertexBuffer.CreateBufferOfSize (device : Option GraphicsDevice) (native : Allocator)
    (sizeInBytes usage resourceManagementMode : Int) : Outcome Unit Pointer :=
  match device with
  | none => ⟨.error (.ArgumentNullException "device"), (), []⟩
  | some d =>
    if sizeInBytes ≤ 0 then
      ⟨.error (.ArgumentOutOfRangeException "sizeInBytes"), (), []⟩
    else
      match d.Ptr with
      | .error err => ⟨.error err, (), []⟩
      | .ok p =>
        ⟨Allocator.checked (native.CreateVertexBuffer sizeInBytes usage resourceManagementMode),
          (), [.CreateVertexBuffer p sizeInBytes usage resourceManagementMode]⟩

/-- Method `IndexBuffer::CreateBuffer( device, indexType, elementCount, usage,
resourceManagementMode )`, with a type given by its `Marshal::SizeOf`. -/
def IndexBuffer.CreateBuffer (device : Option GraphicsDevice) (native : Allocator)
    (indexType : Option Int) (elementCount usage resourceManagementMode : Int) :
    Outcome Unit Pointer :=
  match device with
  | none => ⟨.error (.ArgumentNullException "device"), (), []⟩
  | some d =>
    match indexType with
    | none => ⟨.error (.ArgumentNullException "indexType"), (), []⟩
    | some typeSize =>
      if elementCount ≤ 0 then
        ⟨.error (.ArgumentOutOfRangeException "elementCount"), (), []⟩
      else if typeSize ≠ 2 ∧ typeSize ≠ 4 then
        ⟨.error .ArgumentException, (), []⟩
      else
        match d.Ptr with
        | .error err => ⟨.error err, (), []⟩
        | .ok p =>
          let length := wrapInt32 (typeSize * elementCount)
          let format := if typeSize = 2 then D3DFMT_INDEX16 else D3DFMT_INDEX32
          ⟨Allocator.checked
              (native.CreateIndexBuffer length usage format resourceManagementMode), (),
            [.CreateIndexBuffer p length usage format resourceManagementMode]⟩

/-- Method `IndexBuffer::CreateBuffer( device, sizeInBytes, usage, elementSize,
resourceManagementMode )`. -/
def IndexBuffer.CreateBufferOfSize (device : Option GraphicsDevice) (native : Allocator)
    (sizeInBytes usage elementSize resourceManagementMode : Int) : Outcome Unit Pointer :=
  match device with
  | none => ⟨.error (.ArgumentNullException "device"), (), []⟩
  | some d =>
    if sizeInBytes ≤ 0 then
      ⟨.error (.ArgumentOutOfRangeException "sizeInBytes"), (), []⟩
    else
      match d.Ptr with
      | .error err => ⟨.error err, (), []⟩
      | .ok p =>
        let format :=
          if elementSize = IndexElementSize.SixteenBits then D3DFMT_INDEX16 else D3DFMT_INDEX32
        ⟨Allocator.checked
            (native.CreateIndexBuffer sizeInBytes usage format resourceManagementMode), (),
          [.CreateIndexBuffer p sizeInBytes usage format resourceManagementMode]⟩

/-- Method `Texture2D::CreateTexture`, which the public constructors of
`Texture2D` run before anything else.  `graphicsDevice` is `none` for a null
reference, whose `Ptr` cannot be read. -/
def Texture2D.CreateTexture (graphicsDevice : Option GraphicsDevice) (native : Allocator)
    (width height numberLevels usage format resourceManagementMode : Int) :
    Outcome Unit Pointer :=
  if resourceManagementMode = ResourceManagementMode.Automatic
      ∧ hasFlag usage ResourceUsage.Dynamic = true then
    ⟨.error .ArgumentException, (), []⟩
  else
    let pool :=
      if resourceManagementMode = ResourceManagementMode.Automatic then D3DPOOL_MANAGED
      else D3DPOOL_DEFAULT
    match graphicsDevice with
    | none => ⟨.error .NullReferenceException, (), []⟩
    | some d =>
      match d.Ptr with
      | .error err => ⟨.error err, (), []⟩
      | .ok p =>
        ⟨Allocator.checked (native.CreateTexture width height numberLevels usage format pool),
          (), [.CreateTexture p width height numberLevels usage format pool]⟩

/-- Whether an action is one of the three native allocation calls. -/
def Action.isAllocation : Action → Bool
  | .CreateVertexBuffer _ _ _ _ => true
  | .CreateIndexBuffer _ _ _ _ _ => true
  | .CreateTexture _ _ _ _ _ _ _ => true
  | _ => false

/-! ## GraphicsAdapter.cpp : `Utility::IsSimpleValueType` -/

/-- What reflection tells about an instance field: whether it is public, and its type. -/
structure FieldInfo (τ : Type) where
  IsPublic : Bool
  FieldType : τ
  deriving DecidableEq, Repr

/-- A `System::Type` as far as `IsSimpleValueType` looks at it: a reference
type (`IsValueType` false), a primitive, an enumeration, or another value type
with its instance fields, public or not. -/
inductive ManagedType where
  | reference
  | primitive
  | enumeration
  | struct (fields : List (FieldInfo ManagedType))

mutual
/-- Method `Utility::IsSimpleValueType` for a non-null type. -/
def Utility.isSimple : ManagedType → Bool
  | .reference => false
  | .primitive => true
  | .enumeration => true
  | .struct fields => Utility.isSimpleFields fields
/-- The loop of `Utility::IsSimpleValueType` over the instance fields of a
type; `GetFields( Instance | Public )` yields the public ones only. -/
def Utility.isSimpleFields : List (FieldInfo ManagedType) → Bool
  | [] => true
  | field :: rest =>
    if field.IsPublic then
      if !Utility.isSimple field.FieldType then false else Utility.isSimpleFields rest
    else
      Utility.isSimpleFields rest
end

/-- Method `Utility::IsSimpleValueType( type )`; `none` is a null `Type^`. -/
def Utility.IsSimpleValueType (type : Option ManagedType) : Except Error Bool :=
  match type with
  | none => .error (.ArgumentNullException "type")
  | some t => .ok (Utility.isSimple t)

mutual
/-- In the words of the specification: whether a type is a reference type or
contains, through its instance fields of whatever visibility, transitively, a
field of a reference type. -/
def containsReference : ManagedType → Bool
  | .reference => true
  | .primitive => false
  | .enumeration => false
  | .struct fields => anyContainsReference fields
/-- Whether one of the fields given contains a reference, see `containsReference`. -/
def anyContainsReference : List (FieldInfo ManagedType) → Bool
  | [] => false
  | field :: rest => containsReference field.FieldType || anyContainsReference rest
end

/-! ## VertexBuffer.cpp, IndexBuffer.cpp : `SetData` -/

/-- The answers of a native vertex buffer: `Lock` for an offset, a size and
flags, and `Unlock`. -/
structure IDirect3DVertexBuffer9 where
  Lock : Int → Int → Int → HRESULT
  Unlock : HRESULT

/-- The answers of a native index buffer. -/
structure IDirect3DIndexBuffer9 where
  Lock : Int → Int → Int → HRESULT
  Unlock : HRESULT

/-- The lock flags that `SetData` of a buffer builds from its options, or the
error it raises when an option needs a dynamic buffer. -/
def bufferLockFlags (usage options : Int) : Except Error Int :=
  if hasFlag options SetDataOptions.Discard ∧ ¬ hasFlag usage ResourceUsage.Dynamic then
    .error .ArgumentException
  else if hasFlag options SetDataOptions.NoOverwrite ∧ ¬ hasFlag usage ResourceUsage.Dynamic then
    .error .ArgumentException
  else
    .ok (Int.lor (if hasFlag options SetDataOptions.Discard then D3DLOCK_DISCARD else 0)
      (if hasFlag options SetDataOptions.NoOverwrite then D3DLOCK_NOOVERWRITE else 0))

/-- Method `VertexBuffer::SetData<T>`.  `sizeofT` is `sizeof(T)`, `data` is
`none` for a null array.  Sums and products of `int`s wrap; the size locked is
an `unsigned int`; the `memcpy` is recorded with its element count
`(unsigned int) elementCount` and element size. -/
def VertexBuffer.SetData {T : Type} (b : VertexBuffer) (native : IDirect3DVertexBuffer9)
    (sizeofT : Nat) (offsetInBytes : Int) (data : Option (List T)) (startIndex : Int)
    (elementCount : Int) (options : Int) : Outcome VertexBuffer Unit :=
  match data with
  | none => ⟨.error (.ArgumentNullException "data"), b, []⟩
  | some array =>
    if startIndex < 0 ∨ startIndex ≥ (array.length : Int) then
      ⟨.error (.ArgumentOutOfRangeException "startIndex"), b, []⟩
    else if offsetInBytes < 0 ∨ offsetInBytes ≥ b._length then
      ⟨.error (.ArgumentOutOfRangeException "offsetInBytes"), b, []⟩
    else if elementCount < 0
        ∨ wrapInt32 (offsetInBytes + wrapInt32 (elementCount * (sizeofT : Int))) > b._length then
      ⟨.error (.ArgumentOutOfRangeException "elementCount"), b, []⟩
    else if sizeofT = 0 then
      ⟨.error .NotSupportedException, b, []⟩
    else
      match bufferLockFlags b._usage options with
      | .error err => ⟨.error err, b, []⟩
      | .ok flags =>
        match b.toGraphicsResource.Ptr with
        | .error err => ⟨.error err, b, []⟩
        | .ok p =>
          let offsetToLock := toUInt32 offsetInBytes
          let sizeToLock := toUInt32 (toUInt32 elementCount * (sizeofT : Int))
          match Utility.CheckResult (native.Lock offsetToLock sizeToLock flags) with
          | .error err => ⟨.error err, b, [.Lock p offsetToLock sizeToLock flags]⟩
          | .ok _ =>
            ⟨Utility.CheckResult native.Unlock, b,
              [.Lock p offsetToLock sizeToLock flags,
                .memcpy 0 startIndex (toUInt32 elementCount) sizeofT, .Unlock p]⟩

/-- Method `IndexBuffer::SetData<T>`, in the same terms as
`VertexBuffer.SetData`.  The offset and the size locked are `offsetInBytes << 1`
and `elementCount << 1`; taking the address of `data[startIndex]` fails for a
negative index, after the lock. -/
def IndexBuffer.SetData {T : Type} (b : IndexBuffer) (native : IDirect3DIndexBuffer9)
    (sizeofT : Nat) (offsetInBytes : Int) (data : Option (List T)) (startIndex : Int)
    (elementCount : Int) (options : Int) : Outcome IndexBuffer Unit :=
  match data with
  | none => ⟨.error (.ArgumentNullException "data"), b, []⟩
  | some array =>
    if startIndex ≥ (array.length : Int) then
      ⟨.error (.ArgumentOutOfRangeException "startIndex"), b, []⟩
    else if offsetInBytes ≥ b._size then
      ⟨.error (.ArgumentOutOfRangeException "offset"), b, []⟩
    else if wrapInt32 (offsetInBytes + wrapInt32 (elementCount * (sizeofT : Int))) > b._size then
      ⟨.error (.ArgumentOutOfRangeException "count"), b, []⟩
    else
      match bufferLockFlags b._usage options with
      | .error err => ⟨.error err, b, []⟩
      | .ok flags =>
        match b.toGraphicsResource.Ptr with
        | .error err => ⟨.error err, b, []⟩
        | .ok p =>
          let offsetToLock := toUInt32 (wrapInt32 (offsetInBytes * 2))
          let sizeToLock := toUInt32 (wrapInt32 (elementCount * 2))
          match Utility.CheckResult (native.Lock offsetToLock sizeToLock flags) with
          | .error err => ⟨.error err, b, [.Lock p offsetToLock sizeToLock flags]⟩
          | .ok _ =>
            if startIndex < 0 then
              ⟨.error .IndexOutOfRangeException, b, [.Lock p offsetToLock sizeToLock flags]⟩
            else
              ⟨Utility.CheckResult native.Unlock, b,
                [.Lock p offsetToLock sizeToLock flags,
                  .memcpy 0 startIndex (toUInt32 elementCount) sizeofT, .Unlock p]⟩

/-! ## GraphicsAdapter.cpp, Texture.cpp : `Texture2D::SetData` -/

/-- The values of `SurfaceFormat` for which `Utility::GetBytesPerElement`
returns 1: `Alpha8`, `Bgr233`, `Palette8`, `Luminance8`, `LuminanceAlpha8`, by
their `D3DFORMAT` numbers. -/
def SurfaceFormat.oneByte : List Int := [28, 27, 41, 50, 52]

/-- Enumerator `SurfaceFormat::Bgr24` (`D3DFMT_R8G8B8`), the one format of 3 bytes. -/
def SurfaceFormat.Bgr24 : Int := 20

/-- Enumerator `SurfaceFormat::Color` (`D3DFMT_A8R8G8B8`). -/
def SurfaceFormat.Color : Int := 21

/-- The formats of 4 bytes: `Bgr32`, `Bgra1010102`, `Color`, `Depth24`,
`Depth24Stencil4`, `Depth24Stencil8`, `Depth24Stencil8Single`, `Depth32`,
`Rgba32`, `Rgb32`, `Rg32`, `Rgba1010102`, `NormalizedLuminance32`,
`NormalizedByte4`, `NormalizedShort2`, `NormalizedAlpha1010102`, `Single`,
`HalfVector2`. -/
def SurfaceFormat.fourBytes : List Int :=
  [22, 35, SurfaceFormat.Color, 77, 79, 75, 83, 71, 32, 33, 34, 31, 62, 63, 64, 67, 114, 112]

/-- The formats of 2 bytes: `Bgr444`, `Bgr555`, `Bgr565`, `Bgra2338`,
`Bgra5551`, `Bgra4444`, `Depth15Stencil1`, `Depth16`, `PaletteAlpha16`,
`LuminanceAlpha16`, `Luminance16`, `NormalizedByte2`,
`NormalizedByte2Computed`, `NormalizedLuminance16`, `VideoRgBg`, `VideoGrGb`,
`HalfSingle`. -/
def SurfaceFormat.twoBytes : List Int :=
  [30, 24, 23, 29, 25, 26, 73, 80, 40, 51, 81, 60, 117, 61, 1195525970, 1111970375, 111]

/-- The formats of 8 bytes: `Rgba64`, `NormalizedShort4`, `Vector2`, `HalfVector4`. -/
def SurfaceFormat.eightBytes : List Int := [36, 110, 115, 113]

/-- Enumerator `SurfaceFormat::Vector4` (`D3DFMT_A32B32G32R32F`), of 16 bytes. -/
def SurfaceFormat.Vector4 : Int := 116

/-- Method `Utility::GetBytesPerElement`: the `switch` over the format, whose
`default` branch throws. -/
def Utility.GetBytesPerElement (format : Int) : Except Error Int :=
  if format ∈ SurfaceFormat.oneByte then .ok 1
  else if format = SurfaceFormat.Bgr24 then .ok 3
  else if format ∈ SurfaceFormat.fourBytes then .ok 4
  else if format ∈ SurfaceFormat.twoBytes then .ok 2
  else if format ∈ SurfaceFormat.eightBytes then .ok 8
  else if format = SurfaceFormat.Vector4 then .ok 16
  else .error .NotSupportedException

/-- Modelled from the spec: the property `Width` of the value type
`Rectangle`, the width of the given rectangle, which is the distance from its
left to its right edge. -/
def Rectangle.Width (r : Rectangle) : Int :=
  r.Right - r.Left

/-- The answers of a native 2D texture: `GetLevelDesc` gives the result code
and the width and height of the level, `LockRect` the result code and the
pitch of the locked region in bytes. -/
structure IDirect3DTexture9 where
  GetLevelDesc : Int → HRESULT × Int × Int
  LockRect : Int → Option Rectangle → Int → HRESULT × Int
  UnlockRect : Int → HRESULT

/-- The part of `Texture2D::SetData` that finds the width and height of the
addressed level: the cached fields for level 0, the native description
otherwise.  Gives also the native calls made. -/
def Texture2D.levelSize (t : Texture2D) (native : IDirect3DTexture9) (level : Int) :
    Except Error (Int × Int) × List Action :=
  if level = 0 then
    (.ok (t._width, t._height), [])
  else
    match t.toGraphicsResource.Ptr with
    | .error err => (.error err, [])
    | .ok p =>
      let desc := native.GetLevelDesc level
      match Utility.CheckResult desc.1 with
      | .error err => (.error err, [.GetLevelDesc p level])
      | .ok _ => (.ok (desc.2.1, desc.2.2), [.GetLevelDesc p level])

/-- The part of `Texture2D::SetData` that checks the rectangle and the element
count against the level of size `width` by `height` and gives `lineWidth`. -/
def Texture2D.checkRegion (t : Texture2D) (rectangle : Option Rectangle)
    (width height elementCount : Int) : Except Error Int :=
  match rectangle with
  | some rect =>
    let lineWidth := rect.Width
    if rect.Top ≥ rect.Bottom ∨ rect.Left ≥ rect.Right then
      .error .ArgumentException
    else if rect.Top < 0 ∨ rect.Left < 0 ∨ rect.Bottom > height ∨ rect.Right > width then
      .error .ArgumentException
    else if elementCount > wrapInt32 (wrapInt32 (rect.Bottom - rect.Top) * lineWidth) then
      .error (.ArgumentOutOfRangeException "elementCount")
    else
      .ok lineWidth
  | none =>
    let lineWidth := t._width
    if elementCount > wrapInt32 (width * height) then
      .error (.ArgumentOutOfRangeException "elementCount")
    else
      .ok lineWidth

/-- The part of `Texture2D::SetData` that builds the lock flags from the options. -/
def Texture2D.lockFlags (t : Texture2D) (rectangle : Option Rectangle) (options : Int) :
    Except Error Int :=
  if hasFlag options SetDataOptions.Discard then
    if ¬ hasFlag t._usage2D ResourceUsage.Dynamic then
      .error .ArgumentException
    else if rectangle.isSome then
      .error .ArgumentException
    else
      .ok D3DLOCK_DISCARD
  else
    .ok 0

/-- The copy loop of `Texture2D::SetData`, from `copied` elements done and the
target at byte `target` of the locked region, for at most `fuel` rounds.
Taking the address of `data[startIndex + copied]` fails outside the array.
The result is `none` when a round copies nothing or a negative length, so that
the loop does not come to an end, or when the rounds allowed are used up. -/
def Texture2D.copyRows (sizeofT : Nat) (length pitch startIndex elementCount lineWidth : Int) :
    (fuel : Nat) → (copied : Int) → (target : Int) → Option (Except Error Unit × List Action)
  | 0, copied, _ => if copied < elementCount then none else some (.ok (), [])
  | fuel + 1, copied, target =>
    if copied < elementCount then
      let index := wrapInt32 (startIndex + copied)
      if index < 0 ∨ index ≥ length then
        some (.error .IndexOutOfRangeException, [])
      else
        let copyLength := min lineWidth (elementCount - copied)
        if copyLength ≤ 0 then
          none
        else
          match Texture2D.copyRows sizeofT length pitch startIndex elementCount lineWidth fuel
              (copied + copyLength) (target + pitch) with
          | none => none
          | some (result, copies) =>
            some (result, .memcpy target index copyLength sizeofT :: copies)
    else
      some (.ok (), [])

/-- Method `Texture2D::SetData<T>`.  `sizeofT` is `sizeof(T)`, `data` is `none`
for a null array, `rectangle` is `none` for a `Nullable` without value.  The
result is `none` when the copy loop does not come to an end; the loop is given
as many rounds as there are elements to copy, which is enough whenever every
round copies at least one. -/
def Texture2D.SetData {T : Type} (t : Texture2D) (native : IDirect3DTexture9) (sizeofT : Nat)
    (level : Int) (rectangle : Option Rectangle) (data : Option (List T)) (startIndex : Int)
    (elementCount : Int) (options : Int) : Option (Outcome Texture2D Unit) :=
  match data with
  | none => some ⟨.error (.ArgumentNullException "data"), t, []⟩
  | some array =>
    if startIndex < 0 ∨ startIndex ≥ (array.length : Int) then
      some ⟨.error (.ArgumentOutOfRangeException "startIndex"), t, []⟩
    else if elementCount < 0 ∨ wrapInt32 (startIndex + elementCount) > (array.length : Int) then
      some ⟨.error (.ArgumentOutOfRangeException "elementCount"), t, []⟩
    else
      match Utility.GetBytesPerElement t._format with
      | .error err => some ⟨.error err, t, []⟩
      | .ok bytes =>
        if (sizeofT : Int) ≠ toUInt32 bytes then
          some ⟨.error .ArgumentException, t, []⟩
        else if t._rmm = ResourceManagementMode.Manual
            ∧ ¬ hasFlag t._usage2D ResourceUsage.Dynamic then
          some ⟨.error .InvalidOperationException, t, []⟩
        else
          match Texture2D.levelSize t native level with
          | (.error err, asked) => some ⟨.error err, t, asked⟩
          | (.ok (width, height), asked) =>
            match Texture2D.checkRegion t rectangle width height elementCount with
            | .error err => some ⟨.error err, t, asked⟩
            | .ok lineWidth =>
              match Texture2D.lockFlags t rectangle options with
              | .error err => some ⟨.error err, t, asked⟩
              | .ok flags =>
                match t.toGraphicsResource.Ptr with
                | .error err => some ⟨.error err, t, asked⟩
                | .ok p =>
                  let lockedRect := native.LockRect level rectangle flags
                  match Utility.CheckResult lockedRect.1 with
                  | .error err => some ⟨.error err, t, asked ++ [.LockRect p level rectangle flags]⟩
                  | .ok _ =>
                    match Texture2D.copyRows sizeofT (array.length : Int) lockedRect.2 startIndex
                        elementCount lineWidth elementCount.toNat 0 0 with
                    | none => none
                    | some (.error err, copies) =>
                      some ⟨.error err, t,
                        asked ++ [.LockRect p level rectangle flags] ++ copies⟩
                    | some (.ok _, copies) =>
                      some ⟨Utility.CheckResult (native.UnlockRect level), t,
                        asked ++ [.LockRect p level rectangle flags] ++ copies
                          ++ [.UnlockRect p level]⟩

/-- In the words of the specification: the number of elements row `r` of a
write of `elementCount` elements receives when rows are `w` elements wide,
`min(w, elementCount - r*w)`. -/
def rowShare (w elementCount : Int) (r : Nat) : Int :=
  min w (elementCount - (r : Int) * w)

/-- The number of elements an action copies: the count of a `memcpy`. -/
def Action.copyCount : Action → Int
  | .memcpy _ _ count _ => count
  | _ => 0

/-- The elements an action writes into the locked region, in order: for each
element of a `memcpy` the byte offset it is written at and the index in `data`
it is read from. -/
def Action.elementWrites : Action → List (Int × Int)
  | .memcpy targetOffset sourceIndex count elementSize =>
    (List.range count.toNat).map
      (fun i => (targetOffset + (i : Int) * (elementSize : Int), sourceIndex + (i : Int)))
  | _ => []

/-- In the words of the specification: the elements a write of `elementCount`
elements from `data[startIndex]` puts into a region of pitch `pitch` when rows
are `w` elements wide; row `r` starts at byte `r * pitch` and receives
`rowShare w elementCount r` elements, in source order. -/
def prescribedWrites (pitch : Int) (elementSize : Nat) (w startIndex elementCount : Int) :
    List (Int × Int) :=
  (List.range elementCount.toNat).flatMap
    (fun r => (List.range (rowShare w elementCount r).toNat).map
      (fun j => ((r : Int) * pitch + (j : Int) * (elementSize : Int),
        startIndex + (r : Int) * w + (j : Int))))

/-- The elements a call wrote, from the trace of its outcome; nothing when the
call did not return. -/
def writesOf (outcome : Option (Outcome Texture2D Unit)) : List (Int × Int) :=
  match outcome with
  | none => []
  | some o => o.trace.flatMap Action.elementWrites

end Fluggo

/-! # Theorems -/

namespace Fluggo

/-! ## Resource lifetime -/

/-- Running the release path on a resource that holds no handle does nothing. -/
theorem release_of_released (r : GraphicsResource) (e : ReleaseEntry)
    (h : r._resource = NULL) : r.release e = (r, []) := by
  cases e <;> simp [GraphicsResource.release, GraphicsResource.Dispose, GraphicsResource.Finalize, h]

/-- Any number of runs of the release path on a resource that holds no handle
does nothing. -/
theorem releaseAll_of_released (entries : List ReleaseEntry) (r : GraphicsResource)
    (h : r._resource = NULL) : r.releaseAll entries = (r, []) := by
  induction entries with
  | nil => rfl
  | cons e es ih =>
    simp [GraphicsResource.releaseAll, release_of_released r e h, ih]

/-- The first run of the release path on a live resource. -/
theorem release_of_live (r : GraphicsResource) (e : ReleaseEntry) (h : r._resource ≠ NULL) :
    r.release e
      = ({ r with _resource := NULL }, [Action.Release r._resource, Action.Disposing r._resource]) := by
  cases e <;> simp [GraphicsResource.release, GraphicsResource.Dispose, GraphicsResource.Finalize, h]

/-- Claim C1: for a resource holding a native handle, N >= 1 runs of the
release path (through the destructor or the finalizer, in any mix) release the
native handle exactly once and raise `Disposing` exactly once: the whole trace
of the N runs is one `Release` followed by one `Disposing`; the handle is null
afterwards, and any further run leaves the object unchanged with an empty trace. -/
theorem release_exactly_once (r : GraphicsResource) (entries : List ReleaseEntry)
    (hlive : r._resource ≠ NULL) (hruns : 1 ≤ entries.length) :
    r.releaseAll entries
        = ({ r with _resource := NULL },
           [Action.Release r._resource, Action.Disposing r._resource])
      ∧ (r.releaseAll entries).1._resource = NULL
      ∧ ∀ later : ReleaseEntry,
          (r.releaseAll entries).1.release later = ((r.releaseAll entries).1, []) := by
  cases entries with
  | nil => simp at hruns
  | cons e es =>
    have hfirst := release_of_live r e hlive
    have hrest := releaseAll_of_released es { r with _resource := NULL } rfl
    have hall : r.releaseAll (e :: es)
        = ({ r with _resource := NULL },
           [Action.Release r._resource, Action.Disposing r._resource]) := by
      simp [GraphicsResource.releaseAll, hfirst, hrest]
    refine ⟨hall, ?_, ?_⟩
    · rw [hall]
    · intro later
      rw [hall]
      exact release_of_released _ later rfl

/-- Witness of C1: a texture-like resource on handle 7 released three times,
once by the destructor and twice by the finalizer. -/
theorem release_exactly_once_witness :
    (GraphicsResource.mk 0 7 (some "wall") none).releaseAll
        [ReleaseEntry.destructor, ReleaseEntry.finalizer, ReleaseEntry.finalizer]
      = (GraphicsResource.mk 0 NULL (some "wall") none, [Action.Release 7, Action.Disposing 7]) :=
  (release_exactly_once (GraphicsResource.mk 0 7 (some "wall") none)
    [ReleaseEntry.destructor, ReleaseEntry.finalizer, ReleaseEntry.finalizer]
    (by decide) (by decide)).1

/-- Counterexample to C2: on a released resource the getters of `Name`, `Tag`
and `GraphicsDevice` raise nothing and return the stored values. -/
theorem released_metadata_readable :
    ((GraphicsResource.mk 3 7 (some "wall") (some 5)).Finalize.1)._resource = NULL
      ∧ ((GraphicsResource.mk 3 7 (some "wall") (some 5)).Finalize.1).Name_get.result
          = Except.ok (some "wall")
      ∧ ((GraphicsResource.mk 3 7 (some "wall") (some 5)).Finalize.1).Tag_get.result
          = Except.ok (some 5)
      ∧ ((GraphicsResource.mk 3 7 (some "wall") (some 5)).Finalize.1).GraphicsDevice_get.result
          = Except.ok 3
      ∧ ((GraphicsResource.mk 3 7 (some "wall") (some 5)).Finalize.1).Name_get.result
          ≠ Except.error Error.ObjectDisposedException := by
  refine ⟨rfl, rfl, rfl, rfl, ?_⟩
  intro h
  cases h

/-- Claim C2, amended: on a released resource every accessor that goes through
the native handle (`FreePrivateData`, `Priority` get and set, `ResourceType`,
`PreLoad`, and for a texture `GenerateMipSubLevels`, `LevelOfDetail` get and
set, `AutoGenFilterType` get and set, `LevelCount`) raises the disposed-object
error, makes no native call and changes nothing; the accessors that only read or
write managed fields (`Name`, `Tag`, `GraphicsDevice`, `IsDisposed`, and the
cached subtype properties such as `Texture2D.Width`, `VertexBuffer.Length`,
`IndexBuffer.SizeInBytes`) raise nothing and work on the stored values. -/
theorem released_accessors (r : GraphicsResource) (native : IDirect3DResource9)
    (h : r._resource = NULL) :
    (∀ guid, r.FreePrivateData native guid = ⟨.error .ObjectDisposedException, r, []⟩)
      ∧ (∀ v, r.Priority_set native v = ⟨.error .ObjectDisposedException, r, []⟩)
      ∧ r.Priority_get native = ⟨.error .ObjectDisposedException, r, []⟩
      ∧ r.ResourceType_get native = ⟨.error .ObjectDisposedException, r, []⟩
      ∧ r.PreLoad native = ⟨.error .ObjectDisposedException, r, []⟩
      ∧ (∀ t : Texture, t.toGraphicsResource = r →
          t.GenerateMipSubLevels native = ⟨.error .ObjectDisposedException, t, []⟩
            ∧ t.LevelOfDetail_get native = ⟨.error .ObjectDisposedException, t, []⟩
            ∧ (∀ v, t.LevelOfDetail_set native v = ⟨.error .ObjectDisposedException, t, []⟩)
            ∧ t.AutoGenFilterType_get native = ⟨.error .ObjectDisposedException, t, []⟩
            ∧ (∀ v, t.AutoGenFilterType_set native v = ⟨.error .ObjectDisposedException, t, []⟩)
            ∧ t.LevelCount_get native = ⟨.error .ObjectDisposedException, t, []⟩)
      ∧ (∀ t : Texture2D, t.toGraphicsResource = r →
          t.Width_get = ⟨.ok t._width, t, []⟩ ∧ t.Height_get = ⟨.ok t._height, t, []⟩
            ∧ t.Format_get = ⟨.ok t._format, t, []⟩)
      ∧ (∀ b : VertexBuffer, b.toGraphicsResource = r → b.Length_get = ⟨.ok b._length, b, []⟩)
      ∧ (∀ b : IndexBuffer, b.toGraphicsResource = r →
          b.SizeInBytes_get = ⟨.ok b._size, b, []⟩)
      ∧ r.Name_get = ⟨.ok r._name, r, []⟩
      ∧ r.Tag_get = ⟨.ok r._tag, r, []⟩
      ∧ r.GraphicsDevice_get = ⟨.ok r._device, r, []⟩
      ∧ r.IsDisposed_get = ⟨.ok true, r, []⟩
      ∧ (∀ name, (r.Name_set name).result = .ok () ∧ (r.Name_set name).state._name = name)
      ∧ (∀ tag, (r.Tag_set tag).result = .ok () ∧ (r.Tag_set tag).state._tag = tag) := by
  have hp : r.Ptr = .error .ObjectDisposedException := by
    simp [GraphicsResource.Ptr, h]
  refine ⟨?_, ?_, ?_, ?_, ?_, ?_, fun _ _ => ⟨rfl, rfl, rfl⟩, fun _ _ => rfl, fun _ _ => rfl,
    rfl, rfl, rfl, ?_, ?_, ?_⟩
  · intro guid
    simp [GraphicsResource.FreePrivateData, hp]
  · intro v
    simp [GraphicsResource.Priority_set, hp]
  · simp [GraphicsResource.Priority_get, hp]
  · simp [GraphicsResource.ResourceType_get, hp]
  · simp [GraphicsResource.PreLoad, hp]
  · intro t ht
    have htp : t.Ptr = .error .ObjectDisposedException := by
      simp [Texture.Ptr, ht, hp]
    refine ⟨?_, ?_, ?_, ?_, ?_, ?_⟩
    · simp [Texture.GenerateMipSubLevels, htp]
    · simp [Texture.LevelOfDetail_get, htp]
    · intro v
      simp [Texture.LevelOfDetail_set, htp]
    · simp [Texture.AutoGenFilterType_get, htp]
    · intro v
      simp [Texture.AutoGenFilterType_set, htp]
    · simp [Texture.LevelCount_get, htp]
  · simp [GraphicsResource.IsDisposed_get, h]
  · intro name
    exact ⟨rfl, rfl⟩
  · intro tag
    exact ⟨rfl, rfl⟩

/-- Witness of C2 (amended): the priority getter of a released resource. -/
theorem released_accessors_witness :
    (GraphicsResource.mk 3 NULL (some "wall") (some 5)).Priority_get
        ⟨fun _ => S_OK, fun _ => 0, 4, 3, fun _ => S_OK, 2, fun _ => 0, 0, 1⟩
      = ⟨.error .ObjectDisposedException, GraphicsResource.mk 3 NULL (some "wall") (some 5), []⟩ :=
  (released_accessors (GraphicsResource.mk 3 NULL (some "wall") (some 5))
    ⟨fun _ => S_OK, fun _ => 0, 4, 3, fun _ => S_OK, 2, fun _ => 0, 0, 1⟩ rfl).2.2.1

/-- Disposing a device changes no resource object. -/
theorem disposeDevice_resources (h : Heap) (d : ObjRef) :
    (h.disposeDevice d).1.resources = h.resources := by
  unfold Heap.disposeDevice
  cases h.devices[d]? <;> rfl

/-- After a device is disposed its own handle accessor raises the
disposed-object error. -/
theorem disposeDevice_devicePtr (h : Heap) (d : ObjRef) (hd : d < h.devices.length) :
    (h.disposeDevice d).1.devicePtr d = some (.error .ObjectDisposedException) := by
  unfold Heap.disposeDevice Heap.devicePtr
  have hsome : h.devices[d]? = some h.devices[d] := List.getElem?_eq_getElem hd
  rw [hsome]
  by_cases hnull : h.devices[d]._deviceW = NULL
  · simp [GraphicsDevice.Dispose, GraphicsDevice.Finalize, hnull, hd, GraphicsDevice.Ptr]
  · simp [GraphicsDevice.Dispose, GraphicsDevice.Finalize, hnull, hd, GraphicsDevice.Ptr]

/-- Counterexample to C3: a live buffer (handle 2) created on device 0; after
the device is disposed the device handle accessor raises, but `Priority`,
`ResourceType` and `PreLoad` of the buffer raise nothing and call the native
handle 2. -/
theorem resource_usable_after_device_dispose :
    ((Heap.mk [⟨1, false⟩] [⟨0, 2, none, none⟩]).disposeDevice 0).1.devicePtr 0
        = some (.error .ObjectDisposedException)
      ∧ ((Heap.mk [⟨1, false⟩] [⟨0, 2, none, none⟩]).disposeDevice 0).1.onResource 0
          (fun r => r.Priority_get ⟨fun _ => S_OK, fun _ => 0, 4, 3, fun _ => S_OK, 2, fun _ => 0, 0, 1⟩)
        = some ⟨.ok 4, ⟨0, 2, none, none⟩, [Action.GetPriority 2]⟩
      ∧ ((Heap.mk [⟨1, false⟩] [⟨0, 2, none, none⟩]).disposeDevice 0).1.onResource 0
          (fun r => r.ResourceType_get ⟨fun _ => S_OK, fun _ => 0, 4, 3, fun _ => S_OK, 2, fun _ => 0, 0, 1⟩)
        = some ⟨.ok 3, ⟨0, 2, none, none⟩, [Action.GetType 2]⟩
      ∧ ((Heap.mk [⟨1, false⟩] [⟨0, 2, none, none⟩]).disposeDevice 0).1.onResource 0
          (fun r => r.PreLoad ⟨fun _ => S_OK, fun _ => 0, 4, 3, fun _ => S_OK, 2, fun _ => 0, 0, 1⟩)
        = some ⟨.ok (), ⟨0, 2, none, none⟩, [Action.PreLoad 2]⟩ := by
  refine ⟨rfl, rfl, rfl, rfl⟩

/-- Claim C3, amended: disposing a device releases the device handle, so the
device handle accessor raises the disposed-object error from then on, and it
leaves every resource object as it was; a resource created on that device that
was not itself disposed raises no disposed-object error: `Priority`,
`ResourceType`, `PreLoad` and `FreePrivateData` still call the native handle of
the resource. -/
theorem device_dispose_keeps_resources (h : Heap) (d i : ObjRef) (r : GraphicsResource)
    (native : IDirect3DResource9)
    (hd : d < h.devices.length) (hr : h.resources[i]? = some r) (_hon : r._device = d)
    (hlive : r._resource ≠ NULL) :
    (h.disposeDevice d).1.devicePtr d = some (.error .ObjectDisposedException)
      ∧ (h.disposeDevice d).1.resources = h.resources
      ∧ (h.disposeDevice d).1.onResource i (fun x => x.Priority_get native)
          = some ⟨.ok native.GetPriority, r, [Action.GetPriority r._resource]⟩
      ∧ (∀ v, (h.disposeDevice d).1.onResource i (fun x => x.Priority_set native v)
          = some ⟨.ok (), r, [Action.SetPriority r._resource v]⟩)
      ∧ (h.disposeDevice d).1.onResource i (fun x => x.ResourceType_get native)
          = some ⟨.ok native.GetType, r, [Action.GetType r._resource]⟩
      ∧ (h.disposeDevice d).1.onResource i (fun x => x.PreLoad native)
          = some ⟨.ok (), r, [Action.PreLoad r._resource]⟩
      ∧ (∀ guid, (h.disposeDevice d).1.onResource i (fun x => x.FreePrivateData native guid)
          = some ⟨Utility.CheckResult (native.FreePrivateData guid), r,
              [Action.FreePrivateData r._resource guid]⟩) := by
  have hp : r.Ptr = .ok r._resource := by
    simp [GraphicsResource.Ptr, hlive]
  have hres := disposeDevice_resources h d
  refine ⟨disposeDevice_devicePtr h d hd, hres, ?_, ?_, ?_, ?_, ?_⟩
  · simp [Heap.onResource, hres, hr, GraphicsResource.Priority_get, hp]
  · intro v
    simp [Heap.onResource, hres, hr, GraphicsResource.Priority_set, hp]
  · simp [Heap.onResource, hres, hr, GraphicsResource.ResourceType_get, hp]
  · simp [Heap.onResource, hres, hr, GraphicsResource.PreLoad, hp]
  · intro guid
    simp [Heap.onResource, hres, hr, GraphicsResource.FreePrivateData, hp]

/-- Witness of C3 (amended): two devices and a live buffer on the second one. -/
theorem device_dispose_keeps_resources_witness :
    ((Heap.mk [⟨1, false⟩, ⟨5, true⟩] [⟨1, 9, some "vb", none⟩]).disposeDevice 1).1.onResource 0
        (fun x => x.Priority_get ⟨fun _ => S_OK, fun _ => 0, 4, 3, fun _ => S_OK, 2, fun _ => 0, 0, 1⟩)
      = some ⟨.ok 4, ⟨1, 9, some "vb", none⟩, [Action.GetPriority 9]⟩ :=
  (device_dispose_keeps_resources (Heap.mk [⟨1, false⟩, ⟨5, true⟩] [⟨1, 9, some "vb", none⟩]) 1 0
    ⟨1, 9, some "vb", none⟩ ⟨fun _ => S_OK, fun _ => 0, 4, 3, fun _ => S_OK, 2, fun _ => 0, 0, 1⟩
    (by decide) rfl rfl (by decide)).2.2.1

/-! ## Effect activation -/

/-- A result code that is not negative passes `Utility::CheckResult`. -/
theorem checkResult_of_nonneg (hr : HRESULT) (h : 0 ≤ hr) : Utility.CheckResult hr = .ok () := by
  unfold Utility.CheckResult
  have h1 : hr ≠ D3DERR_INVALIDCALL := by
    intro heq
    rw [heq] at h
    revert h
    decide
  have h2 : ¬ hr < 0 := not_lt.mpr h
  simp [h1, h2]

/-- The `Utility::CheckResult` translation never produces the state error. -/
theorem checkResult_ne_invalidOperation (hr : HRESULT) :
    Utility.CheckResult hr ≠ .error .InvalidOperationException := by
  unfold Utility.CheckResult
  split
  · intro h
    cases h
  · split
    · intro h
      cases h
    · intro h
      cases h

/-- The handle accessor of a live effect. -/
theorem effect_ptr_of_live (e : Effect) (h : e._effect ≠ NULL) : e.Ptr = .ok e._effect := by
  simp [Effect.Ptr, h]

/-- `Effect::Begin` on an active effect. -/
theorem begin_of_active (e : Effect) (native : ID3DXEffect) (mode : SaveStateMode)
    (h : e._active = true) :
    e.Begin native mode = ⟨.error .InvalidOperationException, e, []⟩ := by
  simp [Effect.Begin, h]

/-- `Effect::Begin` that gets through: inactive live effect, a technique
selected, native `Begin` not failing. -/
theorem begin_of_ready (e : Effect) (native : ID3DXEffect) (mode : SaveStateMode)
    (hlive : e._effect ≠ NULL) (hact : e._active = false) (htech : native.currentTechnique ≠ 0)
    (hok : 0 ≤ native.Begin (if mode = SaveStateMode.SaveState then 0 else D3DXFX_DONOTSAVESTATE)) :
    e.Begin native mode
      = ⟨.ok (), { e with _active := true },
          [Action.GetCurrentTechnique e._effect,
           Action.EffectBegin e._effect
             (if mode = SaveStateMode.SaveState then 0 else D3DXFX_DONOTSAVESTATE)]⟩ := by
  simp [Effect.Begin, hact, effect_ptr_of_live e hlive, htech, checkResult_of_nonneg _ hok]

/-- A successful `Effect::Begin` leaves the effect active with its handle unchanged. -/
theorem begin_ok_state (e : Effect) (native : ID3DXEffect) (mode : SaveStateMode)
    (h : (e.Begin native mode).result = .ok ()) :
    (e.Begin native mode).state = { e with _active := true } := by
  unfold Effect.Begin at h ⊢
  by_cases hact : e._active = true
  · simp [hact] at h
  · simp only [hact] at h ⊢
    cases hp : e.Ptr with
    | error err => simp [hp] at h
    | ok p =>
      simp only [hp] at h ⊢
      by_cases htech : native.currentTechnique = 0
      · simp [htech] at h
      · simp only [htech] at h ⊢
        cases hc : Utility.CheckResult (native.Begin
            (if mode = SaveStateMode.SaveState then 0 else D3DXFX_DONOTSAVESTATE)) with
        | error err => simp [hc] at h
        | ok u => simp [hc]

/-- Claim C4: for a live effect, `Begin` raises the state error when the effect
is already active or when no current technique is selected, and otherwise, the
native `Begin` succeeding, leaves the effect active; `End` raises the state
error when the effect is not active and otherwise, the native `End`
succeeding, leaves it inactive.  Hence a `Begin` right after a successful
`Begin` raises the state error, and `End` after a successful `Begin` returns
the effect to inactive. -/
theorem effect_begin_end (e : Effect) (native : ID3DXEffect) (mode : SaveStateMode)
    (hlive : e._effect ≠ NULL) :
    (e._active = true →
        e.Begin native mode = ⟨.error .InvalidOperationException, e, []⟩)
      ∧ (native.currentTechnique = 0 →
          (e.Begin native mode).result = .error .InvalidOperationException
            ∧ (e.Begin native mode).state = e)
      ∧ (e._active = false → native.currentTechnique ≠ 0 →
          0 ≤ native.Begin (if mode = SaveStateMode.SaveState then 0 else D3DXFX_DONOTSAVESTATE) →
          (e.Begin native mode).result = .ok ()
            ∧ (e.Begin native mode).state = { e with _active := true })
      ∧ (e._active = false →
          e.End native = ⟨.error .InvalidOperationException, e, []⟩)
      ∧ (e._active = true → 0 ≤ native.End →
          (e.End native).result = .ok ()
            ∧ (e.End native).state = { e with _active := false })
      ∧ (∀ (native2 : ID3DXEffect) (mode2 : SaveStateMode),
          (e.Begin native mode).result = .ok () →
          (e.Begin native mode).state.Begin native2 mode2
            = ⟨.error .InvalidOperationException, (e.Begin native mode).state, []⟩)
      ∧ (∀ native2 : ID3DXEffect,
          (e.Begin native mode).result = .ok () → 0 ≤ native2.End →
          ((e.Begin native mode).state.End native2).result = .ok ()
            ∧ ((e.Begin native mode).state.End native2).state._active = false) := by
  have hp := effect_ptr_of_live e hlive
  refine ⟨begin_of_active e native mode, ?_, ?_, ?_, ?_, ?_, ?_⟩
  · intro htech
    by_cases hact : e._active = true
    · simp [Effect.Begin, hact]
    · simp [Effect.Begin, hact, hp, htech]
  · intro hact htech hok
    rw [begin_of_ready e native mode hlive hact htech hok]
    exact ⟨rfl, rfl⟩
  · intro hact
    simp [Effect.End, hact]
  · intro hact hok
    simp [Effect.End, hact, hp, checkResult_of_nonneg _ hok]
  · intro native2 mode2 hfirst
    apply begin_of_active
    rw [begin_ok_state e native mode hfirst]
  · intro native2 hfirst hok
    rw [begin_ok_state e native mode hfirst]
    have hp2 : ({ e with _active := true } : Effect).Ptr = .ok e._effect := by
      simp [Effect.Ptr, hlive]
    simp [Effect.End, hp2, checkResult_of_nonneg _ hok]

/-- Witness of C4: an inactive effect on handle 1 with technique 16 selected;
the second `Begin` in a row raises the state error. -/
theorem effect_begin_end_witness :
    ((Effect.mk 1 none 0 1 0 false).Begin
        ⟨16, fun _ => S_OK, fun _ => S_OK, 2, S_OK, fun _ => S_OK, S_OK, fun _ => (S_OK, 0)⟩
        SaveStateMode.SaveState).state.Begin
        ⟨16, fun _ => S_OK, fun _ => S_OK, 2, S_OK, fun _ => S_OK, S_OK, fun _ => (S_OK, 0)⟩
        SaveStateMode.SaveState
      = ⟨.error .InvalidOperationException, Effect.mk 1 none 0 1 0 true, []⟩ :=
  (effect_begin_end (Effect.mk 1 none 0 1 0 false)
    ⟨16, fun _ => S_OK, fun _ => S_OK, 2, S_OK, fun _ => S_OK, S_OK, fun _ => (S_OK, 0)⟩
    SaveStateMode.SaveState (by decide)).2.2.2.2.2.1
    ⟨16, fun _ => S_OK, fun _ => S_OK, 2, S_OK, fun _ => S_OK, S_OK, fun _ => (S_OK, 0)⟩
    SaveStateMode.SaveState rfl

/-- `EffectPass::Begin` when the managed check fails: the state error, and at
most the current-technique query has gone to the native effect. -/
theorem pass_begin_rejected (pass : EffectPass) (e : Effect) (native : ID3DXEffect)
    (hlive : e._effect ≠ NULL)
    (h : e._active = false ∨ native.currentTechnique ≠ pass._technique) :
    (pass.Begin e native).result = .error .InvalidOperationException
      ∧ (pass.Begin e native).state = pass
      ∧ ((pass.Begin e native).trace = []
          ∨ (pass.Begin e native).trace = [Action.GetCurrentTechnique e._effect]) := by
  by_cases hact : e._active = true
  · have htech : native.currentTechnique ≠ pass._technique := by
      rcases h with h | h
      · rw [hact] at h
        cases h
      · exact h
    simp [EffectPass.Begin, Effect.IsActive, hact, effect_ptr_of_live e hlive, htech]
  · simp [EffectPass.Begin, Effect.IsActive, hact]

/-- `EffectPass::Begin` when the managed check passes: the native `BeginPass`
is issued and its result code decides the result. -/
theorem pass_begin_accepted (pass : EffectPass) (e : Effect) (native : ID3DXEffect)
    (hlive : e._effect ≠ NULL) (hact : e._active = true)
    (htech : native.currentTechnique = pass._technique) :
    pass.Begin e native
      = ⟨Utility.CheckResult (native.BeginPass pass._index), pass,
          [Action.GetCurrentTechnique e._effect, Action.BeginPass e._effect pass._index]⟩ := by
  simp [EffectPass.Begin, Effect.IsActive, hact, effect_ptr_of_live e hlive, htech]

/-- Claim C5: for a pass of a live effect, `EffectPass.Begin` raises the state
error exactly when the parent effect is not active or the current technique
handle of the effect differs from the technique the pass was obtained from
(the handle the pass constructor stored); in that case no native `BeginPass`
is issued.  In particular, after another technique has been selected with
success, `Begin` on the pass raises the state error and issues no `BeginPass`. -/
theorem pass_begin_state_error (pass : EffectPass) (e : Effect) (native : ID3DXEffect)
    (hlive : e._effect ≠ NULL) :
    ((pass.Begin e native).result = .error .InvalidOperationException
        ↔ (e._active = false ∨ native.currentTechnique ≠ pass._technique))
      ∧ ((e._active = false ∨ native.currentTechnique ≠ pass._technique) →
          ∀ (p : Pointer) (index : Int), Action.BeginPass p index ∉ (pass.Begin e native).trace)
      ∧ (∀ (eff : ObjRef) (technique handle : IntPtr) (index : Int),
          EffectPass.new (some eff) technique handle index = .ok pass →
          pass._technique = technique)
      ∧ (∀ other : IntPtr, other ≠ pass._technique → 0 ≤ native.SetTechnique other →
          (e.CurrentTechnique_set native (some other)).result = .ok ()
            ∧ (pass.Begin (e.CurrentTechnique_set native (some other)).state.1
                (e.CurrentTechnique_set native (some other)).state.2).result
              = .error .InvalidOperationException
            ∧ ∀ (p : Pointer) (index : Int), Action.BeginPass p index ∉
                (pass.Begin (e.CurrentTechnique_set native (some other)).state.1
                  (e.CurrentTechnique_set native (some other)).state.2).trace) := by
  have hno : ∀ (e1 : Effect) (n1 : ID3DXEffect), e1._effect ≠ NULL →
      (e1._active = false ∨ n1.currentTechnique ≠ pass._technique) →
      ∀ (p : Pointer) (index : Int), Action.BeginPass p index ∉ (pass.Begin e1 n1).trace := by
    intro e1 n1 hl hc p index
    rcases (pass_begin_rejected pass e1 n1 hl hc).2.2 with ht | ht
    · rw [ht]
      simp
    · rw [ht]
      simp
  refine ⟨⟨?_, fun h => (pass_begin_rejected pass e native hlive h).1⟩, hno e native hlive, ?_, ?_⟩
  · intro hres
    by_contra hcon
    push_neg at hcon
    have hact : e._active = true := by
      cases hb : e._active with
      | true => rfl
      | false => exact absurd hb hcon.1
    rw [pass_begin_accepted pass e native hlive hact hcon.2] at hres
    exact checkResult_ne_invalidOperation _ hres
  · intro eff technique handle index hnew
    unfold EffectPass.new at hnew
    by_cases h1 : technique = 0
    · simp [h1] at hnew
    · by_cases h2 : handle = 0
      · simp [h1, h2] at hnew
      · simp only [h1, h2, if_false] at hnew
        injection hnew with hnew
        rw [← hnew]
  · intro other hne hok
    have hset : e.CurrentTechnique_set native (some other)
        = ⟨.ok (), (e, { native with currentTechnique := other }),
            [Action.SetTechnique e._effect other]⟩ := by
      have hf : FAILED (native.SetTechnique other) = false := by
        simp [FAILED, not_lt.mpr hok]
      simp [Effect.CurrentTechnique_set, effect_ptr_of_live e hlive,
        checkResult_of_nonneg _ hok, ID3DXEffect.afterSetTechnique, hf]
    rw [hset]
    refine ⟨rfl, ?_, ?_⟩
    · exact (pass_begin_rejected pass e _ hlive (Or.inr hne)).1
    · exact hno e _ hlive (Or.inr hne)

/-- Witness of C5: a pass of technique 16 on an active effect; once technique
32 is selected, `Begin` on the pass raises the state error. -/
theorem pass_begin_state_error_witness :
    (EffectPass.Begin ⟨0, 16, 17, false, false, none, 0, 0⟩
        ((Effect.mk 1 none 0 2 0 true).CurrentTechnique_set
          ⟨16, fun _ => S_OK, fun _ => S_OK, 2, S_OK, fun _ => S_OK, S_OK, fun _ => (S_OK, 0)⟩
          (some 32)).state.1
        ((Effect.mk 1 none 0 2 0 true).CurrentTechnique_set
          ⟨16, fun _ => S_OK, fun _ => S_OK, 2, S_OK, fun _ => S_OK, S_OK, fun _ => (S_OK, 0)⟩
          (some 32)).state.2).result
      = .error .InvalidOperationException :=
  ((pass_begin_state_error ⟨0, 16, 17, false, false, none, 0, 0⟩ (Effect.mk 1 none 0 2 0 true)
    ⟨16, fun _ => S_OK, fun _ => S_OK, 2, S_OK, fun _ => S_OK, S_OK, fun _ => (S_OK, 0)⟩
    (by decide)).2.2.2 32 (by decide) (by decide)).2.1

/-- Counterexample to C6: on an active effect whose current technique is the
one of the pass, with a native effect that accepts every call, `End` with no
`Begin` open succeeds, and so does a second `Begin` right after the first: no
managed check of the pass stops either, and each call reaches the native effect. -/
theorem pass_double_begin_not_detected :
    (EffectPass.End ⟨0, 16, 17, false, false, none, 0, 0⟩ (Effect.mk 1 none 0 2 0 true)
        ⟨16, fun _ => S_OK, fun _ => S_OK, 2, S_OK, fun _ => S_OK, S_OK, fun _ => (S_OK, 0)⟩)
      = ⟨.ok (), ⟨0, 16, 17, false, false, none, 0, 0⟩, [Action.EndPass 1]⟩
    ∧ (EffectPass.Begin
        (EffectPass.Begin ⟨0, 16, 17, false, false, none, 0, 0⟩ (Effect.mk 1 none 0 2 0 true)
          ⟨16, fun _ => S_OK, fun _ => S_OK, 2, S_OK, fun _ => S_OK, S_OK, fun _ => (S_OK, 0)⟩).state
        (Effect.mk 1 none 0 2 0 true)
        ⟨16, fun _ => S_OK, fun _ => S_OK, 2, S_OK, fun _ => S_OK, S_OK, fun _ => (S_OK, 0)⟩)
      = ⟨.ok (), ⟨0, 16, 17, false, false, none, 0, 0⟩,
          [Action.GetCurrentTechnique 1, Action.BeginPass 1 0]⟩ := by
  exact ⟨rfl, rfl⟩

/-- Claim C6, amended: an effect pass keeps no managed record of an open
`Begin`.  On a live effect `End` always issues the native `EndPass` and
reports exactly what its result code translates to; on a live active effect
whose current technique is the one of the pass `Begin` always issues the native
`BeginPass` and reports exactly what its result code translates to; neither
changes the pass object and neither ever raises the state error, whatever calls
went before. -/
theorem pass_keeps_no_open_state (pass : EffectPass) (e : Effect) (native : ID3DXEffect)
    (hlive : e._effect ≠ NULL) :
    pass.End e native = ⟨Utility.CheckResult native.EndPass, pass, [Action.EndPass e._effect]⟩
      ∧ (pass.End e native).result ≠ .error .InvalidOperationException
      ∧ (pass.Begin e native).state = pass
      ∧ (e._active = true → native.currentTechnique = pass._technique →
          pass.Begin e native
              = ⟨Utility.CheckResult (native.BeginPass pass._index), pass,
                  [Action.GetCurrentTechnique e._effect, Action.BeginPass e._effect pass._index]⟩
            ∧ (pass.Begin e native).result ≠ .error .InvalidOperationException) := by
  have hend : pass.End e native
      = ⟨Utility.CheckResult native.EndPass, pass, [Action.EndPass e._effect]⟩ := by
    simp [EffectPass.End, effect_ptr_of_live e hlive]
  refine ⟨hend, ?_, ?_, ?_⟩
  · rw [hend]
    exact checkResult_ne_invalidOperation _
  · by_cases hc : e._active = false ∨ native.currentTechnique ≠ pass._technique
    · exact (pass_begin_rejected pass e native hlive hc).2.1
    · push_neg at hc
      have hact : e._active = true := by
        cases hb : e._active with
        | true => rfl
        | false => exact absurd hb hc.1
      rw [pass_begin_accepted pass e native hlive hact hc.2]
  · intro hact htech
    rw [pass_begin_accepted pass e native hlive hact htech]
    exact ⟨rfl, checkResult_ne_invalidOperation _⟩

/-- Witness of C6 (amended): `End` with no `Begin` open on a native effect
that rejects the call reports the translated native error, not the state error. -/
theorem pass_keeps_no_open_state_witness :
    EffectPass.End ⟨0, 16, 17, false, false, none, 0, 0⟩ (Effect.mk 1 none 0 2 0 true)
        ⟨16, fun _ => S_OK, fun _ => S_OK, 2, S_OK, fun _ => S_OK, D3DERR_INVALIDCALL,
          fun _ => (S_OK, 0)⟩
      = ⟨.error .ArgumentException, ⟨0, 16, 17, false, false, none, 0, 0⟩, [Action.EndPass 1]⟩ :=
  (pass_keeps_no_open_state ⟨0, 16, 17, false, false, none, 0, 0⟩ (Effect.mk 1 none 0 2 0 true)
    ⟨16, fun _ => S_OK, fun _ => S_OK, 2, S_OK, fun _ => S_OK, D3DERR_INVALIDCALL,
      fun _ => (S_OK, 0)⟩ (by decide)).1

/-- Counterexample to C7: no reading of what `Effect.Begin` returns gives the
pass count of the native `Begin`, since two native effects that differ only in
the pass count they report (2 and 3) make `Begin` return the same thing. -/
theorem begin_result_is_not_pass_count :
    ¬ ∃ count : Except Error Unit → Nat, ∀ native : ID3DXEffect,
        ((Effect.mk 1 none 0 1 0 false).Begin native SaveStateMode.SaveState).result = .ok () →
        count ((Effect.mk 1 none 0 1 0 false).Begin native SaveStateMode.SaveState).result
          = native.passCount := by
  rintro ⟨count, h⟩
  have h2 := h ⟨16, fun _ => S_OK, fun _ => S_OK, 2, S_OK, fun _ => S_OK, S_OK, fun _ => (S_OK, 0)⟩ rfl
  have h3 := h ⟨16, fun _ => S_OK, fun _ => S_OK, 3, S_OK, fun _ => S_OK, S_OK, fun _ => (S_OK, 0)⟩ rfl
  have e2 : ((Effect.mk 1 none 0 1 0 false).Begin
      ⟨16, fun _ => S_OK, fun _ => S_OK, 2, S_OK, fun _ => S_OK, S_OK, fun _ => (S_OK, 0)⟩
      SaveStateMode.SaveState).result = .ok () := rfl
  have e3 : ((Effect.mk 1 none 0 1 0 false).Begin
      ⟨16, fun _ => S_OK, fun _ => S_OK, 3, S_OK, fun _ => S_OK, S_OK, fun _ => (S_OK, 0)⟩
      SaveStateMode.SaveState).result = .ok () := rfl
  rw [e2] at h2
  rw [e3] at h3
  simp only [] at h2 h3
  omega

/-- Claim C7, amended: `Effect.Begin` returns no value.  The pass count that
the native `Begin` reports is discarded: the result, the effect state and the
native calls of `Begin` are the same whatever pass count the native effect
reports, and all a successful `Begin` yields is the unit value of a `void`
method and an effect that is now active. -/
theorem begin_discards_pass_count (e : Effect) (native : ID3DXEffect) (mode : SaveStateMode)
    (count : Nat) :
    e.Begin { native with passCount := count } mode = e.Begin native mode
      ∧ ((e.Begin native mode).result = .ok () →
          (e.Begin { native with passCount := count } mode).result = .ok ()
            ∧ (e.Begin { native with passCount := count } mode).state = { e with _active := true }) := by
  have hsame : e.Begin { native with passCount := count } mode = e.Begin native mode := rfl
  refine ⟨hsame, ?_⟩
  intro hok
  rw [hsame]
  exact ⟨hok, begin_ok_state e native mode hok⟩

/-- Witness of C7 (amended): the native effect reports 2 passes, or 7; `Begin`
gives the same outcome. -/
theorem begin_discards_pass_count_witness :
    (Effect.mk 1 none 0 1 0 false).Begin
        ⟨16, fun _ => S_OK, fun _ => S_OK, 7, S_OK, fun _ => S_OK, S_OK, fun _ => (S_OK, 0)⟩
        SaveStateMode.None
      = (Effect.mk 1 none 0 1 0 false).Begin
        ⟨16, fun _ => S_OK, fun _ => S_OK, 2, S_OK, fun _ => S_OK, S_OK, fun _ => (S_OK, 0)⟩
        SaveStateMode.None
    ∧ ((Effect.mk 1 none 0 1 0 false).Begin
        ⟨16, fun _ => S_OK, fun _ => S_OK, 7, S_OK, fun _ => S_OK, S_OK, fun _ => (S_OK, 0)⟩
        SaveStateMode.None).state = Effect.mk 1 none 0 1 0 true :=
  ⟨(begin_discards_pass_count (Effect.mk 1 none 0 1 0 false)
      ⟨16, fun _ => S_OK, fun _ => S_OK, 2, S_OK, fun _ => S_OK, S_OK, fun _ => (S_OK, 0)⟩
      SaveStateMode.None 7).1,
   ((begin_discards_pass_count (Effect.mk 1 none 0 1 0 false)
      ⟨16, fun _ => S_OK, fun _ => S_OK, 2, S_OK, fun _ => S_OK, S_OK, fun _ => (S_OK, 0)⟩
      SaveStateMode.None 7).2 rfl).2⟩

/-! ## Valid-technique enumerator -/

/-- The before-first value is not the null handle. -/
theorem beforeFirst_ne_zero : beforeFirst ≠ 0 := by
  decide

/-- `MoveNext` on an exhausted enumerator: `false`, nothing changed, no native call. -/
theorem moveNext_of_exhausted (en : ValidTechniqueEnumerator) (e : Effect) (native : ID3DXEffect)
    (h : en._currentTechnique = 0) : en.MoveNext e native = ⟨.ok false, en, []⟩ := by
  simp [ValidTechniqueEnumerator.MoveNext, h]

/-- Any number of `MoveNext` calls leaves an exhausted enumerator as it is. -/
theorem moveNextTimes_of_exhausted (e : Effect) (native : ID3DXEffect) (m : Nat)
    (en : ValidTechniqueEnumerator) (h : en._currentTechnique = 0) :
    ValidTechniqueEnumerator.moveNextTimes e native m en = en := by
  induction m with
  | zero => rfl
  | succ m ih =>
    simp [ValidTechniqueEnumerator.moveNextTimes, moveNext_of_exhausted en e native h, ih]

/-- One `MoveNext` that queries the native effect: the query goes out for the
handle `start` (null when the enumerator is before the first element) and the
answer becomes the current handle. -/
theorem moveNext_query (en : ValidTechniqueEnumerator) (e : Effect) (native : ID3DXEffect)
    (start : IntPtr) (hlive : e._effect ≠ NULL) (hcur : en._currentTechnique ≠ 0)
    (hstart : (if en._currentTechnique = beforeFirst then 0 else en._currentTechnique) = start)
    (hok : 0 ≤ (native.FindNextValidTechnique start).1) :
    en.MoveNext e native
      = ⟨.ok (decide ((native.FindNextValidTechnique start).2 ≠ 0)),
          { en with _currentTechnique := (native.FindNextValidTechnique start).2 },
          [Action.FindNextValidTechnique e._effect start]⟩ := by
  unfold ValidTechniqueEnumerator.MoveNext
  simp only [hcur, if_false, hstart, effect_ptr_of_live e hlive, checkResult_of_nonneg _ hok]

/-- After `k + 1` calls of `MoveNext`, the first `k` of which found a
technique, the current handle is the `(j + k + 1)`-th of the walk, `j` being
the position the enumerator started from. -/
theorem moveNextTimes_walk (e : Effect) (native : ID3DXEffect) (next : IntPtr → IntPtr)
    (hlive : e._effect ≠ NULL)
    (hok : ∀ h, 0 ≤ (native.FindNextValidTechnique h).1)
    (hquery : ∀ h, (native.FindNextValidTechnique h).2 = next h)
    (hsent : ∀ h, next h ≠ beforeFirst) (k : Nat) :
    ∀ (j : Nat) (en : ValidTechniqueEnumerator), en._currentTechnique ≠ 0 →
      (if en._currentTechnique = beforeFirst then 0 else en._currentTechnique) = handleAt next j →
      (∀ i, 1 ≤ i → i ≤ k → handleAt next (j + i) ≠ 0) →
      ValidTechniqueEnumerator.moveNextTimes e native (k + 1) en
        = { en with _currentTechnique := handleAt next (j + k + 1) } := by
  induction k with
  | zero =>
    intro j en hcur hstart _
    simp only [ValidTechniqueEnumerator.moveNextTimes]
    rw [moveNext_query en e native (handleAt next j) hlive hcur hstart (hok _), hquery]
    rfl
  | succ k ih =>
    intro j en hcur hstart hall
    have hstep := moveNext_query en e native (handleAt next j) hlive hcur hstart (hok _)
    rw [hquery] at hstep
    have hne : handleAt next (j + 1) ≠ 0 := hall 1 (le_refl 1) (by omega)
    have hunfold : ValidTechniqueEnumerator.moveNextTimes e native (k + 1 + 1) en
        = ValidTechniqueEnumerator.moveNextTimes e native (k + 1) (en.MoveNext e native).state := rfl
    rw [hunfold, hstep]
    have hcur1 : ({ en with _currentTechnique := next (handleAt next j) }
        : ValidTechniqueEnumerator)._currentTechnique ≠ 0 := hne
    have hstart1 : (if ({ en with _currentTechnique := next (handleAt next j) }
          : ValidTechniqueEnumerator)._currentTechnique = beforeFirst then 0
        else ({ en with _currentTechnique := next (handleAt next j) }
          : ValidTechniqueEnumerator)._currentTechnique) = handleAt next (j + 1) := by
      simp [hsent, handleAt]
    have hall1 : ∀ i, 1 ≤ i → i ≤ k → handleAt next (j + 1 + i) ≠ 0 := by
      intro i h1 h2
      have := hall (i + 1) (by omega) (by omega)
      rwa [show j + (i + 1) = j + 1 + i by omega] at this
    rw [ih (j + 1) _ hcur1 hstart1 hall1]
    rw [show j + 1 + k + 1 = j + (k + 1) + 1 by omega]

/-- Claim C8: take a freshly constructed enumerator over a live effect whose
native query always succeeds and answers `next h` for the handle `h`, never
the before-first value `(IntPtr) -1` (which is no technique handle).  Write
`handleAt next k` for h_k (h_1 = next(null), h_(k+1) = next(h_k)).  If the
first `k` handles are not null, then after `k` calls of `MoveNext` (all of
which returned true) `Current` is on h_k; the next `MoveNext` queries the
native effect once, for the successor of h_k, leaves the enumerator on
h_(k+1), and returns false exactly when that answer is the null handle; and
once that has happened every further `MoveNext` returns false without a
native call and without changing the enumerator, until `Reset`, which gives
back the fresh enumerator. -/
theorem valid_technique_walk (e : Effect) (native : ID3DXEffect) (next : IntPtr → IntPtr)
    (eff : ObjRef) (fresh : ValidTechniqueEnumerator)
    (hfresh : ValidTechniqueEnumerator.new (some eff) = .ok fresh)
    (hlive : e._effect ≠ NULL)
    (hok : ∀ h, 0 ≤ (native.FindNextValidTechnique h).1)
    (hquery : ∀ h, (native.FindNextValidTechnique h).2 = next h)
    (hsent : ∀ h, next h ≠ beforeFirst)
    (k : Nat) (hfound : ∀ i, 1 ≤ i → i ≤ k → handleAt next i ≠ 0) :
    (1 ≤ k →
        (ValidTechniqueEnumerator.moveNextTimes e native k fresh).Current
          = .ok (handleAt next k))
      ∧ (ValidTechniqueEnumerator.moveNextTimes e native k fresh).MoveNext e native
          = ⟨.ok (decide (handleAt next (k + 1) ≠ 0)),
              { fresh with _currentTechnique := handleAt next (k + 1) },
              [Action.FindNextValidTechnique e._effect (handleAt next k)]⟩
      ∧ (((ValidTechniqueEnumerator.moveNextTimes e native k fresh).MoveNext e native).result
            = .ok false ↔ next (handleAt next k) = 0)
      ∧ (handleAt next (k + 1) = 0 → ∀ m : Nat,
          (ValidTechniqueEnumerator.moveNextTimes e native (k + 1 + m) fresh).MoveNext e native
              = ⟨.ok false, ValidTechniqueEnumerator.moveNextTimes e native (k + 1 + m) fresh, []⟩
            ∧ (ValidTechniqueEnumerator.moveNextTimes e native (k + 1 + m) fresh).Reset = fresh) := by
  have hfr : fresh = ⟨eff, beforeFirst⟩ := by
    simp only [ValidTechniqueEnumerator.new, ValidTechniqueEnumerator.Reset] at hfresh
    injection hfresh with hfresh
    exact hfresh.symm
  -- the enumerator after `k` successful calls
  have hstate : ∀ n, (∀ i, 1 ≤ i → i ≤ n → handleAt next i ≠ 0) →
      (ValidTechniqueEnumerator.moveNextTimes e native n fresh)._currentTechnique ≠ 0
        ∧ (if (ValidTechniqueEnumerator.moveNextTimes e native n fresh)._currentTechnique = beforeFirst
            then 0
            else (ValidTechniqueEnumerator.moveNextTimes e native n fresh)._currentTechnique)
          = handleAt next n
        ∧ (1 ≤ n → ValidTechniqueEnumerator.moveNextTimes e native n fresh
            = { fresh with _currentTechnique := handleAt next n }) := by
    intro n hn
    cases n with
    | zero =>
      subst hfr
      refine ⟨beforeFirst_ne_zero, rfl, fun h0 => absurd h0 (by decide)⟩
    | succ n =>
      have hw := moveNextTimes_walk e native next hlive hok hquery hsent n 0 fresh
        (by subst hfr; exact beforeFirst_ne_zero) (by subst hfr; rfl)
        (by
          intro i h1 h2
          rw [Nat.zero_add]
          exact hn i h1 (by omega))
      rw [Nat.zero_add] at hw
      have hne : handleAt next (n + 1) ≠ 0 := hn (n + 1) (by omega) (le_refl _)
      have hns : handleAt next (n + 1) ≠ beforeFirst := hsent _
      rw [hw]
      refine ⟨hne, ?_, fun _ => rfl⟩
      simp [hns]
  obtain ⟨hcur, hstart, hshape⟩ := hstate k hfound
  have hstep := moveNext_query (ValidTechniqueEnumerator.moveNextTimes e native k fresh) e native
    (handleAt next k) hlive hcur hstart (hok _)
  rw [hquery] at hstep
  have hstep1 : (ValidTechniqueEnumerator.moveNextTimes e native k fresh).MoveNext e native
      = ⟨.ok (decide (handleAt next (k + 1) ≠ 0)),
          { fresh with _currentTechnique := handleAt next (k + 1) },
          [Action.FindNextValidTechnique e._effect (handleAt next k)]⟩ := by
    rw [hstep]
    cases k with
    | zero => rfl
    | succ n =>
      rw [hshape (by omega)]
      rfl
  refine ⟨?_, hstep1, ?_, ?_⟩
  · intro hk
    rw [hshape hk]
    have hne : handleAt next k ≠ 0 := hfound k hk (le_refl _)
    simp [ValidTechniqueEnumerator.Current, hne]
  · rw [hstep1]
    simp [handleAt]
  · intro hnull m
    have hex : ValidTechniqueEnumerator.moveNextTimes e native (k + 1) fresh
        = { fresh with _currentTechnique := 0 } := by
      have hw := moveNextTimes_walk e native next hlive hok hquery hsent k 0 fresh
        (by subst hfr; exact beforeFirst_ne_zero) (by subst hfr; rfl)
        (by
          intro i h1 h2
          rw [Nat.zero_add]
          exact hfound i h1 h2)
      rw [Nat.zero_add, hnull] at hw
      exact hw
    have hsplit : ∀ (a b : Nat) (en : ValidTechniqueEnumerator),
        ValidTechniqueEnumerator.moveNextTimes e native (a + b) en
          = ValidTechniqueEnumerator.moveNextTimes e native b
              (ValidTechniqueEnumerator.moveNextTimes e native a en) := by
      intro a b
      induction a with
      | zero =>
        intro en
        rw [Nat.zero_add]
        rfl
      | succ a ih =>
        intro en
        rw [show a + 1 + b = (a + b) + 1 by omega]
        simp only [ValidTechniqueEnumerator.moveNextTimes]
        exact ih _
    have hall : ValidTechniqueEnumerator.moveNextTimes e native (k + 1 + m) fresh
        = { fresh with _currentTechnique := 0 } := by
      rw [hsplit, hex]
      exact moveNextTimes_of_exhausted e native m _ rfl
    rw [hall]
    refine ⟨moveNext_of_exhausted _ e native rfl, ?_⟩
    subst hfr
    rfl

/-- Witness of C8: an effect with the two valid techniques 16 and 32.  The
third `MoveNext` asks for the successor of 32, gets the null handle and
returns false. -/
theorem valid_technique_walk_witness :
    (ValidTechniqueEnumerator.moveNextTimes (Effect.mk 1 none 0 2 0 false)
        ⟨0, fun _ => S_OK, fun _ => S_OK, 1, S_OK, fun _ => S_OK, S_OK,
          fun h => (S_OK, if h = 0 then 16 else if h = 16 then 32 else 0)⟩
        2 ⟨0, beforeFirst⟩).MoveNext (Effect.mk 1 none 0 2 0 false)
        ⟨0, fun _ => S_OK, fun _ => S_OK, 1, S_OK, fun _ => S_OK, S_OK,
          fun h => (S_OK, if h = 0 then 16 else if h = 16 then 32 else 0)⟩
      = ⟨.ok false, ⟨0, 0⟩, [Action.FindNextValidTechnique 1 32]⟩ :=
  (valid_technique_walk (Effect.mk 1 none 0 2 0 false)
    ⟨0, fun _ => S_OK, fun _ => S_OK, 1, S_OK, fun _ => S_OK, S_OK,
      fun h => (S_OK, if h = 0 then 16 else if h = 16 then 32 else 0)⟩
    (fun h => if h = 0 then 16 else if h = 16 then 32 else 0)
    0 ⟨0, beforeFirst⟩ rfl (by decide)
    (fun _ => le_refl _) (fun _ => rfl)
    (by
      intro h
      show (if h = 0 then (16 : IntPtr) else if h = 16 then 32 else 0) ≠ beforeFirst
      split_ifs <;> decide)
    2
    (by
      intro i h1 h2
      interval_cases i <;> decide)).2.1

/-- Claim C9: in whatever state an enumerator is (before the first element, in
the middle, exhausted), `Reset` puts it in the state of a freshly constructed
enumerator over the same effect; so every run of `MoveNext` calls after
`Reset` ends in the same state, gives the same results and native calls, and
shows the same `Current`, as the same run on a new enumerator. -/
theorem reset_gives_fresh (en : ValidTechniqueEnumerator) :
    ValidTechniqueEnumerator.new (some en._effect) = .ok en.Reset
      ∧ ∀ fresh : ValidTechniqueEnumerator,
          ValidTechniqueEnumerator.new (some en._effect) = .ok fresh →
          ∀ (e : Effect) (native : ID3DXEffect) (k : Nat),
            ValidTechniqueEnumerator.moveNextTimes e native k en.Reset
                = ValidTechniqueEnumerator.moveNextTimes e native k fresh
              ∧ (ValidTechniqueEnumerator.moveNextTimes e native k en.Reset).MoveNext e native
                = (ValidTechniqueEnumerator.moveNextTimes e native k fresh).MoveNext e native
              ∧ (ValidTechniqueEnumerator.moveNextTimes e native k en.Reset).Current
                = (ValidTechniqueEnumerator.moveNextTimes e native k fresh).Current := by
  have hnew : ValidTechniqueEnumerator.new (some en._effect) = .ok en.Reset := rfl
  refine ⟨hnew, ?_⟩
  intro fresh hfresh e native k
  rw [hnew] at hfresh
  injection hfresh with hfresh
  rw [hfresh]
  exact ⟨rfl, rfl, rfl⟩

/-- Witness of C9: an exhausted enumerator, reset, walks like a new one. -/
theorem reset_gives_fresh_witness :
    (ValidTechniqueEnumerator.moveNextTimes (Effect.mk 1 none 0 2 0 false)
        ⟨0, fun _ => S_OK, fun _ => S_OK, 1, S_OK, fun _ => S_OK, S_OK,
          fun h => (S_OK, if h = 0 then 16 else if h = 16 then 32 else 0)⟩
        1 (ValidTechniqueEnumerator.Reset ⟨4, 0⟩)).Current
      = (ValidTechniqueEnumerator.moveNextTimes (Effect.mk 1 none 0 2 0 false)
        ⟨0, fun _ => S_OK, fun _ => S_OK, 1, S_OK, fun _ => S_OK, S_OK,
          fun h => (S_OK, if h = 0 then 16 else if h = 16 then 32 else 0)⟩
        1 ⟨4, beforeFirst⟩).Current :=
  ((reset_gives_fresh ⟨4, 0⟩).2 ⟨4, beforeFirst⟩ rfl (Effect.mk 1 none 0 2 0 false)
    ⟨0, fun _ => S_OK, fun _ => S_OK, 1, S_OK, fun _ => S_OK, S_OK,
      fun h => (S_OK, if h = 0 then 16 else if h = 16 then 32 else 0)⟩ 1).2.2

/-! ## Draw calls -/

/-- The sibling paths of `DrawUserPrimitives`: with a scene open,
`DrawPrimitives` rejects every primitive count below 1 that comes with a valid
start vertex, and issues no native call. -/
theorem drawPrimitives_rejects_low_count (d : GraphicsDevice) (native : IDirect3DDevice9)
    (primitiveType : PrimitiveType) (startVertex primitiveCount : Int)
    (hscene : d._beginSceneCalled = true) (hstart : 0 ≤ startVertex) (hcount : primitiveCount < 1) :
    d.DrawPrimitives native primitiveType startVertex primitiveCount
      = ⟨.error (.ArgumentOutOfRangeException "primitiveCount"), d, []⟩ := by
  simp [GraphicsDevice.DrawPrimitives, GraphicsDevice.autoBeginScene, hscene,
    not_lt.mpr hstart, hcount]

/-- The sibling paths of `DrawUserPrimitives`: with a scene open,
`DrawIndexedPrimitives` rejects every primitive count below 1 that comes with
a valid minimum vertex index, and issues no native call. -/
theorem drawIndexedPrimitives_rejects_low_count (d : GraphicsDevice) (native : IDirect3DDevice9)
    (primitiveType : PrimitiveType) (baseVertex minVertexIndex numVertices startIndex : Int)
    (primitiveCount : Int)
    (hscene : d._beginSceneCalled = true) (hmin : 0 ≤ minVertexIndex) (hcount : primitiveCount < 1) :
    d.DrawIndexedPrimitives native primitiveType baseVertex minVertexIndex numVertices startIndex
        primitiveCount
      = ⟨.error (.ArgumentOutOfRangeException "primitiveCount"), d, []⟩ := by
  simp [GraphicsDevice.DrawIndexedPrimitives, GraphicsDevice.autoBeginScene, hscene,
    not_lt.mpr hmin, hcount]

/-- Claim C10, the code at the failing input: on a live device with a scene
open, `DrawUserPrimitives` of a triangle list over three flat 12-byte vertices
with `primitiveCount == 0` raises nothing and issues the native
`DrawPrimitiveUP` with a primitive count of 0, because its guard reads
`primitiveCount < 0`; with the same count `DrawPrimitives` and
`DrawIndexedPrimitives`, whose guards read `primitiveCount < 1`, raise the
out-of-range error and issue no native call. -/
theorem drawUserPrimitives_zero_count_reaches_native :
    GraphicsDevice.DrawUserPrimitives ⟨1, true⟩
        ⟨S_OK, S_OK, fun _ _ _ => S_OK, fun _ _ _ _ _ _ => S_OK, fun _ _ _ _ => S_OK, S_OK, S_OK⟩
        12 true PrimitiveType.TriangleList (some [(10 : Nat), 11, 12]) 0 0
      = ⟨.ok (), ⟨1, true⟩, [Action.DrawPrimitiveUP 1 PrimitiveType.TriangleList 0 0 12]⟩
    ∧ GraphicsDevice.DrawPrimitives ⟨1, true⟩
        ⟨S_OK, S_OK, fun _ _ _ => S_OK, fun _ _ _ _ _ _ => S_OK, fun _ _ _ _ => S_OK, S_OK, S_OK⟩
        PrimitiveType.TriangleList 0 0
      = ⟨.error (.ArgumentOutOfRangeException "primitiveCount"), ⟨1, true⟩, []⟩
    ∧ GraphicsDevice.DrawIndexedPrimitives ⟨1, true⟩
        ⟨S_OK, S_OK, fun _ _ _ => S_OK, fun _ _ _ _ _ _ => S_OK, fun _ _ _ _ => S_OK, S_OK, S_OK⟩
        PrimitiveType.TriangleList 0 0 3 0 0
      = ⟨.error (.ArgumentOutOfRangeException "primitiveCount"), ⟨1, true⟩, []⟩ := by
  refine ⟨?_, ?_, ?_⟩
  · rfl
  · exact drawPrimitives_rejects_low_count _ _ _ _ _ rfl (by decide) (by decide)
  · exact drawIndexedPrimitives_rejects_low_count _ _ _ _ _ _ _ _ rfl (by decide) (by decide)

/-! ## Scene state and argument checks of the draw calls -/

/-- The handle accessor of a live device. -/
theorem device_ptr_of_live (d : GraphicsDevice) (h : d._deviceW ≠ NULL) :
    d.Ptr = .ok d._deviceW := by
  simp [GraphicsDevice.Ptr, h]

/-- A value in the range of a 32-bit `int` is stored unchanged. -/
theorem wrapInt32_of_fits (x : Int) (hlo : -2147483648 ≤ x) (hhi : x < 2147483648) :
    wrapInt32 x = x := by
  unfold wrapInt32
  omega

/-- With a scene open the automatic `BeginScene` does nothing. -/
theorem autoBeginScene_of_open (d : GraphicsDevice) (native : IDirect3DDevice9)
    (h : d._beginSceneCalled = true) : d.autoBeginScene native = ⟨.ok (), d, []⟩ := by
  simp [GraphicsDevice.autoBeginScene, h]

/-- With no scene open, on a live device, the automatic `BeginScene` issues
the native `BeginScene`; when that succeeds the device is in `SceneOpen`. -/
theorem autoBeginScene_of_closed (d : GraphicsDevice) (native : IDirect3DDevice9)
    (hlive : d._deviceW ≠ NULL) (h : d._beginSceneCalled = false) (hok : 0 ≤ native.BeginScene) :
    d.autoBeginScene native
      = ⟨.ok (), { d with _beginSceneCalled := true }, [Action.BeginScene d._deviceW]⟩ := by
  simp [GraphicsDevice.autoBeginScene, h, GraphicsDevice.BeginScene, device_ptr_of_live d hlive,
    checkResult_of_nonneg _ hok]

/-- The source computation of the vertex count agrees with the specified
number whenever that number fits a 32-bit `int`. -/
theorem getVertexCount_of_required (primitiveType : PrimitiveType) (n needed : Int)
    (hreq : requiredVertices primitiveType n = some needed)
    (hlo : -2147483648 ≤ needed) (hhi : needed < 2147483648) :
    GraphicsDevice.GetVertexCount primitiveType n = .ok needed := by
  unfold requiredVertices at hreq
  unfold GraphicsDevice.GetVertexCount
  split_ifs at hreq ⊢ with h1 h2 h3 h4 h5
  · simp only [Option.some.injEq] at hreq
    rw [hreq]
  · simp only [Option.some.injEq] at hreq
    rw [show n * 2 = needed by omega, wrapInt32_of_fits needed hlo hhi]
  · simp only [Option.some.injEq] at hreq
    rw [show n + 1 = needed by omega, wrapInt32_of_fits needed hlo hhi]
  · simp only [Option.some.injEq] at hreq
    rw [show n * 3 = needed by omega, wrapInt32_of_fits needed hlo hhi]
  · simp only [Option.some.injEq] at hreq
    rw [show n + 2 = needed by omega, wrapInt32_of_fits needed hlo hhi]

/-- `DrawUserPrimitives` once the automatic `BeginScene` is through and the
checks before the vertex count have passed: what is left is the vertex-count
check and the native draw. -/
theorem drawUserPrimitives_after_checks {T : Type} (d : GraphicsDevice) (native : IDirect3DDevice9)
    (sizeofT : Nat) (primitiveType : PrimitiveType) (data : List T) (offset n : Int)
    (hopened : (d.autoBeginScene native).result = .ok ())
    (hoff : 0 ≤ offset) (hoff2 : offset < (data.length : Int)) (hn : 0 ≤ n)
    (hsize : sizeofT ≠ 0) :
    d.DrawUserPrimitives native sizeofT true primitiveType (some data) offset n
      = (match GraphicsDevice.GetVertexCount primitiveType n with
         | .error err =>
           ⟨.error err, (d.autoBeginScene native).state, (d.autoBeginScene native).trace⟩
         | .ok needed =>
           if needed > (data.length : Int) - offset then
             ⟨.error .ArgumentException, (d.autoBeginScene native).state,
               (d.autoBeginScene native).trace⟩
           else
             match (d.autoBeginScene native).state.Ptr with
             | .error err =>
               ⟨.error err, (d.autoBeginScene native).state, (d.autoBeginScene native).trace⟩
             | .ok p =>
               ⟨Utility.CheckResult (native.DrawPrimitiveUP primitiveType n offset sizeofT),
                 (d.autoBeginScene native).state,
                 (d.autoBeginScene native).trace
                   ++ [Action.DrawPrimitiveUP p primitiveType n offset sizeofT]⟩) := by
  unfold GraphicsDevice.DrawUserPrimitives
  simp only [hopened]
  have h1 : ¬ (offset < 0 ∨ offset ≥ (data.length : Int)) := by omega
  have h2 : ¬ n < 0 := by omega
  simp only [h1, h2, hsize, if_false, Bool.not_true, Bool.false_eq_true]

/-- The automatic `BeginScene` never issues a draw call. -/
theorem autoBeginScene_no_draw (d : GraphicsDevice) (native : IDirect3DDevice9) :
    ∀ a ∈ (d.autoBeginScene native).trace, a.isDraw = false := by
  unfold GraphicsDevice.autoBeginScene GraphicsDevice.BeginScene
  by_cases hopen : d._beginSceneCalled = true
  · simp [hopen]
  · simp only [hopen, Bool.not_false, if_true]
    cases d.Ptr with
    | error err => simp
    | ok p =>
      cases Utility.CheckResult native.BeginScene with
      | error err => simp [Action.isDraw]
      | ok u => simp [Action.isDraw]

/-- The specified vertex count of at least one primitive is at least one. -/
theorem requiredVertices_pos (primitiveType : PrimitiveType) (n needed : Int)
    (hreq : requiredVertices primitiveType n = some needed) (hn : 1 ≤ n) : 1 ≤ needed := by
  unfold requiredVertices at hreq
  split_ifs at hreq with h1 h2 h3 h4 h5
  all_goals
    simp only [Option.some.injEq] at hreq
    omega

/-- Counterexample to C12: on a live device with no scene open,
`DrawPrimitives` with a negative start vertex, and `DrawUserPrimitives` with a
null vertex array, raise their argument errors only after the native
`BeginScene` has been issued, and leave the device in `SceneOpen`. -/
theorem draw_argument_error_after_begin_scene :
    GraphicsDevice.DrawPrimitives ⟨1, false⟩
        ⟨S_OK, S_OK, fun _ _ _ => S_OK, fun _ _ _ _ _ _ => S_OK, fun _ _ _ _ => S_OK, S_OK, S_OK⟩
        PrimitiveType.TriangleList (-1) 1
      = ⟨.error (.ArgumentOutOfRangeException "startVertex"), ⟨1, true⟩, [Action.BeginScene 1]⟩
    ∧ GraphicsDevice.DrawUserPrimitives ⟨1, false⟩
        ⟨S_OK, S_OK, fun _ _ _ => S_OK, fun _ _ _ _ _ _ => S_OK, fun _ _ _ _ => S_OK, S_OK, S_OK⟩
        12 true PrimitiveType.TriangleList (none : Option (List Nat)) 0 1
      = ⟨.error (.ArgumentNullException "vertexData"), ⟨1, true⟩, [Action.BeginScene 1]⟩ := by
  exact ⟨rfl, rfl⟩

/-- Claim C12, amended: each draw method first opens the scene when none is
open and only then checks its arguments.  So when a managed argument check
rejects the call (null vertex array, negative start vertex, minimum vertex
index or offset, bad primitive count, too few vertices, unknown primitive
type), no native draw call has been made, and the state and the native calls
are exactly those of the automatic `BeginScene`: nothing at all when a scene
was open, and one native `BeginScene` with the device left in `SceneOpen` when
none was open. -/
theorem draw_argument_error_keeps_auto_begin {T : Type} (d : GraphicsDevice)
    (native : IDirect3DDevice9) (hlive : d._deviceW ≠ NULL)
    (hopened : (d.autoBeginScene native).result = .ok ()) :
    (d._beginSceneCalled = true → d.autoBeginScene native = ⟨.ok (), d, []⟩)
      ∧ (d._beginSceneCalled = false → 0 ≤ native.BeginScene →
          d.autoBeginScene native
            = ⟨.ok (), { d with _beginSceneCalled := true }, [Action.BeginScene d._deviceW]⟩)
      ∧ (∀ a ∈ (d.autoBeginScene native).trace, a.isDraw = false)
      ∧ (∀ (primitiveType : PrimitiveType) (startVertex primitiveCount : Int),
          startVertex < 0 ∨ primitiveCount < 1 →
          d.DrawPrimitives native primitiveType startVertex primitiveCount
            = ⟨.error (.ArgumentOutOfRangeException
                  (if startVertex < 0 then "startVertex" else "primitiveCount")),
                (d.autoBeginScene native).state, (d.autoBeginScene native).trace⟩)
      ∧ (∀ (primitiveType : PrimitiveType)
            (baseVertex minVertexIndex numVertices startIndex primitiveCount : Int),
          minVertexIndex < 0 ∨ primitiveCount < 1 →
          d.DrawIndexedPrimitives native primitiveType baseVertex minVertexIndex numVertices
              startIndex primitiveCount
            = ⟨.error (.ArgumentOutOfRangeException
                  (if minVertexIndex < 0 then "minVertexIndex" else "primitiveCount")),
                (d.autoBeginScene native).state, (d.autoBeginScene native).trace⟩)
      ∧ (∀ (sizeofT : Nat) (simple : Bool) (primitiveType : PrimitiveType)
            (vertexOffset primitiveCount : Int),
          d.DrawUserPrimitives native sizeofT simple primitiveType (none : Option (List T))
              vertexOffset primitiveCount
            = ⟨.error (.ArgumentNullException "vertexData"),
                (d.autoBeginScene native).state, (d.autoBeginScene native).trace⟩)
      ∧ (∀ (sizeofT : Nat) (simple : Bool) (primitiveType : PrimitiveType) (data : List T)
            (vertexOffset primitiveCount : Int),
          vertexOffset < 0 ∨ vertexOffset ≥ (data.length : Int) →
          d.DrawUserPrimitives native sizeofT simple primitiveType (some data)
              vertexOffset primitiveCount
            = ⟨.error (.ArgumentOutOfRangeException "vertexOffset"),
                (d.autoBeginScene native).state, (d.autoBeginScene native).trace⟩)
      ∧ (∀ (sizeofT : Nat) (simple : Bool) (primitiveType : PrimitiveType) (data : List T)
            (vertexOffset primitiveCount : Int),
          0 ≤ vertexOffset → vertexOffset < (data.length : Int) → primitiveCount < 0 →
          d.DrawUserPrimitives native sizeofT simple primitiveType (some data)
              vertexOffset primitiveCount
            = ⟨.error (.ArgumentOutOfRangeException "primitiveCount"),
                (d.autoBeginScene native).state, (d.autoBeginScene native).trace⟩)
      ∧ (∀ (sizeofT : Nat) (primitiveType : PrimitiveType) (data : List T)
            (vertexOffset primitiveCount : Int),
          0 ≤ vertexOffset → vertexOffset < (data.length : Int) → 0 ≤ primitiveCount →
          sizeofT ≠ 0 →
          (GraphicsDevice.GetVertexCount primitiveType primitiveCount = .error .ArgumentException
            ∨ ∃ needed, GraphicsDevice.GetVertexCount primitiveType primitiveCount = .ok needed
                ∧ needed > (data.length : Int) - vertexOffset) →
          d.DrawUserPrimitives native sizeofT true primitiveType (some data)
              vertexOffset primitiveCount
            = ⟨.error .ArgumentException,
                (d.autoBeginScene native).state, (d.autoBeginScene native).trace⟩) := by
  refine ⟨autoBeginScene_of_open d native, autoBeginScene_of_closed d native hlive,
    autoBeginScene_no_draw d native, ?_, ?_, ?_, ?_, ?_, ?_⟩
  · intro primitiveType startVertex primitiveCount hbad
    unfold GraphicsDevice.DrawPrimitives
    simp only [hopened]
    by_cases hs : startVertex < 0
    · simp only [hs, if_true]
    · have hc : primitiveCount < 1 := by
        rcases hbad with h | h
        · exact absurd h hs
        · exact h
      simp only [hs, hc, if_true, if_false]
  · intro primitiveType baseVertex minVertexIndex numVertices startIndex primitiveCount hbad
    unfold GraphicsDevice.DrawIndexedPrimitives
    simp only [hopened]
    by_cases hs : minVertexIndex < 0
    · simp only [hs, if_true]
    · have hc : primitiveCount < 1 := by
        rcases hbad with h | h
        · exact absurd h hs
        · exact h
      simp only [hs, hc, if_true, if_false]
  · intro sizeofT simple primitiveType vertexOffset primitiveCount
    unfold GraphicsDevice.DrawUserPrimitives
    simp only [hopened]
  · intro sizeofT simple primitiveType data vertexOffset primitiveCount hbad
    unfold GraphicsDevice.DrawUserPrimitives
    simp only [hopened, hbad, if_true]
  · intro sizeofT simple primitiveType data vertexOffset primitiveCount h0 h1 hneg
    unfold GraphicsDevice.DrawUserPrimitives
    have hin : ¬ (vertexOffset < 0 ∨ vertexOffset ≥ (data.length : Int)) := by omega
    simp only [hopened, hin, hneg, if_true, if_false]
  · intro sizeofT primitiveType data vertexOffset primitiveCount h0 h1 hn hsize hcount
    rw [drawUserPrimitives_after_checks d native sizeofT primitiveType data vertexOffset
      primitiveCount hopened h0 h1 hn hsize]
    rcases hcount with herr | ⟨needed, hok, hgt⟩
    · rw [herr]
    · rw [hok]
      simp only [hgt, if_true]

/-- Witness of C12 (amended): a negative start vertex on a device with no
scene open. -/
theorem draw_argument_error_keeps_auto_begin_witness :
    GraphicsDevice.DrawPrimitives ⟨1, false⟩
        ⟨S_OK, S_OK, fun _ _ _ => S_OK, fun _ _ _ _ _ _ => S_OK, fun _ _ _ _ => S_OK, S_OK, S_OK⟩
        PrimitiveType.PointList (-3) 4
      = ⟨.error (.ArgumentOutOfRangeException "startVertex"), ⟨1, true⟩, [Action.BeginScene 1]⟩ :=
  (@draw_argument_error_keeps_auto_begin Nat ⟨1, false⟩
    ⟨S_OK, S_OK, fun _ _ _ => S_OK, fun _ _ _ _ _ _ => S_OK, fun _ _ _ _ => S_OK, S_OK, S_OK⟩
    (by decide) rfl).2.2.2.1 PrimitiveType.PointList (-3) 4 (Or.inl (by decide))

/-- A failure code makes `Utility::CheckResult` throw. -/
theorem checkResult_of_neg (hr : HRESULT) (h : hr < 0) :
    ∃ err, Utility.CheckResult hr = .error err := by
  unfold Utility.CheckResult
  by_cases h1 : hr = D3DERR_INVALIDCALL
  · exact ⟨.ArgumentException, by simp [h1]⟩
  · exact ⟨.HResultException hr, by simp [h1, h]⟩

/-- The automatic `BeginScene` on a live device, in both scene states: with the
native `BeginScene` succeeding the device ends in `SceneOpen`, and the native
`BeginScene` is issued exactly when no scene was open. -/
theorem autoBeginScene_shape (d : GraphicsDevice) (native : IDirect3DDevice9)
    (hlive : d._deviceW ≠ NULL) (hbegin : d._beginSceneCalled = false → 0 ≤ native.BeginScene) :
    d.autoBeginScene native
      = ⟨.ok (), { d with _beginSceneCalled := true },
          if d._beginSceneCalled then [] else [Action.BeginScene d._deviceW]⟩ := by
  cases hb : d._beginSceneCalled with
  | true =>
    rw [autoBeginScene_of_open d native hb]
    simp only [if_true]
    congr 1
    cases d
    simp only at hb
    rw [hb]
  | false =>
    rw [autoBeginScene_of_closed d native hlive hb (hbegin hb)]
    simp

/-- Claim C13: on a live device, each of `DrawPrimitives`,
`DrawIndexedPrimitives` and `DrawUserPrimitives` called with valid arguments
issues, when no scene is open (the native `BeginScene` succeeding), exactly one
native `BeginScene` and then the native draw call, and, when a scene is open,
the native draw call only; in both cases the device is in `SceneOpen`
afterwards. -/
theorem draw_auto_opens_scene {T : Type} (d : GraphicsDevice) (native : IDirect3DDevice9)
    (hlive : d._deviceW ≠ NULL) (hbegin : d._beginSceneCalled = false → 0 ≤ native.BeginScene) :
    (∀ (primitiveType : PrimitiveType) (startVertex primitiveCount : Int),
        0 ≤ startVertex → 1 ≤ primitiveCount →
        d.DrawPrimitives native primitiveType startVertex primitiveCount
          = ⟨Utility.CheckResult (native.DrawPrimitive primitiveType startVertex primitiveCount),
              { d with _beginSceneCalled := true },
              (if d._beginSceneCalled then [] else [Action.BeginScene d._deviceW])
                ++ [Action.DrawPrimitive d._deviceW primitiveType startVertex primitiveCount]⟩)
      ∧ (∀ (primitiveType : PrimitiveType)
            (baseVertex minVertexIndex numVertices startIndex primitiveCount : Int),
          0 ≤ minVertexIndex → 1 ≤ primitiveCount →
          d.DrawIndexedPrimitives native primitiveType baseVertex minVertexIndex numVertices
              startIndex primitiveCount
            = ⟨Utility.CheckResult (native.DrawIndexedPrimitive primitiveType baseVertex
                  minVertexIndex numVertices startIndex primitiveCount),
                { d with _beginSceneCalled := true },
                (if d._beginSceneCalled then [] else [Action.BeginScene d._deviceW])
                  ++ [Action.DrawIndexedPrimitive d._deviceW primitiveType baseVertex
                        minVertexIndex numVertices startIndex primitiveCount]⟩)
      ∧ (∀ (sizeofT : Nat) (primitiveType : PrimitiveType) (data : List T)
            (vertexOffset primitiveCount needed : Int),
          0 ≤ vertexOffset → vertexOffset < (data.length : Int) → 1 ≤ primitiveCount →
          sizeofT ≠ 0 → requiredVertices primitiveType primitiveCount = some needed →
          needed < 2147483648 → needed ≤ (data.length : Int) - vertexOffset →
          d.DrawUserPrimitives native sizeofT true primitiveType (some data) vertexOffset
              primitiveCount
            = ⟨Utility.CheckResult (native.DrawPrimitiveUP primitiveType primitiveCount
                  vertexOffset sizeofT),
                { d with _beginSceneCalled := true },
                (if d._beginSceneCalled then [] else [Action.BeginScene d._deviceW])
                  ++ [Action.DrawPrimitiveUP d._deviceW primitiveType primitiveCount
                        vertexOffset sizeofT]⟩) := by
  have hopen := autoBeginScene_shape d native hlive hbegin
  have hptr : ({ d with _beginSceneCalled := true } : GraphicsDevice).Ptr = .ok d._deviceW := by
    simp [GraphicsDevice.Ptr, hlive]
  refine ⟨?_, ?_, ?_⟩
  · intro primitiveType startVertex primitiveCount hs hc
    unfold GraphicsDevice.DrawPrimitives
    have h1 : ¬ startVertex < 0 := by omega
    have h2 : ¬ primitiveCount < 1 := by omega
    simp only [hopen, h1, h2, if_false, hptr]
  · intro primitiveType baseVertex minVertexIndex numVertices startIndex primitiveCount hs hc
    unfold GraphicsDevice.DrawIndexedPrimitives
    have h1 : ¬ minVertexIndex < 0 := by omega
    have h2 : ¬ primitiveCount < 1 := by omega
    simp only [hopen, h1, h2, if_false, hptr]
  · intro sizeofT primitiveType data vertexOffset primitiveCount needed h0 h1 hn hsize hreq
      hfits henough
    have hpos := requiredVertices_pos primitiveType primitiveCount needed hreq hn
    have hcount := getVertexCount_of_required primitiveType primitiveCount needed hreq
      (by omega) hfits
    have hres : (d.autoBeginScene native).result = .ok () := by rw [hopen]
    rw [drawUserPrimitives_after_checks d native sizeofT primitiveType data vertexOffset
      primitiveCount hres h0 h1 (by omega) hsize, hcount]
    have hle : ¬ needed > (data.length : Int) - vertexOffset := not_lt.mpr henough
    simp only [hle, if_false, hopen, hptr]

/-- Witness of C13: a triangle drawn on a device with no scene open. -/
theorem draw_auto_opens_scene_witness :
    GraphicsDevice.DrawPrimitives ⟨1, false⟩
        ⟨S_OK, S_OK, fun _ _ _ => S_OK, fun _ _ _ _ _ _ => S_OK, fun _ _ _ _ => S_OK, S_OK, S_OK⟩
        PrimitiveType.TriangleList 0 1
      = ⟨.ok (), ⟨1, true⟩,
          [Action.BeginScene 1, Action.DrawPrimitive 1 PrimitiveType.TriangleList 0 1]⟩ :=
  (@draw_auto_opens_scene Nat ⟨1, false⟩
    ⟨S_OK, S_OK, fun _ _ _ => S_OK, fun _ _ _ _ _ _ => S_OK, fun _ _ _ _ => S_OK, S_OK, S_OK⟩
    (by decide) (fun _ => le_refl _)).1 PrimitiveType.TriangleList 0 1 (by decide) (by decide)

/-- Claim C14: on a live device, `Present` in `SceneOpen` issues the native
`EndScene` and then (that succeeding) the native `Present` and leaves the
device in `NoSceneOpen`; `Present` in `NoSceneOpen` issues the native `Present`
only; `Clear` never changes the device state.  So on a freshly created device
`Clear` with a null rectangle list followed by `Present` with no rectangles
issues exactly the native `Clear` with rectangle count 0 and the native
`Present`, no `BeginScene` or `EndScene`, and both succeed whenever the two
native calls succeed. -/
theorem present_closes_scene (d : GraphicsDevice) (native : IDirect3DDevice9)
    (hlive : d._deviceW ≠ NULL) (fresh : GraphicsDevice)
    (hfresh : GraphicsDevice.new d._deviceW = .ok fresh) :
    (d._beginSceneCalled = true → 0 ≤ native.EndScene →
        ∀ (sourceRect destRect : Option Rectangle) (hwnd : IntPtr),
          d.Present native sourceRect destRect hwnd
            = ⟨Utility.CheckResult native.Present, { d with _beginSceneCalled := false },
                [Action.EndScene d._deviceW, Action.Present d._deviceW sourceRect destRect hwnd]⟩)
      ∧ (d._beginSceneCalled = true → native.EndScene < 0 →
          ∀ (sourceRect destRect : Option Rectangle) (hwnd : IntPtr),
            (d.Present native sourceRect destRect hwnd).result = Utility.CheckResult native.EndScene
              ∧ (d.Present native sourceRect destRect hwnd).state = d
              ∧ (d.Present native sourceRect destRect hwnd).trace = [Action.EndScene d._deviceW])
      ∧ (d._beginSceneCalled = false →
          ∀ (sourceRect destRect : Option Rectangle) (hwnd : IntPtr),
            d.Present native sourceRect destRect hwnd
              = ⟨Utility.CheckResult native.Present, d,
                  [Action.Present d._deviceW sourceRect destRect hwnd]⟩)
      ∧ (∀ (rectangles : Option (List Rectangle)) (targets : Int) (color z stencil : Nat),
          (d.Clear native rectangles targets color z stencil).state = d)
      ∧ (∀ (targets : Int) (color z stencil : Nat) (hwnd : IntPtr),
          fresh.Clear native none targets color z stencil
              = ⟨Utility.CheckResult native.Clear, fresh,
                  [Action.Clear d._deviceW 0 none targets color z stencil]⟩
            ∧ (fresh.Clear native none targets color z stencil).state.Present native none none hwnd
              = ⟨Utility.CheckResult native.Present, fresh,
                  [Action.Present d._deviceW none none hwnd]⟩
            ∧ (0 ≤ native.Clear → 0 ≤ native.Present →
                (fresh.Clear native none targets color z stencil).result = .ok ()
                  ∧ ((fresh.Clear native none targets color z stencil).state.Present native
                      none none hwnd).result = .ok ())) := by
  have hp := device_ptr_of_live d hlive
  have hfr : fresh = ⟨d._deviceW, false⟩ := by
    simp only [GraphicsDevice.new, hlive, if_false] at hfresh
    injection hfresh with hfresh
    exact hfresh.symm
  have hclosedPresent : ∀ (x : GraphicsDevice), x._deviceW = d._deviceW →
      x._beginSceneCalled = false →
      ∀ (sourceRect destRect : Option Rectangle) (hwnd : IntPtr),
        x.Present native sourceRect destRect hwnd
          = ⟨Utility.CheckResult native.Present, x,
              [Action.Present d._deviceW sourceRect destRect hwnd]⟩ := by
    intro x hx hc sourceRect destRect hwnd
    have hxp : x.Ptr = .ok d._deviceW := by
      simp [GraphicsDevice.Ptr, hx, hlive]
    simp [GraphicsDevice.Present, hc, hxp]
  have hclear : ∀ (x : GraphicsDevice) (rectangles : Option (List Rectangle)) (targets : Int)
      (color z stencil : Nat), (x.Clear native rectangles targets color z stencil).state = x := by
    intro x rectangles targets color z stencil
    unfold GraphicsDevice.Clear
    split
    · rfl
    · cases x.Ptr <;> rfl
  refine ⟨?_, ?_, hclosedPresent d rfl, hclear d, ?_⟩
  · intro hopen hend sourceRect destRect hwnd
    have hp2 : ({ d with _beginSceneCalled := false } : GraphicsDevice).Ptr = .ok d._deviceW := by
      simp [GraphicsDevice.Ptr, hlive]
    simp [GraphicsDevice.Present, hopen, GraphicsDevice.EndScene, hp,
      checkResult_of_nonneg _ hend, hp2]
  · intro hopen hend sourceRect destRect hwnd
    obtain ⟨err, herr⟩ := checkResult_of_neg _ hend
    simp [GraphicsDevice.Present, hopen, GraphicsDevice.EndScene, hp, herr]
  · intro targets color z stencil hwnd
    have hfp : fresh.Ptr = .ok d._deviceW := by
      rw [hfr]
      simp [GraphicsDevice.Ptr, hlive]
    have hc : fresh.Clear native none targets color z stencil
        = ⟨Utility.CheckResult native.Clear, fresh,
            [Action.Clear d._deviceW 0 none targets color z stencil]⟩ := by
      simp [GraphicsDevice.Clear, hfp]
    have hpres := hclosedPresent fresh (by rw [hfr]) (by rw [hfr]) none none hwnd
    refine ⟨hc, ?_, ?_⟩
    · rw [hc]
      exact hpres
    · intro h1 h2
      rw [hc]
      refine ⟨checkResult_of_nonneg _ h1, ?_⟩
      rw [hpres]
      exact checkResult_of_nonneg _ h2

/-- Witness of C14: a device left in `SceneOpen` is presented. -/
theorem present_closes_scene_witness :
    GraphicsDevice.Present ⟨1, true⟩
        ⟨S_OK, S_OK, fun _ _ _ => S_OK, fun _ _ _ _ _ _ => S_OK, fun _ _ _ _ => S_OK, S_OK, S_OK⟩
        none none 0
      = ⟨.ok (), ⟨1, false⟩, [Action.EndScene 1, Action.Present 1 none none 0]⟩ :=
  (present_closes_scene ⟨1, true⟩
    ⟨S_OK, S_OK, fun _ _ _ => S_OK, fun _ _ _ _ _ _ => S_OK, fun _ _ _ _ => S_OK, S_OK, S_OK⟩
    (by decide) ⟨1, false⟩ rfl).1 rfl (le_refl _) none none 0

/-! ## Offline compilation -/

/-- Marshalling the defines calls no D3DX compile function. -/
theorem marshalMacros_no_compile (defines : Option (List CompilerMacro)) :
    ∀ a ∈ marshalMacros defines, a.isCompileCall = false := by
  intro a ha
  cases defines with
  | none => simp [marshalMacros] at ha
  | some macros =>
    simp only [marshalMacros, List.mem_flatMap] at ha
    obtain ⟨m, _, hm⟩ := ha
    simp only [List.mem_cons, List.mem_singleton, List.not_mem_nil, or_false] at hm
    rcases hm with h | h <;> rw [h] <;> rfl

/-- Freeing the defines calls no D3DX compile function. -/
theorem freeMacros_no_compile (defines : Option (List CompilerMacro)) :
    ∀ a ∈ freeMacros defines, a.isCompileCall = false := by
  intro a ha
  cases defines with
  | none => simp [freeMacros] at ha
  | some macros =>
    simp only [freeMacros, List.mem_flatMap] at ha
    obtain ⟨m, _, hm⟩ := ha
    simp only [List.mem_append] at hm
    rcases hm with h | h
    · cases hn : m.Name with
      | none => simp [freeMarshalled, hn] at h
      | some t =>
        simp only [freeMarshalled, hn, List.mem_singleton] at h
        rw [h]
        rfl
    · cases hn : m.Definition with
      | none => simp [freeMarshalled, hn] at h
      | some t =>
        simp only [freeMarshalled, hn, List.mem_singleton] at h
        rw [h]
        rfl

/-- Releasing a buffer calls no D3DX compile function. -/
theorem releaseBuffer_no_compile {α : Type} (holder : String) (buffer : Option α) :
    ∀ a ∈ releaseBuffer holder buffer, a.isCompileCall = false := by
  intro a ha
  cases buffer with
  | none => simp [releaseBuffer] at ha
  | some b =>
    simp only [releaseBuffer, List.mem_singleton] at ha
    rw [ha]
    rfl

/-- An action that is no compile call carries no profile token. -/
theorem compileShaderProfile_of_not_compile (a : Action) (h : a.isCompileCall = false) :
    a.compileShaderProfile = none := by
  cases a <;> first | rfl | cases h

/-- What follows the native `D3DXCompileShader` in `CompileFromSource` calls no
D3DX compile function again. -/
theorem afterCompile_no_compile (answer : CompileAnswer) (frees : List Action)
    (hfrees : ∀ a ∈ frees, a.isCompileCall = false) :
    ∀ a ∈ (ShaderCompiler.afterCompile answer frees).2, a.isCompileCall = false := by
  have hcaught : ∀ a ∈ releaseBuffer "shaderBuffer" answer.buffer
      ++ releaseBuffer "errorMessagesBuffer" answer.errors ++ frees, a.isCompileCall = false := by
    intro a ha
    simp only [List.mem_append] at ha
    rcases ha with (h | h) | h
    · exact releaseBuffer_no_compile _ _ a h
    · exact releaseBuffer_no_compile _ _ a h
    · exact hfrees a h
  have hdone : ∀ a ∈ frees ++ [Action.BufferRelease "shaderBuffer"]
      ++ releaseBuffer "errorMessagesBuffer" answer.errors, a.isCompileCall = false := by
    intro a ha
    simp only [List.mem_append, List.mem_singleton] at ha
    rcases ha with (h | h) | h
    · exact hfrees a h
    · rw [h]
      rfl
    · exact releaseBuffer_no_compile _ _ a h
  unfold ShaderCompiler.afterCompile
  split
  · exact hcaught
  · split
    · exact hcaught
    · split
      · exact hfrees
      · split
        · exact hfrees
        · exact hdone

/-- With valid references, the Windows platform and no include handler,
`CompileFromSource` for a profile of the table issues the native call with
the token of the table, and no other compile call. -/
theorem compileFromSource_trace_of_token (native : D3DX) (source entryPoint : String)
    (defines : Option (List CompilerMacro)) (options : Int) (profile : ShaderProfile)
    (token : String) (htoken : ShaderCompiler.profileName profile = some token) :
    (ShaderCompiler.CompileFromSource native (some source) defines none options
        (some entryPoint) profile TargetPlatform.Windows).trace.filterMap
        Action.compileShaderProfile = [token] := by
  have hfrees : ∀ a ∈ [Action.FreeHGlobal source, Action.FreeHGlobal entryPoint]
      ++ freeMacros defines, a.isCompileCall = false := by
    intro a ha
    simp only [List.mem_append, List.mem_cons, List.mem_singleton, List.not_mem_nil,
      or_false] at ha
    rcases ha with (h | h) | h
    · rw [h]
      rfl
    · rw [h]
      rfl
    · exact freeMacros_no_compile defines a h
  have hafter := afterCompile_no_compile native.D3DXCompileShader _ hfrees
  have h1 : (marshalMacros defines).filterMap Action.compileShaderProfile = [] :=
    List.filterMap_eq_nil_iff.mpr fun a ha =>
      compileShaderProfile_of_not_compile a (marshalMacros_no_compile defines a ha)
  have h2 : (ShaderCompiler.afterCompile native.D3DXCompileShader
      ([Action.FreeHGlobal source, Action.FreeHGlobal entryPoint]
        ++ freeMacros defines)).2.filterMap Action.compileShaderProfile = [] :=
    List.filterMap_eq_nil_iff.mpr fun a ha =>
      compileShaderProfile_of_not_compile a (hafter a ha)
  simp only [List.cons_append, List.nil_append] at h2
  simp only [ShaderCompiler.CompileFromSource, htoken, ne_eq, not_true_eq_false, if_false,
    Option.isSome_none, Bool.false_eq_true, List.filterMap_append, h1, h2,
    List.filterMap_cons, List.filterMap_nil, Action.compileShaderProfile, List.append_nil,
    List.nil_append, List.singleton_append, List.cons_append]

/-- A profile value outside the table takes the `default` branch of the switch. -/
theorem profileName_of_outside (profile : Int) (h : profile < 0 ∨ 15 < profile) :
    ShaderCompiler.profileName profile = none := by
  unfold ShaderCompiler.profileName
  rw [if_neg (show ¬ profile = ShaderProfile.PS_1_1 by unfold ShaderProfile.PS_1_1; omega)]
  rw [if_neg (show ¬ profile = ShaderProfile.PS_1_2 by unfold ShaderProfile.PS_1_2; omega)]
  rw [if_neg (show ¬ profile = ShaderProfile.PS_1_3 by unfold ShaderProfile.PS_1_3; omega)]
  rw [if_neg (show ¬ profile = ShaderProfile.PS_1_4 by unfold ShaderProfile.PS_1_4; omega)]
  rw [if_neg (show ¬ profile = ShaderProfile.PS_2_0 by unfold ShaderProfile.PS_2_0; omega)]
  rw [if_neg (show ¬ profile = ShaderProfile.PS_2_A by unfold ShaderProfile.PS_2_A; omega)]
  rw [if_neg (show ¬ profile = ShaderProfile.PS_2_B by unfold ShaderProfile.PS_2_B; omega)]
  rw [if_neg (show ¬ profile = ShaderProfile.PS_2_SW by unfold ShaderProfile.PS_2_SW; omega)]
  rw [if_neg (show ¬ profile = ShaderProfile.PS_3_0 by unfold ShaderProfile.PS_3_0; omega)]
  rw [if_neg (show ¬ profile = ShaderProfile.XPS_3_0 by unfold ShaderProfile.XPS_3_0; omega)]
  rw [if_neg (show ¬ profile = ShaderProfile.VS_1_1 by unfold ShaderProfile.VS_1_1; omega)]
  rw [if_neg (show ¬ profile = ShaderProfile.VS_2_0 by unfold ShaderProfile.VS_2_0; omega)]
  rw [if_neg (show ¬ profile = ShaderProfile.VS_2_A by unfold ShaderProfile.VS_2_A; omega)]
  rw [if_neg (show ¬ profile = ShaderProfile.VS_2_SW by unfold ShaderProfile.VS_2_SW; omega)]
  rw [if_neg (show ¬ profile = ShaderProfile.VS_3_0 by unfold ShaderProfile.VS_3_0; omega)]
  rw [if_neg (show ¬ profile = ShaderProfile.XVS_3_0 by unfold ShaderProfile.XVS_3_0; omega)]

/-- For a profile of the table the switch assigns the lower-case form of the
identifier of the enumeration. -/
theorem profileName_of_inside (profile : Int) (h0 : 0 ≤ profile) (h15 : profile ≤ 15) :
    ∃ token, ShaderCompiler.profileName profile = some token
      ∧ (ShaderProfile.enumName profile).map String.toLower = some token := by
  interval_cases profile <;>
    exact ⟨_, rfl, by simp [ShaderProfile.enumName, ShaderProfile.PS_1_1, ShaderProfile.PS_1_2,
      ShaderProfile.PS_1_3, ShaderProfile.PS_1_4, ShaderProfile.PS_2_0, ShaderProfile.PS_2_A,
      ShaderProfile.PS_2_B, ShaderProfile.PS_2_SW, ShaderProfile.PS_3_0, ShaderProfile.XPS_3_0,
      ShaderProfile.VS_1_1, ShaderProfile.VS_2_0, ShaderProfile.VS_2_A, ShaderProfile.VS_2_SW,
      ShaderProfile.VS_3_0, ShaderProfile.XVS_3_0, ShaderProfile.Unknown, String.toLower,
      String.map_eq]⟩

/-- Distinct profiles of the table get distinct tokens. -/
theorem profileName_injective (p q : Int) (hp0 : 0 ≤ p) (hp : p ≤ 15) (hq0 : 0 ≤ q) (hq : q ≤ 15)
    (h : ShaderCompiler.profileName p = ShaderCompiler.profileName q) : p = q := by
  interval_cases p <;> interval_cases q <;>
    first
    | rfl
    | (exfalso
       revert h
       decide)

/-- Claim C15: for `ShaderCompiler.CompileFromSource` with non-null source and
function name, the Windows platform and no include handler, each of the 16
profiles `PS_1_1` (0) to `XVS_3_0` (15) reaches the native compiler exactly
once, with the one token that is the lower-case form of its name; distinct
profiles give distinct tokens; and every other profile value, `Unknown`
included, raises the not-supported error with no allocation and no native
call made. -/
theorem compileFromSource_profile_table (native : D3DX) (source entryPoint : String)
    (defines : Option (List CompilerMacro)) (options : Int) :
    (∀ profile : Int, 0 ≤ profile → profile ≤ 15 →
        ∃ token, ShaderCompiler.profileName profile = some token
          ∧ (ShaderProfile.enumName profile).map String.toLower = some token
          ∧ (ShaderCompiler.CompileFromSource native (some source) defines none options
                (some entryPoint) profile TargetPlatform.Windows).trace.filterMap
                Action.compileShaderProfile = [token])
      ∧ (∀ p q : Int, 0 ≤ p → p ≤ 15 → 0 ≤ q → q ≤ 15 →
          ShaderCompiler.profileName p = ShaderCompiler.profileName q → p = q)
      ∧ (∀ profile : Int, profile < 0 ∨ 15 < profile →
          ShaderCompiler.CompileFromSource native (some source) defines none options
              (some entryPoint) profile TargetPlatform.Windows
            = ⟨.error .NotSupportedException, (), []⟩)
      ∧ ShaderCompiler.profileName ShaderProfile.PS_1_1 = some "ps_1_1"
      ∧ ShaderCompiler.profileName ShaderProfile.XVS_3_0 = some "xvs_3_0"
      ∧ ShaderCompiler.CompileFromSource native (some source) defines none options
            (some entryPoint) ShaderProfile.Unknown TargetPlatform.Windows
          = ⟨.error .NotSupportedException, (), []⟩ := by
  have houtside : ∀ profile : Int, profile < 0 ∨ 15 < profile →
      ShaderCompiler.CompileFromSource native (some source) defines none options
          (some entryPoint) profile TargetPlatform.Windows
        = ⟨.error .NotSupportedException, (), []⟩ := by
    intro profile hout
    simp [ShaderCompiler.CompileFromSource, profileName_of_outside profile hout]
  refine ⟨?_, profileName_injective, houtside, rfl, rfl, houtside 16 (Or.inr (by decide))⟩
  intro profile h0 h15
  obtain ⟨token, htoken, hlower⟩ := profileName_of_inside profile h0 h15
  exact ⟨token, htoken, hlower,
    compileFromSource_trace_of_token native source entryPoint defines options profile token htoken⟩

/-- Witness of C15: the profile `VS_2_A` and the profile value 40. -/
theorem compileFromSource_profile_table_witness :
    (∃ token, ShaderCompiler.profileName ShaderProfile.VS_2_A = some token
        ∧ (ShaderProfile.enumName ShaderProfile.VS_2_A).map String.toLower = some token
        ∧ (ShaderCompiler.CompileFromSource
              ⟨⟨S_OK, some [1, 2], none⟩, ⟨S_OK, 5, none⟩, ⟨S_OK, some [3], none⟩⟩
              (some "float4 main() : POSITION { return 0; }") none none 0 (some "main")
              ShaderProfile.VS_2_A TargetPlatform.Windows).trace.filterMap
              Action.compileShaderProfile = [token])
      ∧ ShaderCompiler.CompileFromSource
            ⟨⟨S_OK, some [1, 2], none⟩, ⟨S_OK, 5, none⟩, ⟨S_OK, some [3], none⟩⟩
            (some "float4 main() : POSITION { return 0; }") none none 0 (some "main")
            40 TargetPlatform.Windows
          = ⟨.error .NotSupportedException, (), []⟩ :=
  ⟨(compileFromSource_profile_table
      ⟨⟨S_OK, some [1, 2], none⟩, ⟨S_OK, 5, none⟩, ⟨S_OK, some [3], none⟩⟩
      "float4 main() : POSITION { return 0; }" "main" none 0).1 12 (by decide) (by decide),
   (compileFromSource_profile_table
      ⟨⟨S_OK, some [1, 2], none⟩, ⟨S_OK, 5, none⟩, ⟨S_OK, some [3], none⟩⟩
      "float4 main() : POSITION { return 0; }" "main" none 0).2.2.1 40 (Or.inr (by decide))⟩

/-- The sibling path of `Effect.CompileEffectFromSource`: with non-null source
and function name, `ShaderCompiler.CompileFromSource` raises the not-supported
error for every platform other than Windows, before any allocation or native
call. -/
theorem compileFromSource_rejects_platform (native : D3DX) (source entryPoint : String)
    (defines : Option (List CompilerMacro)) (includeHandler : Option ObjRef) (options : Int)
    (profile : ShaderProfile) (platform : TargetPlatform)
    (h : platform ≠ TargetPlatform.Windows) :
    ShaderCompiler.CompileFromSource native (some source) defines includeHandler options
        (some entryPoint) profile platform
      = ⟨.error .NotSupportedException, (), []⟩ := by
  simp [ShaderCompiler.CompileFromSource, h]

/-- Claim C16, the code at the failing input: `Effect.CompileEffectFromSource`
never looks at its `platform` argument, so for the platform `Xbox360` (as for
every platform) it goes on to the native `D3DXCreateEffectCompiler` and
`CompileEffect` and returns their result, where
`ShaderCompiler.CompileFromSource` with the same platform raises the
not-supported error before any native call. -/
theorem compileEffectFromSource_ignores_platform :
    Effect.CompileEffectFromSource
        ⟨⟨S_OK, some [1, 2], none⟩, ⟨S_OK, 5, none⟩, ⟨S_OK, some [3], none⟩⟩
        (some "technique T {}") none none 0 TargetPlatform.Xbox360
      = ⟨.ok ⟨some [3], none⟩, (),
          [Action.D3DXCreateEffectCompiler "technique T {}" 14 none 0,
           Action.CompileEffect 5 0, Action.Release 5, Action.BufferRelease "effectBuffer"]⟩
    ∧ (∀ (native : D3DX) (source : Option String) (defines : Option (List CompilerMacro))
          (includeHandler : Option ObjRef) (options : Int) (platform : TargetPlatform),
        Effect.CompileEffectFromSource native source defines includeHandler options platform
          = Effect.CompileEffectFromSource native source defines includeHandler options
              TargetPlatform.Windows)
    ∧ ShaderCompiler.CompileFromSource
        ⟨⟨S_OK, some [1, 2], none⟩, ⟨S_OK, 5, none⟩, ⟨S_OK, some [3], none⟩⟩
        (some "float4 main() : COLOR { return 0; }") none none 0 (some "main")
        ShaderProfile.PS_2_0 TargetPlatform.Xbox360
      = ⟨.error .NotSupportedException, (), []⟩ := by
  refine ⟨by decide, fun _ _ _ _ _ _ => rfl, ?_⟩
  exact compileFromSource_rejects_platform _ _ _ _ _ _ _ _ (by decide)

/-- Claim C17: a `CompiledEffect` built from a code buffer `c` and a
diagnostic text `e`, each possibly null, has `Success` true if and only if `c`
is non-null, whatever `e` is; `GetEffectCode` returns `c` and
`ErrorsAndWarnings` returns `e`. -/
theorem compiledEffect_success_iff (c : Option (List Nat)) (e : Option String) :
    ((CompiledEffect.new c e).Success = true ↔ c ≠ none)
      ∧ (CompiledEffect.new c e).GetEffectCode = c
      ∧ (CompiledEffect.new c e).ErrorsAndWarnings = e
      ∧ ∀ e2 : Option String, (CompiledEffect.new c e2).Success = (CompiledEffect.new c e).Success := by
  refine ⟨?_, rfl, rfl, fun _ => rfl⟩
  cases c with
  | none => simp [CompiledEffect.new, CompiledEffect.Success]
  | some code => simp [CompiledEffect.new, CompiledEffect.Success]

/-- The diagnostics the code assembles are the ones the specification
describes. -/
theorem compilerErrorMessages_eq_join (p q : Option String) :
    Effect.compilerErrorMessages p q = joinDiagnostics p q := by
  cases p <;> cases q <;>
    simp [Effect.compilerErrorMessages, joinDiagnostics, String.append_empty, String.empty_append]

/-- What `CompileEffectFromSource` returns when the creation of the compiler
fails and left an error text: a failed result with exactly that text. -/
theorem compileEffect_phase_one_failure (native : D3DX) (source : String)
    (defines : Option (List CompilerMacro)) (options : Int) (platform : TargetPlatform)
    (p : String) (hsrc : source ≠ "")
    (hfail : FAILED native.D3DXCreateEffectCompiler.result = true)
    (herr : native.D3DXCreateEffectCompiler.errors = some p) :
    (Effect.CompileEffectFromSource native (some source) defines none options platform).result
      = .ok (CompiledEffect.new none (some p)) := by
  simp [Effect.CompileEffectFromSource, hsrc, hfail, herr]

/-- A result code that is not negative is not a failure. -/
theorem failed_of_nonneg (hr : HRESULT) (h : 0 ≤ hr) : FAILED hr = false := by
  simp [FAILED, not_lt.mpr h]

/-- The result of `CompileEffectFromSource` once the compiler was created:
that of the compile phase. -/
theorem compileEffect_phase_two (native : D3DX) (source : String)
    (defines : Option (List CompilerMacro)) (options : Int) (platform : TargetPlatform)
    (hsrc : source ≠ "") (hok : 0 ≤ native.D3DXCreateEffectCompiler.result)
    (hcompiler : native.D3DXCreateEffectCompiler.compiler ≠ NULL) :
    (Effect.CompileEffectFromSource native (some source) defines none options platform).result
      = (Effect.compilePhase native native.D3DXCreateEffectCompiler options
          ((if native.D3DXCreateEffectCompiler.compiler ≠ NULL then
              [Action.Release native.D3DXCreateEffectCompiler.compiler] else [])
            ++ freeMacros defines)).1 := by
  simp [Effect.CompileEffectFromSource, hsrc, failed_of_nonneg _ hok,
    checkResult_of_nonneg _ hok, hcompiler]

/-- Every result the compile phase returns carries the assembled diagnostics,
and carries code unless the native compilation failed with an error text. -/
theorem compilePhase_result (native : D3DX) (create : CreateCompilerAnswer) (options : Int)
    (tail : List Action) (ce : CompiledEffect)
    (h : (Effect.compilePhase native create options tail).1 = .ok ce) :
    ce._errors = Effect.compilerErrorMessages create.errors native.CompileEffect.errors
      ∧ (ce._code = none →
          FAILED native.CompileEffect.result = true ∧ native.CompileEffect.errors ≠ none) := by
  simp only [Effect.compilePhase] at h
  split at h
  · next hf he =>
    simp only [Except.ok.injEq] at h
    subst h
    refine ⟨rfl, fun _ => ⟨hf, ?_⟩⟩
    rw [he]
    simp
  · split at h
    · cases h
    · split at h
      · cases h
      · split at h
        · cases h
        · simp only [Except.ok.injEq] at h
          subst h
          refine ⟨rfl, fun hnone => ?_⟩
          simp [CompiledEffect.new] at hnone

/-- When the compile phase returns a failed result, the native compilation
left an error text, which ends the diagnostics. -/
theorem compilePhase_failure (native : D3DX) (create : CreateCompilerAnswer) (options : Int)
    (tail : List Action) (q : String)
    (hfail : FAILED native.CompileEffect.result = true)
    (herr : native.CompileEffect.errors = some q) :
    (Effect.compilePhase native create options tail).1
      = .ok (CompiledEffect.new none (Effect.compilerErrorMessages create.errors (some q))) := by
  simp [Effect.compilePhase, hfail, herr]

/-- A failing compile phase that left no error text returns no result. -/
theorem compilePhase_silent_failure (native : D3DX) (create : CreateCompilerAnswer)
    (options : Int) (tail : List Action)
    (hfail : FAILED native.CompileEffect.result = true)
    (herr : native.CompileEffect.errors = none) :
    ∃ err, (Effect.compilePhase native create options tail).1 = .error err := by
  have hneg : native.CompileEffect.result < 0 := by
    simpa [FAILED] using hfail
  obtain ⟨err, hcheck⟩ := checkResult_of_neg _ hneg
  exact ⟨err, by simp [Effect.compilePhase, hfail, herr, hcheck]⟩

/-- A result code that passes `Utility::CheckResult` is not negative. -/
theorem nonneg_of_checkResult (hr : HRESULT) (u : Unit) (h : Utility.CheckResult hr = .ok u) :
    0 ≤ hr := by
  by_contra hneg
  obtain ⟨err, herr⟩ := checkResult_of_neg hr (not_le.mp hneg)
  rw [herr] at h
  cases h

/-- The two ways `CompileEffectFromSource` returns a value: the creation of
the compiler failed and left an error text, or it succeeded and the compile
phase returned the value. -/
theorem compileEffect_returns (native : D3DX) (source : Option String)
    (defines : Option (List CompilerMacro)) (includeHandler : Option ObjRef) (options : Int)
    (platform : TargetPlatform) (ce : CompiledEffect)
    (h : (Effect.CompileEffectFromSource native source defines includeHandler options
      platform).result = .ok ce) :
    (∃ p, FAILED native.D3DXCreateEffectCompiler.result = true
        ∧ native.D3DXCreateEffectCompiler.errors = some p
        ∧ ce = CompiledEffect.new none (some p))
      ∨ (0 ≤ native.D3DXCreateEffectCompiler.result
          ∧ ∃ tail, (Effect.compilePhase native native.D3DXCreateEffectCompiler options tail).1
              = .ok ce) := by
  cases source with
  | none => simp [Effect.CompileEffectFromSource] at h
  | some src =>
    by_cases hih : includeHandler.isSome = true
    · simp [Effect.CompileEffectFromSource, hih] at h
    · by_cases hsrc : src = ""
      · simp [Effect.CompileEffectFromSource, hih, hsrc] at h
      · have hnone : includeHandler.isSome = false := by simpa using hih
        have hrest : (match Utility.CheckResult native.D3DXCreateEffectCompiler.result with
            | .error err => (Except.error err : Except Error CompiledEffect)
            | .ok _ =>
              if native.D3DXCreateEffectCompiler.compiler = NULL then
                .error .NullReferenceException
              else
                (Effect.compilePhase native native.D3DXCreateEffectCompiler options
                  ((if native.D3DXCreateEffectCompiler.compiler ≠ NULL then
                      [Action.Release native.D3DXCreateEffectCompiler.compiler] else [])
                    ++ freeMacros defines)).1) = .ok ce →
            0 ≤ native.D3DXCreateEffectCompiler.result
              ∧ ∃ tail, (Effect.compilePhase native native.D3DXCreateEffectCompiler options
                  tail).1 = .ok ce := by
          intro hm
          cases hc : Utility.CheckResult native.D3DXCreateEffectCompiler.result with
          | error err =>
            rw [hc] at hm
            cases hm
          | ok u =>
            rw [hc] at hm
            by_cases hcomp : native.D3DXCreateEffectCompiler.compiler = NULL
            · simp [hcomp] at hm
            · simp only [hcomp, if_false] at hm
              exact ⟨nonneg_of_checkResult _ u hc, _, hm⟩
        cases hf : FAILED native.D3DXCreateEffectCompiler.result <;>
          cases he : native.D3DXCreateEffectCompiler.errors
        · refine Or.inr (hrest ?_)
          simp only [Effect.CompileEffectFromSource, hnone, hsrc, hf, he] at h
          revert h
          cases Utility.CheckResult native.D3DXCreateEffectCompiler.result with
          | error err => simp
          | ok u =>
            by_cases hcomp : native.D3DXCreateEffectCompiler.compiler = NULL <;> simp [hcomp]
        · refine Or.inr (hrest ?_)
          simp only [Effect.CompileEffectFromSource, hnone, hsrc, hf, he] at h
          revert h
          cases Utility.CheckResult native.D3DXCreateEffectCompiler.result with
          | error err => simp
          | ok u =>
            by_cases hcomp : native.D3DXCreateEffectCompiler.compiler = NULL <;> simp [hcomp]
        · refine Or.inr (hrest ?_)
          simp only [Effect.CompileEffectFromSource, hnone, hsrc, hf, he] at h
          revert h
          cases Utility.CheckResult native.D3DXCreateEffectCompiler.result with
          | error err => simp
          | ok u =>
            by_cases hcomp : native.D3DXCreateEffectCompiler.compiler = NULL <;> simp [hcomp]
        · simp [Effect.CompileEffectFromSource, hnone, hsrc, hf, he] at h
          exact Or.inl ⟨_, rfl, rfl, h.symm⟩

/-- Claim C18: every `CompiledEffect` that `Effect.CompileEffectFromSource`
returns, whatever the two native phases answer, has a non-null code buffer or
a non-null diagnostic text, so a result with `Success == false` carries
diagnostics; and a native failure that left no diagnostics, in the creation of
the compiler or in the compilation, is never returned as a result: the call
throws. -/
theorem compileEffect_result_never_empty (native : D3DX) (source : Option String)
    (defines : Option (List CompilerMacro)) (includeHandler : Option ObjRef) (options : Int)
    (platform : TargetPlatform) :
    (∀ ce : CompiledEffect,
        (Effect.CompileEffectFromSource native source defines includeHandler options
          platform).result = .ok ce →
        (ce._code ≠ none ∨ ce._errors ≠ none)
          ∧ (ce.Success = false → ce.ErrorsAndWarnings ≠ none))
      ∧ (FAILED native.D3DXCreateEffectCompiler.result = true →
          native.D3DXCreateEffectCompiler.errors = none →
          ∃ err, (Effect.CompileEffectFromSource native source defines includeHandler options
            platform).result = .error err)
      ∧ (0 ≤ native.D3DXCreateEffectCompiler.result →
          FAILED native.CompileEffect.result = true → native.CompileEffect.errors = none →
          ∃ err, (Effect.CompileEffectFromSource native source defines includeHandler options
            platform).result = .error err) := by
  have hdiag : ∀ ce : CompiledEffect,
      (Effect.CompileEffectFromSource native source defines includeHandler options
        platform).result = .ok ce → ce._code = none → ce._errors ≠ none := by
    intro ce hce hnone
    rcases compileEffect_returns native source defines includeHandler options platform ce hce
      with ⟨p, _, _, hp⟩ | ⟨_, tail, hphase⟩
    · rw [hp]
      simp [CompiledEffect.new]
    · obtain ⟨herrs, hcode⟩ := compilePhase_result native _ options tail ce hphase
      obtain ⟨_, hq⟩ := hcode hnone
      rw [herrs]
      cases hq2 : native.CompileEffect.errors with
      | none => exact absurd hq2 hq
      | some q =>
        cases native.D3DXCreateEffectCompiler.errors <;> simp [Effect.compilerErrorMessages]
  refine ⟨?_, ?_, ?_⟩
  · intro ce hce
    refine ⟨?_, ?_⟩
    · by_cases hnone : ce._code = none
      · exact Or.inr (hdiag ce hce hnone)
      · exact Or.inl hnone
    · intro hs
      have hnone : ce._code = none := by
        cases hc : ce._code with
        | none => rfl
        | some code => simp [CompiledEffect.Success, hc] at hs
      exact hdiag ce hce hnone
  · intro hfail herr
    cases hres : (Effect.CompileEffectFromSource native source defines includeHandler options
        platform).result with
    | error err => exact ⟨err, rfl⟩
    | ok ce =>
      exfalso
      rcases compileEffect_returns native source defines includeHandler options platform ce hres
        with ⟨p, _, hp, _⟩ | ⟨hok, _⟩
      · rw [herr] at hp
        cases hp
      · rw [failed_of_nonneg _ hok] at hfail
        cases hfail
  · intro hok hfail herr
    cases hres : (Effect.CompileEffectFromSource native source defines includeHandler options
        platform).result with
    | error err => exact ⟨err, rfl⟩
    | ok ce =>
      exfalso
      rcases compileEffect_returns native source defines includeHandler options platform ce hres
        with ⟨p, hf, _, _⟩ | ⟨_, tail, hphase⟩
      · rw [failed_of_nonneg _ hok] at hf
        cases hf
      · obtain ⟨err, hsilent⟩ := compilePhase_silent_failure native
          native.D3DXCreateEffectCompiler options tail hfail herr
        rw [hsilent] at hphase
        cases hphase

/-- Witness of C18: the compilation fails with an error text after the
creation of the compiler left a warning; the failed result carries both. -/
theorem compileEffect_result_never_empty_witness :
    ((CompiledEffect.mk none (some "warning X1; error X2"))._code ≠ none
        ∨ (CompiledEffect.mk none (some "warning X1; error X2"))._errors ≠ none)
      ∧ ((CompiledEffect.mk none (some "warning X1; error X2")).Success = false →
          (CompiledEffect.mk none (some "warning X1; error X2")).ErrorsAndWarnings ≠ none) :=
  (compileEffect_result_never_empty
    ⟨⟨S_OK, none, none⟩, ⟨S_OK, 5, some "warning X1; "⟩, ⟨-2147467259, none, some "error X2"⟩⟩
    (some "technique T {}") none none 0 TargetPlatform.Windows).1
    (CompiledEffect.mk none (some "warning X1; error X2")) (by decide)

/-- Counterexample to C19: with valid arguments and a native compiler that
fails with the error text "error X3000: syntax error",
`ShaderCompiler.CompileFromSource` returns no value: it throws an exception
with that text as its message. -/
theorem compileFromSource_failure_throws :
    (ShaderCompiler.CompileFromSource
        ⟨⟨-2147467259, none, some "error X3000: syntax error"⟩, ⟨S_OK, 5, none⟩,
          ⟨S_OK, some [3], none⟩⟩
        (some "float4 main() : COLOR { return }") none none 0 (some "main")
        ShaderProfile.PS_2_0 TargetPlatform.Windows).result
      = .error (.Exception "error X3000: syntax error")
    ∧ ¬ ∃ shader : CompiledShader,
        (ShaderCompiler.CompileFromSource
          ⟨⟨-2147467259, none, some "error X3000: syntax error"⟩, ⟨S_OK, 5, none⟩,
            ⟨S_OK, some [3], none⟩⟩
          (some "float4 main() : COLOR { return }") none none 0 (some "main")
          ShaderProfile.PS_2_0 TargetPlatform.Windows).result = .ok shader := by
  have h : (ShaderCompiler.CompileFromSource
      ⟨⟨-2147467259, none, some "error X3000: syntax error"⟩, ⟨S_OK, 5, none⟩,
        ⟨S_OK, some [3], none⟩⟩
      (some "float4 main() : COLOR { return }") none none 0 (some "main")
      ShaderProfile.PS_2_0 TargetPlatform.Windows).result
        = .error (.Exception "error X3000: syntax error") := by
    decide
  refine ⟨h, ?_⟩
  rintro ⟨shader, hs⟩
  rw [h] at hs
  cases hs

/-- Claim C19, amended: with valid arguments, when the native compiler reports
failure and left an error text, `Effect.CompileEffectFromSource` does not
throw but returns a failed `CompiledEffect` carrying the text (after the text
of the first phase, when the failure is in the second phase), while
`ShaderCompiler.CompileFromSource` throws an exception whose message is that
text; a `CompiledShader` cannot be built without code. -/
theorem compile_failure_with_diagnostics (native : D3DX) (source entryPoint : String)
    (defines : Option (List CompilerMacro)) (options : Int) (profile : ShaderProfile)
    (token : String) (platform : TargetPlatform)
    (hsrc : source ≠ "") (htoken : ShaderCompiler.profileName profile = some token) :
    (FAILED native.D3DXCompileShader.result = true →
        ∀ text, native.D3DXCompileShader.errors = some text →
          (ShaderCompiler.CompileFromSource native (some source) defines none options
            (some entryPoint) profile TargetPlatform.Windows).result
            = .error (.Exception text))
      ∧ (∀ errorMessages : Option String,
          CompiledShader.new none errorMessages = .error (.ArgumentNullException "shader"))
      ∧ (FAILED native.D3DXCreateEffectCompiler.result = true →
          ∀ p, native.D3DXCreateEffectCompiler.errors = some p →
            (Effect.CompileEffectFromSource native (some source) defines none options
              platform).result = .ok (CompiledEffect.new none (some p)))
      ∧ (0 ≤ native.D3DXCreateEffectCompiler.result →
          native.D3DXCreateEffectCompiler.compiler ≠ NULL →
          FAILED native.CompileEffect.result = true →
          ∀ q, native.CompileEffect.errors = some q →
            (Effect.CompileEffectFromSource native (some source) defines none options
              platform).result
              = .ok (CompiledEffect.new none
                  (some ((native.D3DXCreateEffectCompiler.errors).getD "" ++ q)))) := by
  refine ⟨?_, fun _ => rfl, ?_, ?_⟩
  · intro hfail text herr
    simp [ShaderCompiler.CompileFromSource, htoken, ShaderCompiler.afterCompile, hfail, herr]
  · intro hfail p herr
    exact compileEffect_phase_one_failure native source defines options platform p hsrc hfail herr
  · intro hok hcompiler hfail q herr
    rw [compileEffect_phase_two native source defines options platform hsrc hok hcompiler,
      compilePhase_failure native _ options _ q hfail herr, compilerErrorMessages_eq_join]
    cases native.D3DXCreateEffectCompiler.errors <;>
      simp [joinDiagnostics, String.empty_append]

/-- Witness of C19 (amended): the effect compiler is created with a warning
and the compilation fails with an error text. -/
theorem compile_failure_with_diagnostics_witness :
    (Effect.CompileEffectFromSource
        ⟨⟨S_OK, none, none⟩, ⟨S_OK, 5, some "warning X1; "⟩,
          ⟨-2147467259, none, some "error X2"⟩⟩
        (some "technique T {}") none none 0 TargetPlatform.Windows).result
      = .ok (CompiledEffect.new none (some ((some "warning X1; ").getD "" ++ "error X2"))) :=
  (compile_failure_with_diagnostics
    ⟨⟨S_OK, none, none⟩, ⟨S_OK, 5, some "warning X1; "⟩, ⟨-2147467259, none, some "error X2"⟩⟩
    "technique T {}" "main" none 0 ShaderProfile.PS_2_0 "ps_2_0" TargetPlatform.Windows
    (by decide) rfl).2.2.2 (by decide) (by decide) (by decide) "error X2" rfl

/-- A successful compile phase with code returns the code and the assembled
diagnostics. -/
theorem compilePhase_success (native : D3DX) (create : CreateCompilerAnswer) (options : Int)
    (tail : List Action) (code : List Nat)
    (hok : 0 ≤ native.CompileEffect.result) (hbuf : native.CompileEffect.buffer = some code)
    (hcode : code ≠ []) :
    (Effect.compilePhase native create options tail).1
      = .ok (CompiledEffect.new (some code)
          (Effect.compilerErrorMessages create.errors native.CompileEffect.errors)) := by
  simp [Effect.compilePhase, failed_of_nonneg _ hok, checkResult_of_nonneg _ hok, hbuf, hcode]

/-- The compile phase calls the native `CompileEffect` on the compiler created. -/
theorem compilePhase_calls (native : D3DX) (create : CreateCompilerAnswer) (options : Int)
    (tail : List Action) :
    Action.CompileEffect create.compiler options
      ∈ (Effect.compilePhase native create options tail).2 := by
  simp only [Effect.compilePhase]
  split
  · simp
  · split
    · simp
    · split
      · simp
      · split <;> simp

/-- Claim C20: for `Effect.CompileEffectFromSource` with the diagnostics `p` of
the creation of the compiler and `q` of `CompileEffect`, each possibly absent:
when the creation fails with `p` present, the call returns a failed
`CompiledEffect` whose diagnostics are exactly `p`; when the creation succeeds
and gives a compiler, `CompileEffect` is attempted, and the call returns a
failed result carrying `p` followed by `q` when the compilation fails with `q`
present, and the code with `p` followed by `q` when it succeeds with code; an
absent text counts as empty, every result returned after a successful creation
carries `p` followed by `q`, and its diagnostics are null exactly when both
are absent. -/
theorem compileEffect_diagnostics (native : D3DX) (source : String)
    (defines : Option (List CompilerMacro)) (options : Int) (platform : TargetPlatform)
    (hsrc : source ≠ "") :
    (FAILED native.D3DXCreateEffectCompiler.result = true →
        ∀ p, native.D3DXCreateEffectCompiler.errors = some p →
          (Effect.CompileEffectFromSource native (some source) defines none options
              platform).result = .ok (CompiledEffect.new none (some p))
            ∧ (CompiledEffect.new none (some p)).Success = false
            ∧ (CompiledEffect.new none (some p)).ErrorsAndWarnings = some p)
      ∧ (0 ≤ native.D3DXCreateEffectCompiler.result →
          native.D3DXCreateEffectCompiler.compiler ≠ NULL →
          (Action.CompileEffect native.D3DXCreateEffectCompiler.compiler options
              ∈ (Effect.CompileEffectFromSource native (some source) defines none options
                  platform).trace)
            ∧ (∀ q, FAILED native.CompileEffect.result = true →
                native.CompileEffect.errors = some q →
                (Effect.CompileEffectFromSource native (some source) defines none options
                    platform).result
                  = .ok (CompiledEffect.new none
                      (joinDiagnostics native.D3DXCreateEffectCompiler.errors (some q))))
            ∧ (∀ code, 0 ≤ native.CompileEffect.result →
                native.CompileEffect.buffer = some code → code ≠ [] →
                (Effect.CompileEffectFromSource native (some source) defines none options
                    platform).result
                  = .ok (CompiledEffect.new (some code)
                      (joinDiagnostics native.D3DXCreateEffectCompiler.errors
                        native.CompileEffect.errors))))
      ∧ (0 ≤ native.D3DXCreateEffectCompiler.result →
          ∀ ce : CompiledEffect,
            (Effect.CompileEffectFromSource native (some source) defines none options
              platform).result = .ok ce →
            ce.ErrorsAndWarnings
                = joinDiagnostics native.D3DXCreateEffectCompiler.errors
                    native.CompileEffect.errors
              ∧ (ce.ErrorsAndWarnings = none ↔
                  native.D3DXCreateEffectCompiler.errors = none
                    ∧ native.CompileEffect.errors = none)) := by
  refine ⟨?_, ?_, ?_⟩
  · intro hfail p herr
    exact ⟨compileEffect_phase_one_failure native source defines options platform p hsrc hfail
      herr, rfl, rfl⟩
  · intro hok hcompiler
    have htwo := compileEffect_phase_two native source defines options platform hsrc hok
      hcompiler
    refine ⟨?_, ?_, ?_⟩
    · have hcall := compilePhase_calls native native.D3DXCreateEffectCompiler options
        ((if native.D3DXCreateEffectCompiler.compiler ≠ NULL then
            [Action.Release native.D3DXCreateEffectCompiler.compiler] else [])
          ++ freeMacros defines)
      simp only [Effect.CompileEffectFromSource, Option.isSome_none, Bool.false_eq_true,
        if_false, hsrc, failed_of_nonneg _ hok, checkResult_of_nonneg _ hok, hcompiler]
      exact List.mem_append_right _ hcall
    · intro q hfail herr
      rw [htwo, compilePhase_failure native _ options _ q hfail herr,
        compilerErrorMessages_eq_join]
    · intro code hok2 hbuf hcode
      rw [htwo, compilePhase_success native _ options _ code hok2 hbuf hcode,
        compilerErrorMessages_eq_join]
  · intro hok ce hce
    have hjoin : ce.ErrorsAndWarnings
        = joinDiagnostics native.D3DXCreateEffectCompiler.errors native.CompileEffect.errors := by
      rcases compileEffect_returns native (some source) defines none options platform ce hce
        with ⟨p, hf, _, _⟩ | ⟨_, tail, hphase⟩
      · rw [failed_of_nonneg _ hok] at hf
        cases hf
      · rw [← compilerErrorMessages_eq_join]
        exact (compilePhase_result native _ options tail ce hphase).1
    refine ⟨hjoin, ?_⟩
    rw [hjoin]
    cases native.D3DXCreateEffectCompiler.errors <;> cases native.CompileEffect.errors <;>
      simp [joinDiagnostics]

/-- Witness of C20: with a warning from the creation of the compiler, the call
returns the code with both warnings when the compilation succeeds with a
warning of its own, and a failed result with the warning followed by the error
when the compilation fails. -/
theorem compileEffect_diagnostics_witness :
    (Effect.CompileEffectFromSource
        ⟨⟨S_OK, none, none⟩, ⟨S_OK, 5, some "warning X1; "⟩, ⟨S_OK, some [3], some "warning X2"⟩⟩
        (some "technique T {}") none none 0 TargetPlatform.Windows).result
        = .ok (CompiledEffect.new (some [3])
            (joinDiagnostics (some "warning X1; ") (some "warning X2")))
      ∧ (Effect.CompileEffectFromSource
          ⟨⟨S_OK, none, none⟩, ⟨S_OK, 5, some "warning X1; "⟩,
            ⟨-2147467259, none, some "error X2"⟩⟩
          (some "technique T {}") none none 0 TargetPlatform.Windows).result
          = .ok (CompiledEffect.new none
              (joinDiagnostics (some "warning X1; ") (some "error X2"))) :=
  ⟨((compileEffect_diagnostics
      ⟨⟨S_OK, none, none⟩, ⟨S_OK, 5, some "warning X1; "⟩, ⟨S_OK, some [3], some "warning X2"⟩⟩
      "technique T {}" none 0 TargetPlatform.Windows (by decide)).2.1 (by decide)
      (by decide)).2.2 [3] (by decide) rfl (by decide),
    ((compileEffect_diagnostics
      ⟨⟨S_OK, none, none⟩, ⟨S_OK, 5, some "warning X1; "⟩,
        ⟨-2147467259, none, some "error X2"⟩⟩
      "technique T {}" none 0 TargetPlatform.Windows (by decide)).2.1 (by decide)
      (by decide)).2.1 "error X2" (by decide) rfl⟩

/-! ## Texture stages -/

/-- The sum of a stage index and the offset of a collection does not wrap when
the offset leaves room for the 256 stages. -/
theorem stage_no_wrap (index offset : Int) (hlo : 0 ≤ index) (hhi : index < 256)
    (hoff : 0 ≤ offset) (hroom : offset + 255 < 2147483648) :
    wrapInt32 (index + offset) = index + offset := by
  unfold wrapInt32
  omega

/-- Outside the 256 stages the getter raises before anything else. -/
theorem textureCollection_get_outside (c : TextureCollection) (device : GraphicsDevice)
    (native : TextureStages) (index : Int) (h : index < 0 ∨ index ≥ 256) :
    c.get device native index = ⟨.error (.ArgumentOutOfRangeException "index"), c, []⟩ := by
  unfold TextureCollection.get
  rw [if_pos h]

/-- Outside the 256 stages the setter raises before anything else. -/
theorem textureCollection_set_outside (c : TextureCollection) (device : GraphicsDevice)
    (native : TextureStages) (index : Int) (value : Option (ObjRef × Texture))
    (h : index < 0 ∨ index ≥ 256) :
    c.set device native index value = ⟨.error (.ArgumentOutOfRangeException "index"), c, []⟩ := by
  unfold TextureCollection.set
  rw [if_pos h]

/-- The exceptions `CheckResult` raises are never an out-of-range error. -/
theorem checkResult_ne_outOfRange (hr : HRESULT) (n : String) :
    Utility.CheckResult hr ≠ .error (.ArgumentOutOfRangeException n) := by
  unfold Utility.CheckResult
  split_ifs <;> simp

/-- The wrapper made by the getter is never an out-of-range error. -/
theorem wrap_ne_outOfRange (c : TextureCollection) (kind : TextureKind) (p : Pointer)
    (n : String) : c.wrap kind p ≠ .error (.ArgumentOutOfRangeException n) := by
  unfold TextureCollection.wrap Texture.new GraphicsResource.new
  simp only []
  split_ifs <;> simp

/-- Inside the 256 stages the getter never raises an out-of-range error, it
leaves the cache as it is, and every stage it addresses is `index + _offset`
as an `int`. -/
theorem textureCollection_get_inside (c : TextureCollection) (device : GraphicsDevice)
    (native : TextureStages) (index : Int) (h : ¬ (index < 0 ∨ index ≥ 256)) :
    (∀ n, (c.get device native index).result ≠ .error (.ArgumentOutOfRangeException n))
      ∧ (c.get device native index).state = c
      ∧ (∀ a ∈ (c.get device native index).trace, ∀ s, a.textureStage = some s →
          s = wrapInt32 (index + c._offset)) := by
  unfold TextureCollection.get
  rw [if_neg h]
  cases hd : c._dict index with
  | some r => simp
  | none =>
    simp only []
    unfold GraphicsDevice.Ptr
    by_cases hp : device._deviceW = NULL
    · simp [hp]
    · simp only [hp, if_false]
      cases hc : Utility.CheckResult (native.GetTexture (wrapInt32 (index + c._offset))).1 with
      | error err =>
        refine ⟨?_, rfl, ?_⟩
        · intro n hn
          simp only [Except.error.injEq] at hn
          exact checkResult_ne_outOfRange _ n (hc.trans (by rw [hn]))
        · intro a ha s hs
          simp only [List.mem_singleton] at ha
          subst ha
          simpa [Action.textureStage] using hs.symm
      | ok u =>
        simp only []
        have key : ∀ (l : List Action) (res : Except Error (Option TextureValue)),
            (∀ n, res ≠ .error (.ArgumentOutOfRangeException n)) →
            (∀ a ∈ l, a = .GetTexture device._deviceW (wrapInt32 (index + c._offset))
              ∨ a.textureStage = none) →
            (∀ n, (Outcome.mk res c l).result ≠ .error (.ArgumentOutOfRangeException n))
              ∧ (Outcome.mk res c l).state = c
              ∧ (∀ a ∈ (Outcome.mk res c l).trace, ∀ s, a.textureStage = some s →
                  s = wrapInt32 (index + c._offset)) := by
          intro l res hres hl
          refine ⟨hres, rfl, ?_⟩
          intro a ha s hs
          rcases hl a ha with h1 | h1
          · subst h1
            simpa [Action.textureStage] using hs.symm
          · rw [h1] at hs
            cases hs
        split_ifs
        · exact key _ _ (by simp) (by simp)
        · exact key _ _ (wrap_ne_outOfRange c _ _) (by simp [Action.textureStage])
        · exact key _ _ (wrap_ne_outOfRange c _ _) (by simp [Action.textureStage])
        · exact key _ _ (wrap_ne_outOfRange c _ _) (by simp [Action.textureStage])
        · exact key _ _ (by simp) (by simp [Action.textureStage])

/-- Inside the 256 stages the setter never raises an out-of-range error and
every stage it addresses is `index + _offset` as an `int`. -/
theorem textureCollection_set_inside (c : TextureCollection) (device : GraphicsDevice)
    (native : TextureStages) (index : Int) (value : Option (ObjRef × Texture))
    (h : ¬ (index < 0 ∨ index ≥ 256)) :
    (∀ n, (c.set device native index value).result ≠ .error (.ArgumentOutOfRangeException n))
      ∧ (∀ a ∈ (c.set device native index value).trace, ∀ s, a.textureStage = some s →
          s = wrapInt32 (index + c._offset)) := by
  unfold TextureCollection.set
  rw [if_neg h]
  unfold GraphicsDevice.Ptr
  cases value with
  | none =>
    simp only []
    by_cases hp : device._deviceW = NULL
    · simp [hp]
    · simp only [hp, if_false]
      cases hc : Utility.CheckResult (native.SetTexture (wrapInt32 (index + c._offset)) NULL) with
      | error err =>
        refine ⟨?_, ?_⟩
        · intro n hn
          simp only [Except.error.injEq] at hn
          exact checkResult_ne_outOfRange _ n (hc.trans (by rw [hn]))
        · intro a ha s hs
          simp only [List.mem_singleton] at ha
          subst ha
          simpa [Action.textureStage] using hs.symm
      | ok u =>
        refine ⟨by simp, ?_⟩
        intro a ha s hs
        simp only [List.mem_singleton] at ha
        subst ha
        simpa [Action.textureStage] using hs.symm
  | some v =>
    obtain ⟨ref, texture⟩ := v
    simp only []
    by_cases hp : device._deviceW = NULL
    · simp [hp]
    · simp only [hp, if_false]
      unfold Texture.Ptr GraphicsResource.Ptr
      by_cases ht : texture.toGraphicsResource._resource = NULL
      · simp [ht]
      · simp only [ht, if_false]
        cases hc : Utility.CheckResult
            (native.SetTexture (wrapInt32 (index + c._offset)) texture._resource) with
        | error err =>
          refine ⟨?_, ?_⟩
          · intro n hn
            simp only [Except.error.injEq] at hn
            exact checkResult_ne_outOfRange _ n (hc.trans (by rw [hn]))
          · intro a ha s hs
            simp only [List.mem_singleton] at ha
            subst ha
            simpa [Action.textureStage] using hs.symm
        | ok u =>
          refine ⟨by simp, ?_⟩
          intro a ha s hs
          simp only [List.mem_singleton] at ha
          subst ha
          simpa [Action.textureStage] using hs.symm

/-- C21: for a `TextureCollection` with base offset `b` (non-negative, as the
constructor demands, and leaving room for the 256 stages below `2^31`) and
every index `i`, the getter and the setter raise an out-of-range error exactly
when `i < 0` or `i >= 256`, and then nothing is asked of the driver and the
cache is unchanged; for `0 <= i < 256` every stage a native call addresses is
`i + b`, and on a live device the setter addresses it with exactly one
`SetTexture` and the getter of an uncached index begins with `GetTexture` of it. -/
theorem textureCollection_index_range (c : TextureCollection) (device : GraphicsDevice)
    (native : TextureStages) (index : Int) (value : Option (ObjRef × Texture))
    (hoff : 0 ≤ c._offset) (hroom : c._offset + 255 < 2147483648) :
    ((∃ n, (c.get device native index).result = .error (.ArgumentOutOfRangeException n))
        ↔ (index < 0 ∨ index ≥ 256))
      ∧ ((∃ n, (c.set device native index value).result
            = .error (.ArgumentOutOfRangeException n)) ↔ (index < 0 ∨ index ≥ 256))
      ∧ ((index < 0 ∨ index ≥ 256) →
          (c.get device native index).trace = [] ∧ (c.get device native index).state = c
            ∧ (c.set device native index value).trace = []
            ∧ (c.set device native index value).state = c)
      ∧ ((0 ≤ index ∧ index < 256) →
          (∀ a ∈ (c.get device native index).trace, ∀ s, a.textureStage = some s →
              s = index + c._offset)
            ∧ (∀ a ∈ (c.set device native index value).trace, ∀ s, a.textureStage = some s →
              s = index + c._offset)
            ∧ (device._deviceW ≠ NULL → c._dict index = none →
                (c.get device native index).trace.head?
                  = some (.GetTexture device._deviceW (index + c._offset)))
            ∧ (device._deviceW ≠ NULL → (∀ v, value = some v → v.2._resource ≠ NULL) →
                (c.set device native index value).trace
                  = [.SetTexture device._deviceW (index + c._offset)
                      (match value with | none => NULL | some v => v.2._resource)])) := by
  refine ⟨⟨?_, ?_⟩, ⟨?_, ?_⟩, ?_, ?_⟩
  · rintro ⟨n, hn⟩
    by_contra hin
    exact (textureCollection_get_inside c device native index hin).1 n hn
  · intro h
    exact ⟨"index", by rw [textureCollection_get_outside c device native index h]⟩
  · rintro ⟨n, hn⟩
    by_contra hin
    exact (textureCollection_set_inside c device native index value hin).1 n hn
  · intro h
    exact ⟨"index", by rw [textureCollection_set_outside c device native index value h]⟩
  · intro h
    rw [textureCollection_get_outside c device native index h,
      textureCollection_set_outside c device native index value h]
    exact ⟨rfl, rfl, rfl, rfl⟩
  · rintro ⟨hlo, hhi⟩
    have hin : ¬ (index < 0 ∨ index ≥ 256) := by omega
    have hw := stage_no_wrap index c._offset hlo hhi hoff hroom
    refine ⟨?_, ?_, ?_, ?_⟩
    · intro a ha s hs
      rw [← hw]
      exact (textureCollection_get_inside c device native index hin).2.2 a ha s hs
    · intro a ha s hs
      rw [← hw]
      exact (textureCollection_set_inside c device native index value hin).2 a ha s hs
    · intro hp hd
      unfold TextureCollection.get
      rw [if_neg hin, hd]
      unfold GraphicsDevice.Ptr
      simp only [hp, if_false, hw]
      cases Utility.CheckResult (native.GetTexture (index + c._offset)).1 with
      | error err => rfl
      | ok u =>
        simp only []
        split_ifs <;> rfl
    · intro hp hv
      unfold TextureCollection.set
      rw [if_neg hin]
      unfold GraphicsDevice.Ptr
      cases value with
      | none =>
        simp only [hp, if_false, hw]
        cases Utility.CheckResult (native.SetTexture (index + c._offset) NULL) <;> rfl
      | some v =>
        obtain ⟨ref, texture⟩ := v
        have ht : texture.toGraphicsResource._resource ≠ NULL := hv (ref, texture) rfl
        unfold Texture.Ptr GraphicsResource.Ptr
        simp only [hp, ht, if_false, hw]
        cases Utility.CheckResult (native.SetTexture (index + c._offset) texture._resource)
          <;> rfl

/-- C21 at the vertex-texture collection of a device (offset 257): stage 3 is
native stage 260 and index 256 is refused. -/
theorem textureCollection_index_range_witness :
    ((∃ n, (TextureCollection.get ⟨1, fun _ => none, 257⟩ ⟨7, false⟩
          ⟨fun _ => (S_OK, 0), fun _ _ => (S_OK, 0), fun _ _ => S_OK⟩ 256).result
          = .error (.ArgumentOutOfRangeException n)) ↔ ((256 : Int) < 0 ∨ (256 : Int) ≥ 256))
      ∧ (TextureCollection.set ⟨1, fun _ => none, 257⟩ ⟨7, false⟩
          ⟨fun _ => (S_OK, 0), fun _ _ => (S_OK, 0), fun _ _ => S_OK⟩ 3
          (some (5, ⟨⟨1, 9, none, none⟩, none⟩))).trace = [.SetTexture 7 260 9] :=
  ⟨(textureCollection_index_range ⟨1, fun _ => none, 257⟩ ⟨7, false⟩
      ⟨fun _ => (S_OK, 0), fun _ _ => (S_OK, 0), fun _ _ => S_OK⟩ 256 none
      (by decide) (by decide)).1,
    by decide⟩

/-- C22: after a successful `set( i, t )` with a live texture `t` on a live
device, `get( i )` returns the very reference `t` and asks nothing of the
driver, also after any successful or failed `set` on another index `j`; a
successful `set( i, null )` removes the cached entry of `i`; and a `set` on `i`
never changes the cached entry of another index `j`. -/
theorem textureCollection_cache (c : TextureCollection) (device : GraphicsDevice)
    (native : TextureStages) (i j : Int) (ref : ObjRef) (texture : Texture)
    (value other : Option (ObjRef × Texture))
    (hset : (c.set device native i (some (ref, texture))).result = .ok ())
    (hij : j ≠ i) :
    (let c1 := (c.set device native i (some (ref, texture))).state
     c1.get device native i = ⟨.ok (some (.existing ref)), c1, []⟩
      ∧ (let c2 := (c1.set device native j other).state
         c2.get device native i = ⟨.ok (some (.existing ref)), c2, []⟩))
      ∧ ((c.set device native i none).result = .ok () →
          ((c.set device native i none).state)._dict i = none)
      ∧ ((c.set device native i value).state)._dict j = c._dict j := by
  have hin : ¬ (i < 0 ∨ i ≥ 256) := by
    intro h
    rw [textureCollection_set_outside c device native i _ h] at hset
    cases hset
  have hother : ∀ (d : TextureCollection) (k : Int) (v : Option (ObjRef × Texture)) (m : Int),
      m ≠ k → ((d.set device native k v).state)._dict m = d._dict m := by
    intro d k v m hmk
    unfold TextureCollection.set
    split_ifs
    · rfl
    · cases v with
      | none =>
        simp only []
        cases device.Ptr with
        | error err => rfl
        | ok p =>
          simp only []
          cases Utility.CheckResult (native.SetTexture (wrapInt32 (k + d._offset)) NULL) with
          | error err => rfl
          | ok u => simp [TextureCollection.dictRemove, hmk]
      | some w =>
        obtain ⟨r, t⟩ := w
        simp only []
        cases device.Ptr with
        | error err => rfl
        | ok p =>
          simp only []
          cases t.Ptr with
          | error err => rfl
          | ok q =>
            simp only []
            cases Utility.CheckResult (native.SetTexture (wrapInt32 (k + d._offset)) q) with
            | error err => rfl
            | ok u => simp [TextureCollection.dictSet, hmk]
  have hcached : ((c.set device native i (some (ref, texture))).state)._dict i = some ref := by
    revert hset
    unfold TextureCollection.set
    rw [if_neg hin]
    simp only []
    cases device.Ptr with
    | error err => intro h; cases h
    | ok p =>
      simp only []
      cases texture.Ptr with
      | error err => intro h; cases h
      | ok q =>
        simp only []
        cases Utility.CheckResult (native.SetTexture (wrapInt32 (i + c._offset)) q) with
        | error err => intro h; cases h
        | ok u => intro _; simp [TextureCollection.dictSet]
  have hget : ∀ d : TextureCollection, d._dict i = some ref →
      d.get device native i = ⟨.ok (some (.existing ref)), d, []⟩ := by
    intro d hd
    unfold TextureCollection.get
    rw [if_neg hin, hd]
  refine ⟨⟨hget _ hcached, hget _ ?_⟩, ?_, hother c i value j hij⟩
  · rw [hother _ j other i (Ne.symm hij)]
    exact hcached
  · unfold TextureCollection.set
    rw [if_neg hin]
    simp only []
    cases device.Ptr with
    | error err => intro h; cases h
    | ok p =>
      simp only []
      cases Utility.CheckResult (native.SetTexture (wrapInt32 (i + c._offset)) NULL) with
      | error err => intro h; cases h
      | ok u => intro _; simp [TextureCollection.dictRemove]

/-- C22 at stage 3 of the pixel-texture collection: the texture reference 5
set there is what the getter returns, with no native call. -/
theorem textureCollection_cache_witness :
    (TextureCollection.set ⟨1, fun _ => none, 0⟩ ⟨7, false⟩
        ⟨fun _ => (S_OK, 0), fun _ _ => (S_OK, 0), fun _ _ => S_OK⟩ 3
        (some (5, ⟨⟨1, 9, none, none⟩, none⟩))).result = .ok ()
      ∧ ((TextureCollection.set ⟨1, fun _ => none, 0⟩ ⟨7, false⟩
          ⟨fun _ => (S_OK, 0), fun _ _ => (S_OK, 0), fun _ _ => S_OK⟩ 3
          (some (5, ⟨⟨1, 9, none, none⟩, none⟩))).state.get ⟨7, false⟩
          ⟨fun _ => (S_OK, 0), fun _ _ => (S_OK, 0), fun _ _ => S_OK⟩ 3).trace = [] :=
  ⟨by decide,
    by
      rw [(textureCollection_cache ⟨1, fun _ => none, 0⟩ ⟨7, false⟩
        ⟨fun _ => (S_OK, 0), fun _ _ => (S_OK, 0), fun _ _ => S_OK⟩ 3 4 5
        ⟨⟨1, 9, none, none⟩, none⟩ none none (by decide) (by decide)).1.1]⟩

/-! ## The shared Direct3D factory -/

/-- Every adapter the loop wraps refers to the factory it was given. -/
theorem fill_refers_to_factory (d3d : ObjRef × Direct3D) (native : AdapterDriver)
    (remaining : Nat) :
    ∀ (i : Nat) (l : List GraphicsAdapter),
      (GraphicsAdapter.fill d3d native remaining i).result = .ok l →
      l.length = remaining ∧ ∀ a ∈ l, a._d3d = d3d.1 := by
  induction remaining with
  | zero =>
    intro i l h
    simp only [GraphicsAdapter.fill, Except.ok.injEq] at h
    subst h
    simp
  | succ n ih =>
    intro i l h
    simp only [GraphicsAdapter.fill] at h
    cases hm : (GraphicsAdapter.new (some d3d) native i).result with
    | error err => rw [hm] at h; cases h
    | ok adapter =>
      rw [hm] at h
      simp only [] at h
      cases hr : (GraphicsAdapter.fill d3d native n (i + 1)).result with
      | error err => rw [hr] at h; cases h
      | ok adapters =>
        rw [hr] at h
        simp only [Except.ok.injEq] at h
        subst h
        obtain ⟨hlen, hall⟩ := ih (i + 1) adapters hr
        refine ⟨by simp [hlen], ?_⟩
        intro a ha
        rcases List.mem_cons.mp ha with h1 | h1
        · subst h1
          revert hm
          unfold GraphicsAdapter.new
          obtain ⟨ref, holder⟩ := d3d
          simp only []
          cases holder.Ptr with
          | error err => intro hm; cases hm
          | ok p =>
            simp only []
            cases Utility.CheckResult ((native.factory p).GetAdapterIdentifier i).1 with
            | error err => intro hm; cases hm
            | ok u =>
              intro hm
              simp only [Except.ok.injEq] at hm
              rw [← hm]
        · exact hall a h1

/-- The loop never creates a factory. -/
theorem fill_creates_none (d3d : ObjRef × Direct3D) (native : AdapterDriver)
    (remaining : Nat) :
    ∀ i : Nat, Action.Direct3DCreate9 ∉ (GraphicsAdapter.fill d3d native remaining i).trace := by
  have hnew : ∀ i : Nat,
      Action.Direct3DCreate9 ∉ (GraphicsAdapter.new (some d3d) native i).trace := by
    intro i
    unfold GraphicsAdapter.new
    obtain ⟨ref, holder⟩ := d3d
    simp only []
    cases holder.Ptr with
    | error err => simp
    | ok p =>
      simp only []
      cases Utility.CheckResult ((native.factory p).GetAdapterIdentifier i).1 <;> simp
  induction remaining with
  | zero => intro i; simp [GraphicsAdapter.fill]
  | succ n ih =>
    intro i
    simp only [GraphicsAdapter.fill]
    cases (GraphicsAdapter.new (some d3d) native i).result with
    | error err => exact hnew i
    | ok adapter =>
      simp only []
      cases (GraphicsAdapter.fill d3d native n (i + 1)).result with
      | error err =>
        simp only [List.mem_append, not_or]
        exact ⟨hnew i, ih (i + 1)⟩
      | ok adapters =>
        simp only [List.mem_append, not_or]
        exact ⟨hnew i, ih (i + 1)⟩

/-- While the weak reference has a live target the accessor returns it and
creates nothing. -/
theorem d3d_get_of_alive (s : AdapterStatics) (native : AdapterDriver) (r : ObjRef)
    (h : s._d3dRef = some ⟨some r⟩) :
    GraphicsAdapter.D3D_get s native = ⟨.ok r, s, []⟩ := by
  unfold GraphicsAdapter.D3D_get
  rw [h]

/-- After an accepted call of the accessor the weak reference has the factory
returned as its live target. -/
theorem d3d_get_records (s : AdapterStatics) (native : AdapterDriver) (r : ObjRef)
    (h : (GraphicsAdapter.D3D_get s native).result = .ok r) :
    (GraphicsAdapter.D3D_get s native).state._d3dRef = some ⟨some r⟩ := by
  revert h
  unfold GraphicsAdapter.D3D_get
  cases hs : s._d3dRef with
  | none =>
    simp only []
    cases Direct3D.new (native.Direct3DCreate9 s.factories.length) with
    | error err => intro h; cases h
    | ok made =>
      intro h
      simp only [Except.ok.injEq] at h
      simp [h]
  | some weak =>
    obtain ⟨target⟩ := weak
    cases target with
    | none =>
      simp only []
      cases Direct3D.new (native.Direct3DCreate9 s.factories.length) with
      | error err => intro h; cases h
      | ok made =>
        intro h
        simp only [Except.ok.injEq] at h
        simp [h]
    | some t =>
      simp only []
      intro h
      simp only [Except.ok.injEq] at h
      rw [hs, h]

/-- An adapter-list request changes the static state only through the accessor. -/
theorem adapters_get_state (s : AdapterStatics) (native : AdapterDriver) :
    (GraphicsAdapter.Adapters_get s native).state = (GraphicsAdapter.D3D_get s native).state := by
  unfold GraphicsAdapter.Adapters_get
  simp only []
  cases (GraphicsAdapter.D3D_get s native).result with
  | error err => rfl
  | ok r =>
    simp only []
    cases (GraphicsAdapter.D3D_get s native).state.factories.get? r with
    | none => rfl
    | some holder =>
      simp only []
      cases holder.Ptr <;> rfl

/-- C23: an accepted call of the factory accessor of `GraphicsAdapter`, with
the weak reference an optional factory that a collection clears only when no
strong reference remains.  While the factory made before is alive the
accessor returns it and creates none; otherwise it creates exactly one and
records it.  Hence, after an adapter-list request that returned a list with at
least one adapter, a second request made while that list is still referenced
(whatever the collector did in between) creates no factory, uses the factory
of the first list, and returns the same adapters: equal length, equal vendor
and device ids. -/
theorem adapter_factory_shared (s : AdapterStatics) (native : AdapterDriver) :
    (∀ r, s._d3dRef = some ⟨some r⟩ →
        GraphicsAdapter.D3D_get s native = ⟨.ok r, s, []⟩)
      ∧ ((s._d3dRef = none ∨ s._d3dRef = some ⟨none⟩) →
          native.Direct3DCreate9 s.factories.length ≠ NULL →
          GraphicsAdapter.D3D_get s native
            = ⟨.ok s.factories.length,
                { _d3dRef := some ⟨some s.factories.length⟩,
                  factories := s.factories ++ [⟨native.Direct3DCreate9 s.factories.length⟩] },
                [.Direct3DCreate9]⟩)
      ∧ (∀ (first : List GraphicsAdapter) (run : Bool),
          (GraphicsAdapter.Adapters_get s native).result = .ok first → first ≠ [] →
          let later := ((GraphicsAdapter.Adapters_get s native).state).collect
            (first.map (fun a => a._d3d)) run
          let second := GraphicsAdapter.Adapters_get later native
          second.result = .ok first
            ∧ Action.Direct3DCreate9 ∉ second.trace
            ∧ (∃ r, later._d3dRef = some ⟨some r⟩ ∧ second.state._d3dRef = some ⟨some r⟩
                ∧ ∀ a ∈ first, a._d3d = r)
            ∧ (∀ again, second.result = .ok again →
                again.length = first.length
                  ∧ again.map (fun a => a._vendorID) = first.map (fun a => a._vendorID)
                  ∧ again.map (fun a => a._deviceID) = first.map (fun a => a._deviceID))) := by
  refine ⟨fun r h => d3d_get_of_alive s native r h, ?_, ?_⟩
  · intro h hne
    unfold GraphicsAdapter.D3D_get Direct3D.new
    rcases h with h | h <;> rw [h] <;> simp [hne]
  · intro first run hfirst hne
    -- the first request: its factory and its state
    have hst : (GraphicsAdapter.Adapters_get s native).state
        = (GraphicsAdapter.D3D_get s native).state := adapters_get_state s native
    have hshape : ∃ r holder p,
        (GraphicsAdapter.D3D_get s native).result = .ok r
          ∧ (GraphicsAdapter.D3D_get s native).state.factories.get? r = some holder
          ∧ holder.Ptr = .ok p
          ∧ (GraphicsAdapter.fill (r, holder) native (native.factory p).GetAdapterCount 0).result
              = .ok first := by
      revert hfirst
      unfold GraphicsAdapter.Adapters_get
      simp only []
      cases hg : (GraphicsAdapter.D3D_get s native).result with
      | error err => intro h; cases h
      | ok r =>
        simp only []
        cases hl : (GraphicsAdapter.D3D_get s native).state.factories.get? r with
        | none => intro h; cases h
        | some holder =>
          simp only []
          cases hp : holder.Ptr with
          | error err => intro h; cases h
          | ok p =>
            simp only []
            intro h
            exact ⟨r, holder, p, rfl, hl, hp, h⟩
    obtain ⟨r, holder, p, hg, hl, hp, hfill⟩ := hshape
    have hrec := d3d_get_records s native r hg
    have hall := (fill_refers_to_factory (r, holder) native _ 0 first hfill).2
    have hheld : r ∈ first.map (fun a => a._d3d) := by
      obtain ⟨a, ha⟩ := List.exists_mem_of_ne_nil first hne
      exact List.mem_map.mpr ⟨a, ha, hall a ha⟩
    have hlater : ((GraphicsAdapter.Adapters_get s native).state).collect
        (first.map (fun a => a._d3d)) run = (GraphicsAdapter.D3D_get s native).state := by
      rw [hst]
      unfold AdapterStatics.collect
      rw [hrec]
      simp [hheld]
    simp only [hlater]
    have hagain := d3d_get_of_alive (GraphicsAdapter.D3D_get s native).state native r hrec
    have hsecond : GraphicsAdapter.Adapters_get (GraphicsAdapter.D3D_get s native).state native
        = ⟨.ok first, (GraphicsAdapter.D3D_get s native).state,
            [] ++ [.GetAdapterCount p]
              ++ (GraphicsAdapter.fill (r, holder) native
                    (native.factory p).GetAdapterCount 0).trace⟩ := by
      unfold GraphicsAdapter.Adapters_get
      simp only [hagain, hl, hp, hfill]
    rw [hsecond]
    refine ⟨rfl, ?_, ⟨r, hrec, hrec, hall⟩, ?_⟩
    · simp only [List.nil_append, List.singleton_append, List.mem_cons, not_or]
      exact ⟨by simp, fill_creates_none (r, holder) native _ 0⟩
    · intro again h
      simp only [Except.ok.injEq] at h
      subst h
      exact ⟨rfl, rfl, rfl⟩

/-- C23 on a machine with two adapters and no factory yet: the first request
creates the factory, the second, made while the first list is held, returns
the same two adapters and creates nothing. -/
theorem adapter_factory_shared_witness :
    (GraphicsAdapter.Adapters_get ⟨none, []⟩
        ⟨fun _ => 11, fun _ => ⟨2, fun i => (S_OK, ⟨4318, 100 + i, 0, 1⟩)⟩⟩).result
        = .ok [⟨0, 0, 4318, 100, 0, 1⟩, ⟨0, 1, 4318, 101, 0, 1⟩]
      ∧ Action.Direct3DCreate9 ∉ (GraphicsAdapter.Adapters_get
          (((GraphicsAdapter.Adapters_get ⟨none, []⟩
            ⟨fun _ => 11, fun _ => ⟨2, fun i => (S_OK, ⟨4318, 100 + i, 0, 1⟩)⟩⟩).state).collect
            (([⟨0, 0, 4318, 100, 0, 1⟩, ⟨0, 1, 4318, 101, 0, 1⟩] : List GraphicsAdapter).map
              (fun a => a._d3d)) true)
          ⟨fun _ => 11, fun _ => ⟨2, fun i => (S_OK, ⟨4318, 100 + i, 0, 1⟩)⟩⟩).trace :=
  ⟨by decide,
    ((adapter_factory_shared ⟨none, []⟩
      ⟨fun _ => 11, fun _ => ⟨2, fun i => (S_OK, ⟨4318, 100 + i, 0, 1⟩)⟩⟩).2.2
      [⟨0, 0, 4318, 100, 0, 1⟩, ⟨0, 1, 4318, 101, 0, 1⟩] true (by decide) (by decide)).2.1⟩

/-! ## Resource factories -/

/-- The vertex- and index-buffer factories refuse a null device, a count or
size that is not positive, and (index buffer from a type) a type size other
than 2 and 4, with an argument error and before any native call. -/
theorem buffer_factories_validate (native : Allocator) (device : Option GraphicsDevice)
    (type : Option Int) (count usage mode elementSize : Int) :
    ((device = none ∨ count ≤ 0) →
        (∃ e, VertexBuffer.CreateBuffer device native type count usage mode = ⟨.error e, (), []⟩
            ∧ e.isArgument = true)
          ∧ (∃ e, VertexBuffer.CreateBufferOfSize device native count usage mode
              = ⟨.error e, (), []⟩ ∧ e.isArgument = true)
          ∧ (∃ e, IndexBuffer.CreateBuffer device native type count usage mode
              = ⟨.error e, (), []⟩ ∧ e.isArgument = true)
          ∧ (∃ e, IndexBuffer.CreateBufferOfSize device native count usage elementSize mode
              = ⟨.error e, (), []⟩ ∧ e.isArgument = true))
      ∧ (∀ size, type = some size → size ≠ 2 → size ≠ 4 →
          ∃ e, IndexBuffer.CreateBuffer device native type count usage mode = ⟨.error e, (), []⟩
            ∧ e.isArgument = true) := by
  constructor
  · intro h
    unfold VertexBuffer.CreateBuffer VertexBuffer.CreateBufferOfSize IndexBuffer.CreateBuffer
      IndexBuffer.CreateBufferOfSize
    cases device with
    | none =>
      exact ⟨⟨.ArgumentNullException "device", rfl, rfl⟩, ⟨.ArgumentNullException "device", rfl, rfl⟩,
        ⟨.ArgumentNullException "device", rfl, rfl⟩, ⟨.ArgumentNullException "device", rfl, rfl⟩⟩
    | some d =>
      have hc : count ≤ 0 := by
        rcases h with h | h
        · cases h
        · exact h
      cases type with
      | none =>
        simp only [if_pos hc]
        exact ⟨⟨.ArgumentNullException "vertexType", rfl, rfl⟩,
          ⟨.ArgumentOutOfRangeException "sizeInBytes", rfl, rfl⟩,
          ⟨.ArgumentNullException "indexType", rfl, rfl⟩,
          ⟨.ArgumentOutOfRangeException "sizeInBytes", rfl, rfl⟩⟩
      | some size =>
        simp only [if_pos hc]
        exact ⟨⟨.ArgumentOutOfRangeException "elementCount", rfl, rfl⟩,
          ⟨.ArgumentOutOfRangeException "sizeInBytes", rfl, rfl⟩,
          ⟨.ArgumentOutOfRangeException "elementCount", rfl, rfl⟩,
          ⟨.ArgumentOutOfRangeException "sizeInBytes", rfl, rfl⟩⟩
  · intro size ht h2 h4
    subst ht
    unfold IndexBuffer.CreateBuffer
    cases device with
    | none => exact ⟨.ArgumentNullException "device", rfl, rfl⟩
    | some d =>
      by_cases hc : count ≤ 0
      · simp only [if_pos hc]
        exact ⟨.ArgumentOutOfRangeException "elementCount", rfl, rfl⟩
      · simp only [if_neg hc, if_pos (And.intro h2 h4)]
        exact ⟨.ArgumentException, rfl, rfl⟩

/-- C24, where the code departs from it: `Texture2D::CreateTexture`, run first
by the public constructors of `Texture2D`, makes none of the checks the buffer
factories make.  With a width of zero (or a negative height) on a live device
the native `CreateTexture` is called with those numbers, and a null device
gives a null-reference error, which is not an argument error. -/
theorem texture2D_factory_skips_validation :
    Texture2D.CreateTexture (some ⟨7, false⟩)
        ⟨fun _ _ _ => (S_OK, 3), fun _ _ _ _ => (S_OK, 4), fun _ _ _ _ _ _ => (S_OK, 5)⟩
        0 16 1 0 21 ResourceManagementMode.Manual
        = ⟨.ok 5, (), [.CreateTexture 7 0 16 1 0 21 D3DPOOL_DEFAULT]⟩
      ∧ Texture2D.CreateTexture (some ⟨7, false⟩)
          ⟨fun _ _ _ => (S_OK, 3), fun _ _ _ _ => (S_OK, 4),
            fun _ _ _ _ _ _ => (D3DERR_INVALIDCALL, 0)⟩
          16 (-1) 1 0 21 ResourceManagementMode.Manual
          = ⟨.error .ArgumentException, (), [.CreateTexture 7 16 (-1) 1 0 21 D3DPOOL_DEFAULT]⟩
      ∧ Texture2D.CreateTexture none
          ⟨fun _ _ _ => (S_OK, 3), fun _ _ _ _ => (S_OK, 4), fun _ _ _ _ _ _ => (S_OK, 5)⟩
          16 16 1 0 21 ResourceManagementMode.Manual
          = ⟨.error .NullReferenceException, (), []⟩
      ∧ Error.isArgument .NullReferenceException = false
      ∧ VertexBuffer.CreateBufferOfSize (some ⟨7, false⟩)
          ⟨fun _ _ _ => (S_OK, 3), fun _ _ _ _ => (S_OK, 4), fun _ _ _ _ _ _ => (S_OK, 5)⟩
          0 0 ResourceManagementMode.Manual
          = ⟨.error (.ArgumentOutOfRangeException "sizeInBytes"), (), []⟩ := by
  refine ⟨by decide, by decide, by decide, by decide, by decide⟩

/-! ## `IsSimpleValueType` -/

/-- A type with no reference in any field passes the check of the code. -/
theorem isSimple_of_no_reference (t : ManagedType) (h : containsReference t = false) :
    Utility.isSimple t = true := by
  revert h
  refine @ManagedType.rec
    (fun t => containsReference t = false → Utility.isSimple t = true)
    (fun fields => anyContainsReference fields = false → Utility.isSimpleFields fields = true)
    (fun field => containsReference field.FieldType = false →
      Utility.isSimple field.FieldType = true)
    ?_ ?_ ?_ ?_ ?_ ?_ ?_ t
  · intro h; simp [containsReference] at h
  · intro _; simp [Utility.isSimple]
  · intro _; simp [Utility.isSimple]
  · intro fields ih h
    simp only [containsReference] at h
    simp only [Utility.isSimple]
    exact ih h
  · intro _; simp [Utility.isSimpleFields]
  · intro field rest ihf ihr h
    simp only [anyContainsReference, Bool.or_eq_false_iff] at h
    simp only [Utility.isSimpleFields]
    rw [ihf h.1, ihr h.2]
    simp
  · intro isPublic fieldType ih h
    exact ih h

/-- C25, where the code departs from it: a value type whose only reference is
held in a field that is not public (here one public primitive field and one
private field of a reference type) is reported simple by
`IsSimpleValueType`, and `DrawUserPrimitives` on vertices of that type raises
no unsupported-type error but reaches the native draw; the same type with the
field public is refused. -/
theorem isSimpleValueType_misses_private_reference :
    containsReference (.struct [⟨true, .primitive⟩, ⟨false, .reference⟩]) = true
      ∧ Utility.IsSimpleValueType (some (.struct [⟨true, .primitive⟩, ⟨false, .reference⟩]))
          = .ok true
      ∧ GraphicsDevice.DrawUserPrimitives ⟨7, true⟩
          ⟨S_OK, S_OK, fun _ _ _ => S_OK, fun _ _ _ _ _ _ => S_OK, fun _ _ _ _ => S_OK,
            S_OK, S_OK⟩
          8 (Utility.isSimple (.struct [⟨true, .primitive⟩, ⟨false, .reference⟩]))
          PrimitiveType.TriangleList (some [(), (), ()]) 0 1
          = ⟨.ok (), ⟨7, true⟩, [.DrawPrimitiveUP 7 PrimitiveType.TriangleList 1 0 8]⟩
      ∧ Utility.IsSimpleValueType (some (.struct [⟨true, .primitive⟩, ⟨true, .reference⟩]))
          = .ok false
      ∧ (GraphicsDevice.DrawUserPrimitives ⟨7, true⟩
          ⟨S_OK, S_OK, fun _ _ _ => S_OK, fun _ _ _ _ _ _ => S_OK, fun _ _ _ _ => S_OK,
            S_OK, S_OK⟩
          8 (Utility.isSimple (.struct [⟨true, .primitive⟩, ⟨true, .reference⟩]))
          PrimitiveType.TriangleList (some [(), (), ()]) 0 1).result
          = .error .NotSupportedException := by
  refine ⟨by decide, by decide, by decide, by decide, by decide⟩

/-! ## `Texture2D::SetData` : validation -/

/-- C27, where the code departs from it: a triangle list of 1431655766
primitives reads 4294967298 vertices, but `GetVertexCount` computes the
product in an `int`, where it is 2; with three vertices supplied the check
passes and `DrawPrimitiveUP` is called for all 1431655766 triangles.  The same
happens to a line strip of 2147483647 lines, whose count wraps to a negative
number. -/
theorem drawUserPrimitives_wrapped_count_reaches_native :
    requiredVertices PrimitiveType.TriangleList 1431655766 = some 4294967298
      ∧ GraphicsDevice.GetVertexCount PrimitiveType.TriangleList 1431655766 = .ok 2
      ∧ GraphicsDevice.DrawUserPrimitives ⟨7, true⟩
          ⟨S_OK, S_OK, fun _ _ _ => S_OK, fun _ _ _ _ _ _ => S_OK, fun _ _ _ _ => S_OK,
            S_OK, S_OK⟩
          12 true PrimitiveType.TriangleList (some [(), (), ()]) 0 1431655766
          = ⟨.ok (), ⟨7, true⟩, [.DrawPrimitiveUP 7 PrimitiveType.TriangleList 1431655766 0 12]⟩
      ∧ requiredVertices PrimitiveType.LineStrip 2147483647 = some 2147483648
      ∧ GraphicsDevice.DrawUserPrimitives ⟨7, true⟩
          ⟨S_OK, S_OK, fun _ _ _ => S_OK, fun _ _ _ _ _ _ => S_OK, fun _ _ _ _ => S_OK,
            S_OK, S_OK⟩
          12 true PrimitiveType.LineStrip (some [(), ()]) 0 2147483647
          = ⟨.ok (), ⟨7, true⟩, [.DrawPrimitiveUP 7 PrimitiveType.LineStrip 2147483647 0 12]⟩ := by
  refine ⟨by decide, by decide, by decide, by decide, by decide⟩

/-- C28, where the code departs from it: `VertexBuffer::SetData` never compares
`startIndex + elementCount` with the length of `data`.  On a buffer of 64
bytes, four 4-byte elements from index 1 of an array of two pass every check:
the buffer is locked and the `memcpy` reads elements 1 to 4 of an array that
ends at element 1.  The product `elementCount * sizeof(T)` also wraps: with
12-byte elements and 357913942 of them it is 8 as an `int`, so the range check
passes although 4294967304 bytes exceed the 64 of the buffer. -/
theorem vertexBuffer_setData_reads_past_data :
    VertexBuffer.SetData (⟨⟨1, 9, none, none⟩, 64, 0, 1⟩ : VertexBuffer) ⟨fun _ _ _ => S_OK, S_OK⟩
        4 0 (some [(), ()]) 1 4 0
        = ⟨.ok (), ⟨⟨1, 9, none, none⟩, 64, 0, 1⟩,
            [.Lock 9 0 16 0, .memcpy 0 1 4 4, .Unlock 9]⟩
      ∧ ¬ ((1 : Int) + 4 ≤ (([(), ()] : List Unit).length : Int))
      ∧ wrapInt32 (0 + wrapInt32 (357913942 * ((12 : Nat) : Int))) = 8
      ∧ ¬ ((0 : Int) + 357913942 * 12 ≤ 64)
      ∧ (VertexBuffer.SetData (⟨⟨1, 9, none, none⟩, 64, 0, 1⟩ : VertexBuffer)
          ⟨fun _ _ _ => S_OK, S_OK⟩ 12 0 (some [(), ()]) 0 357913942 0).trace
          = [.Lock 9 0 8 0, .memcpy 0 0 357913942 12, .Unlock 9] := by
  refine ⟨by decide, by decide, by decide, by decide, by decide⟩

/-- C29, where the code departs from it: `IndexBuffer::SetData` locks
`offsetInBytes << 1` and `elementCount << 1`.  Four 2-byte indices written at
byte offset 8 of a 64-byte buffer pass the validation of bytes 8 to 16 but
lock 8 bytes from byte 16, where `VertexBuffer::SetData` locks 8 bytes from
byte 8; with 4-byte indices the size locked is 8 instead of 16; and a negative
`startIndex` or `offsetInBytes` passes the validation. -/
theorem indexBuffer_setData_locks_other_range :
    IndexBuffer.SetData (⟨⟨1, 9, none, none⟩, 0, 1, 64⟩ : IndexBuffer) ⟨fun _ _ _ => S_OK, S_OK⟩
        2 8 (some [(), (), (), (), (), (), (), ()]) 0 4 0
        = ⟨.ok (), ⟨⟨1, 9, none, none⟩, 0, 1, 64⟩,
            [.Lock 9 16 8 0, .memcpy 0 0 4 2, .Unlock 9]⟩
      ∧ VertexBuffer.SetData (⟨⟨1, 9, none, none⟩, 64, 0, 1⟩ : VertexBuffer)
          ⟨fun _ _ _ => S_OK, S_OK⟩ 2 8 (some [(), (), (), (), (), (), (), ()]) 0 4 0
          = ⟨.ok (), ⟨⟨1, 9, none, none⟩, 64, 0, 1⟩,
              [.Lock 9 8 8 0, .memcpy 0 0 4 2, .Unlock 9]⟩
      ∧ (IndexBuffer.SetData (⟨⟨1, 9, none, none⟩, 0, 1, 64⟩ : IndexBuffer)
          ⟨fun _ _ _ => S_OK, S_OK⟩ 4 0 (some [(), (), (), ()]) 0 4 0).trace
          = [.Lock 9 0 8 0, .memcpy 0 0 4 4, .Unlock 9]
      ∧ IndexBuffer.SetData (⟨⟨1, 9, none, none⟩, 0, 1, 64⟩ : IndexBuffer)
          ⟨fun _ _ _ => S_OK, S_OK⟩ 2 (-4) (some [(), (), (), ()]) (-1) 2 0
          = ⟨.error .IndexOutOfRangeException, ⟨⟨1, 9, none, none⟩, 0, 1, 64⟩,
              [.Lock 9 4294967288 4 0]⟩ := by
  refine ⟨by decide, by decide, by decide, by decide⟩

/-- C30, where the code departs from it: with no rectangle the copy loop takes
the width of level 0 for its row length, whatever level is addressed.  On a
4 by 4 texture, four 4-byte elements written to level 1 (2 by 2 texels, locked
with a pitch of 32 bytes) go in one `memcpy` of four elements to row 0: the
elements 2 and 3 land at bytes 8 and 12, beyond the two texels of row 0, and
row 1 at byte 32 receives nothing, where `min(w, elementCount - r*w)` with the
level width `w = 2` puts them at bytes 32 and 36.  With the rectangle of the
whole level given, the same call writes what is prescribed. -/
theorem texture2D_setData_row_width_of_level_zero :
    Texture2D.SetData (⟨⟨⟨1, 9, none, none⟩, none⟩, 21, 4, 4, 1, 0⟩ : Texture2D)
        ⟨fun _ => (S_OK, 2, 2), fun _ _ _ => (S_OK, 32), fun _ => S_OK⟩ 4 1
        none (some [(), (), (), ()]) 0 4 0
        = some ⟨.ok (), ⟨⟨⟨1, 9, none, none⟩, none⟩, 21, 4, 4, 1, 0⟩,
            [.GetLevelDesc 9 1, .LockRect 9 1 none 0, .memcpy 0 0 4 4, .UnlockRect 9 1]⟩
      ∧ writesOf (Texture2D.SetData (⟨⟨⟨1, 9, none, none⟩, none⟩, 21, 4, 4, 1, 0⟩ : Texture2D)
          ⟨fun _ => (S_OK, 2, 2), fun _ _ _ => (S_OK, 32), fun _ => S_OK⟩ 4 1
          none (some [(), (), (), ()]) 0 4 0)
          = [(0, 0), (4, 1), (8, 2), (12, 3)]
      ∧ rowShare 2 4 0 = 2 ∧ rowShare 2 4 1 = 2
      ∧ prescribedWrites 32 4 2 0 4 = [(0, 0), (4, 1), (32, 2), (36, 3)]
      ∧ writesOf (Texture2D.SetData (⟨⟨⟨1, 9, none, none⟩, none⟩, 21, 4, 4, 1, 0⟩ : Texture2D)
          ⟨fun _ => (S_OK, 2, 2), fun _ _ _ => (S_OK, 32), fun _ => S_OK⟩ 4 1
          none (some [(), (), (), ()]) 0 4 0)
          ≠ prescribedWrites 32 4 2 0 4
      ∧ Texture2D.SetData (⟨⟨⟨1, 9, none, none⟩, none⟩, 21, 4, 4, 1, 0⟩ : Texture2D)
          ⟨fun _ => (S_OK, 2, 2), fun _ _ _ => (S_OK, 32), fun _ => S_OK⟩ 4 1
          (some ⟨0, 0, 2, 2⟩) (some [(), (), (), ()]) 0 4 0
          = some ⟨.ok (), ⟨⟨⟨1, 9, none, none⟩, none⟩, 21, 4, 4, 1, 0⟩,
              [.GetLevelDesc 9 1, .LockRect 9 1 (some ⟨0, 0, 2, 2⟩) 0, .memcpy 0 0 2 4,
                .memcpy 32 2 2 4, .UnlockRect 9 1]⟩
      ∧ writesOf (Texture2D.SetData (⟨⟨⟨1, 9, none, none⟩, none⟩, 21, 4, 4, 1, 0⟩ : Texture2D)
          ⟨fun _ => (S_OK, 2, 2), fun _ _ _ => (S_OK, 32), fun _ => S_OK⟩ 4 1
          (some ⟨0, 0, 2, 2⟩) (some [(), (), (), ()]) 0 4 0)
          = prescribedWrites 32 4 2 0 4 := by
  refine ⟨by decide, by decide, by decide, by decide, by decide, by decide, by decide,
    by decide⟩

/-- The copy loop of `Texture2D::SetData` with a row length of at least one and
a source range inside the array: it comes to an end without error, round `k`
copies `min(lineWidth, remaining - k*lineWidth)` elements from the next source
index to byte `k * pitch` past the target, and all remaining elements are
copied. -/
theorem copyRows_rows (sizeofT : Nat) (length pitch startIndex elementCount lineWidth : Int)
    (hw : 1 ≤ lineWidth) (hs : 0 ≤ startIndex) (hlen : startIndex + elementCount ≤ length)
    (hl : length < 2147483648) :
    ∀ (fuel : Nat) (copied target : Int), 0 ≤ copied → copied ≤ elementCount →
      (elementCount - copied).toNat ≤ fuel →
      ∃ copies, Texture2D.copyRows sizeofT length pitch startIndex elementCount lineWidth
          fuel copied target = some (.ok (), copies)
        ∧ (copies.map Action.copyCount).sum = elementCount - copied
        ∧ ∀ k : Nat, k < copies.length →
            copies.get? k = some (.memcpy (target + (k : Int) * pitch)
              (startIndex + copied + (k : Int) * lineWidth)
              (min lineWidth (elementCount - copied - (k : Int) * lineWidth)) sizeofT) := by
  intro fuel
  induction fuel with
  | zero =>
    intro copied target h0 h1 hf
    have : ¬ copied < elementCount := by omega
    refine ⟨[], by simp [Texture2D.copyRows, this], by simp; omega, ?_⟩
    intro k hk
    simp at hk
  | succ n ih =>
    intro copied target h0 h1 hf
    by_cases hc : copied < elementCount
    · have hidx : wrapInt32 (startIndex + copied) = startIndex + copied :=
        wrapInt32_of_fits _ (by omega) (by omega)
      have hin : ¬ (startIndex + copied < 0 ∨ startIndex + copied ≥ length) := by omega
      have hpos : ¬ min lineWidth (elementCount - copied) ≤ 0 := by
        rw [min_le_iff]
        omega
      have hle : min lineWidth (elementCount - copied) ≤ elementCount - copied :=
        min_le_right _ _
      have hge : 1 ≤ min lineWidth (elementCount - copied) := by omega
      obtain ⟨rest, hrest, hsum, hrows⟩ := ih (copied + min lineWidth (elementCount - copied))
        (target + pitch) (by omega) (by omega) (by omega)
      refine ⟨.memcpy target (startIndex + copied) (min lineWidth (elementCount - copied))
        sizeofT :: rest, ?_, ?_, ?_⟩
      · simp only [Texture2D.copyRows, if_pos hc, hidx, if_neg hin, if_neg hpos, hrest]
      · simp only [List.map_cons, List.sum_cons, Action.copyCount, hsum]
        omega
      · intro k hk
        cases k with
        | zero => simp
        | succ j =>
          simp only [List.length_cons, Nat.add_lt_add_iff_right] at hk
          have hj := hrows j hk
          simp only [List.get?_cons_succ, hj, Option.some.injEq]
          by_cases hfull : lineWidth ≤ elementCount - copied
          · rw [min_eq_left hfull]
            push_cast
            congr 1 <;> ring_nf
          · exfalso
            have hlast : copied + min lineWidth (elementCount - copied) = elementCount := by
              rw [min_eq_right (by omega)]
              omega
            rw [hlast] at hrest
            have hnone : rest = [] := by
              have hnot : ¬ elementCount < elementCount := by omega
              cases n with
              | zero =>
                simp only [Texture2D.copyRows, if_neg hnot, Option.some.injEq,
                  Prod.mk.injEq, true_and] at hrest
                exact hrest.symm
              | succ m =>
                simp only [Texture2D.copyRows, if_neg hnot, Option.some.injEq,
                  Prod.mk.injEq, true_and] at hrest
                exact hrest.symm
            rw [hnone] at hk
            simp at hk
    · have hz : elementCount - copied = 0 := by omega
      refine ⟨[], by simp [Texture2D.copyRows, hc], by simp; omega, ?_⟩
      intro k hk
      simp at hk

/-- What `VertexBuffer::SetData` has checked when it reaches the driver: the
start index lies in the array, the offset in the buffer, the count is not
negative, and the end of the target range, as the `int` the code computes,
lies in the buffer.  Nothing is known of `startIndex + elementCount`. -/
theorem vertexBuffer_setData_checked {T : Type} (b : VertexBuffer)
    (native : IDirect3DVertexBuffer9) (sizeofT : Nat) (offsetInBytes : Int)
    (data : Option (List T)) (startIndex elementCount options : Int)
    (h : (b.SetData native sizeofT offsetInBytes data startIndex elementCount options).trace
      ≠ []) :
    ∃ array, data = some array ∧ 0 ≤ startIndex ∧ startIndex < (array.length : Int)
      ∧ 0 ≤ offsetInBytes ∧ offsetInBytes < b._length ∧ 0 ≤ elementCount
      ∧ wrapInt32 (offsetInBytes + wrapInt32 (elementCount * (sizeofT : Int))) ≤ b._length := by
  unfold VertexBuffer.SetData at h
  cases data with
  | none => exact absurd rfl h
  | some array =>
    simp only [] at h
    split_ifs at h with h1 h2 h3 h4
    · exact absurd rfl h
    · exact absurd rfl h
    · exact absurd rfl h
    · exact absurd rfl h
    · exact ⟨array, rfl, by omega, by omega, by omega, by omega, by omega, by omega⟩

end Fluggo
